import Mathlib

/-!
# Google Meet Yapper firmware: input conditioning and device state

A shallow embedding of the firmware sources (touch sensor calibration, rotary
encoder filter, device controller and Bluetooth transport) together with the
properties of the specification that have been checked against it.

Conventions of the embedding:

* a C++ object is a structure, a member function is a function from the old
  object (and the singletons it reaches through the global accessors) to the
  new one;
* a callback pointer is a `Bool` (registered or null); a function that may
  invoke the callback returns the list of invocations it made, in order;
* `int` is a 32-bit two-complement integer (`wrapInt32`), `unsigned long` and
  `uint32_t` are taken modulo `2^32`, `uint8_t` modulo `256`;
* `millis : Nat` arguments are the values returned by the `millis()` calls the
  function makes; `delay` and logging have no effect on the modelled state.
-/

namespace Yapper

/-! ## Machine arithmetic -/

/-- Value stored in a 32-bit `int` for the mathematical integer `x`. -/
def wrapInt32 (x : Int) : Int := (x + 2147483648) % 4294967296 - 2147483648

/-- Value stored in a `uint32_t` / `unsigned long` for the integer `x`. -/
def wrapUInt32 (x : Int) : Nat := (x % 4294967296).toNat

/-- Unsigned 32-bit subtraction `a - b`, as in `millis() - lastNotchTime`. -/
def subU32 (a b : Nat) : Nat := wrapUInt32 ((a : Int) - (b : Int))

/-! ## config.h -/

/-- Number of consistent direction readings needed to accept a direction. -/
def ENCODER_DIRECTION_CONSISTENCY : Int := 2

/-- Number of notches needed to trigger one rotation event. -/
def ENCODER_PRECISION_NOTCH_THRESHOLD : Int := 2

/-- Milliseconds after which the notch accumulator resets. -/
def ENCODER_PRECISION_RESET_TIMEOUT : Nat := 500

/-- Debounce time in milliseconds. -/
def DEBOUNCE_TIME : Nat := 50

/-- Length of one calibration stage in milliseconds. -/
def CALIBRATION_INTERVAL : Nat := 5000

/-! ## hardware/led_strip -/

/-- Packed colour value produced by `strip.Color(r, g, b)`. -/
structure Color where
  r : Nat
  g : Nat
  b : Nat
deriving DecidableEq, Repr

/-- All pixels dark: the pixel value left by `strip.clear()`. -/
def Color.off : Color := ⟨0, 0, 0⟩

/-- The LED strip singleton: every control method used by the firmware fills
the whole strip with one colour, so the strip is the colour it shows. -/
structure LedStrip where
  shown : Color
  brightness : Nat
deriving DecidableEq, Repr

/-- Predefined colour `colorRed()`. -/
def LedStrip.colorRed : Color := ⟨255, 0, 0⟩

/-- Predefined colour `colorGreen()`. -/
def LedStrip.colorGreen : Color := ⟨0, 255, 0⟩

/-- Predefined colour `colorBlue()`. -/
def LedStrip.colorBlue : Color := ⟨0, 0, 255⟩

/-- Predefined colour `colorMagenta()`. -/
def LedStrip.colorMagenta : Color := ⟨255, 0, 255⟩

/-- `LedStrip::setColor(uint32_t)`: fill the strip and show it. -/
def LedStrip.setColor (l : LedStrip) (color : Color) : LedStrip :=
  { l with shown := color }

/-- `LedStrip::setColor(uint8_t r, uint8_t g, uint8_t b)`. -/
def LedStrip.setColorRGB (l : LedStrip) (r g b : Nat) : LedStrip :=
  l.setColor ⟨r % 256, g % 256, b % 256⟩

/-- `LedStrip::clear()`: clear the strip and show it. -/
def LedStrip.clear (l : LedStrip) : LedStrip :=
  { l with shown := Color.off }

/-! ## hardware/touch_sensor -/

/-- Events delivered to the touch callback. -/
inductive TouchEvent where
  | TOUCH_PRESSED
  | TOUCH_RELEASED
deriving DecidableEq, Repr

/-- The `touch-settings` namespace of the persistent key-value store; a key
that was never written is `none`. Values are unsigned 32-bit. -/
structure TouchSettings where
  untouched : Option Nat
  touched : Option Nat
  touchThresh : Option Nat
deriving DecidableEq, Repr

/-- Data members of `class TouchSensor`. -/
structure TouchSensor where
  touchPin : Nat
  debounceTime : Nat
  touchThreshold : Int
  touchState : Int
  lastReading : Int
  lastDebounceTime : Nat
  calibrationInProgress : Bool
  calibrationComplete : Bool
  calibrationStartTime : Nat
  calibrationStage : Int
  untouchedValue : Int
  touchedValue : Int
  callback : Bool
deriving DecidableEq, Repr

/-- The constructor `TouchSensor::TouchSensor(touchPin, debounceTime)`. -/
def TouchSensor.new (touchPin : Nat) (debounceTime : Nat) : TouchSensor :=
  { touchPin := touchPin
    debounceTime := debounceTime
    touchThreshold := 0
    touchState := 0
    lastReading := 0
    lastDebounceTime := 0
    calibrationInProgress := false
    calibrationComplete := false
    calibrationStartTime := 0
    calibrationStage := 0
    untouchedValue := 0
    touchedValue := 0
    callback := false }

/-- `TouchSensor::saveSettings`: the three `putUInt` calls. -/
def TouchSensor.saveSettings (s : TouchSensor) (_prefs : TouchSettings) : TouchSettings :=
  { untouched := some (wrapUInt32 s.untouchedValue)
    touched := some (wrapUInt32 s.touchedValue)
    touchThresh := some (wrapUInt32 s.touchThreshold) }

/-- `TouchSensor::startCalibration`; `millis` is the clock reading. -/
def TouchSensor.startCalibration (s : TouchSensor) (led : LedStrip) (millis : Nat) :
    TouchSensor × LedStrip :=
  ({ s with
      calibrationInProgress := true
      calibrationStage := 0
      calibrationStartTime := millis
      calibrationComplete := false },
   led.setColor LedStrip.colorBlue)

/-- `TouchSensor::completeCalibration(int baselineValue)`. The first stage
stores the untouched baseline and moves on; the second stores the touched
value, computes the threshold, saves and leaves calibration. -/
def TouchSensor.completeCalibration (s : TouchSensor) (led : LedStrip) (prefs : TouchSettings)
    (baselineValue : Int) (millis : Nat) : TouchSensor × LedStrip × TouchSettings :=
  if s.calibrationStage = 0 then
    ({ s with
        untouchedValue := baselineValue
        calibrationStage := 1
        calibrationStartTime := millis },
     led.setColor LedStrip.colorMagenta,
     prefs)
  else
    let s1 := { s with touchedValue := baselineValue }
    let s2 :=
      if s1.touchedValue > s1.untouchedValue then
        { s1 with touchThreshold :=
            wrapInt32 (s1.untouchedValue +
              Int.tdiv (wrapInt32 (s1.touchedValue - s1.untouchedValue)) 2) }
      else
        { s1 with touchThreshold :=
            wrapInt32 (s1.touchedValue +
              Int.tdiv (wrapInt32 (s1.untouchedValue - s1.touchedValue)) 2) }
    let s3 := { s2 with calibrationComplete := true }
    let prefs1 := s3.saveSettings prefs
    ({ s3 with calibrationInProgress := false }, led.clear, prefs1)

/-- Both calibration stages in a row: stage 0 finishes with the untouched
average `u` (clock `m0`), stage 1 with the touched average `t` (clock `m1`). -/
def TouchSensor.calibrateBoth (s : TouchSensor) (led : LedStrip) (prefs : TouchSettings)
    (u t : Int) (m0 m1 : Nat) : TouchSensor × LedStrip × TouchSettings :=
  let r := s.completeCalibration led prefs u m0
  r.1.completeCalibration r.2.1 r.2.2 t m1

/-- `TouchSensor::setCallback`; `false` is the null pointer. -/
def TouchSensor.setCallback (s : TouchSensor) (callback : Bool) : TouchSensor :=
  { s with callback := callback }

/-- `TouchSensor::loadSettings`: the three `getUInt` calls with default 0
(the stored unsigned values are assigned to `int` members) and the check
that both baselines are present. -/
def TouchSensor.loadSettings (s : TouchSensor) (prefs : TouchSettings) : TouchSensor :=
  let s := { s with untouchedValue := wrapInt32 (prefs.untouched.getD 0) }
  let s := { s with touchedValue := wrapInt32 (prefs.touched.getD 0) }
  let s := { s with touchThreshold := wrapInt32 (prefs.touchThresh.getD 0) }
  if s.untouchedValue > 0 ∧ s.touchedValue > 0 then
    { s with calibrationComplete := true }
  else
    { s with calibrationComplete := false, touchThreshold := 0 }

/-- `TouchSensor::begin`; `millis` is the clock read by `startCalibration`. -/
def TouchSensor.begin (s : TouchSensor) (led : LedStrip) (prefs : TouchSettings)
    (millis : Nat) : TouchSensor × LedStrip :=
  let s := s.loadSettings prefs
  if !s.calibrationComplete then s.startCalibration led millis else (s, led)

/-- The sampling loop of `TouchSensor::update`: 200 calls of `touchRead`,
the i-th returning `touchRead i`, summed in a `long` and divided by 200. -/
def TouchSensor.sampleAverage (touchRead : Nat → Nat) : Int :=
  let sampleSum := (List.range 200).foldl
    (fun (sum : Int) i => wrapInt32 (sum + (touchRead i : Int))) 0
  Int.tdiv sampleSum 200

/-- The debounce block of `TouchSensor::update`: a thresholded reading that
differs from the previous one restarts the debounce clock. -/
def TouchSensor.debounce (s : TouchSensor) (currentMillis : Nat) (currentReading : Int) :
    TouchSensor :=
  if currentReading ≠ s.lastReading then { s with lastDebounceTime := currentMillis } else s

/-- The state-change block of `TouchSensor::update`: once the reading has been
stable for more than `debounceTime`, a reading that differs from `touchState`
becomes the new state and the callback, when registered, is notified. -/
def TouchSensor.notify (s : TouchSensor) (currentMillis : Nat) (currentReading : Int) :
    TouchSensor × List TouchEvent :=
  if subU32 currentMillis s.lastDebounceTime > s.debounceTime then
    if currentReading ≠ s.touchState then
      let s2 := { s with touchState := currentReading }
      if s2.callback then
        if s2.touchState ≠ 0 then (s2, [TouchEvent.TOUCH_PRESSED])
        else (s2, [TouchEvent.TOUCH_RELEASED])
      else (s2, [])
    else (s, [])
  else (s, [])

/-- `TouchSensor::update`. `currentMillis` is the clock read on entry,
`touchRead i` the value of the i-th `touchRead` call made by this update and
`millisStage` the clock read inside `completeCalibration`. The last component
lists the callback invocations. The steady-state part runs the debounce block
and the state-change block in the order of the source and then stores the
reading in `lastReading`. -/
def TouchSensor.update (s : TouchSensor) (led : LedStrip) (prefs : TouchSettings)
    (currentMillis : Nat) (touchRead : Nat → Nat) (millisStage : Nat) :
    TouchSensor × LedStrip × TouchSettings × List TouchEvent :=
  if s.calibrationInProgress then
    if subU32 currentMillis s.calibrationStartTime > CALIBRATION_INTERVAL then
      let sampleAverage := TouchSensor.sampleAverage touchRead
      let r := s.completeCalibration led prefs sampleAverage millisStage
      (r.1, r.2.1, r.2.2, [])
    else
      let blinkRate := if s.calibrationStage = 0 then 500 else 250
      if (currentMillis / blinkRate) % 2 ≠ 0 then
        if s.calibrationStage = 0 then
          (s, led.setColor LedStrip.colorBlue, prefs, [])
        else
          (s, led.setColor LedStrip.colorMagenta, prefs, [])
      else
        (s, led.clear, prefs, [])
  else if !s.calibrationComplete then
    (s, led, prefs, [])
  else
    let touchValue := wrapInt32 (touchRead 0)
    let currentReading : Int := if touchValue > s.touchThreshold then 1 else 0
    let r := (s.debounce currentMillis currentReading).notify currentMillis currentReading
    ({ r.1 with lastReading := currentReading }, led, prefs, r.2)

/-- One call made on the touch sensor, with the clock and sensor values it
reads. -/
inductive TouchCall where
  | update (currentMillis : Nat) (touchRead : Nat → Nat) (millisStage : Nat)
  | startCalibration (millis : Nat)
  | completeCalibration (baselineValue : Int) (millis : Nat)

/-- Perform one call on the sensor and the singletons it uses. -/
def TouchSensor.call (w : TouchSensor × LedStrip × TouchSettings) :
    TouchCall → (TouchSensor × LedStrip × TouchSettings) × List TouchEvent
  | TouchCall.update currentMillis touchRead millisStage =>
    let r := w.1.update w.2.1 w.2.2 currentMillis touchRead millisStage
    ((r.1, r.2.1, r.2.2.1), r.2.2.2)
  | TouchCall.startCalibration millis =>
    let r := w.1.startCalibration w.2.1 millis
    ((r.1, r.2, w.2.2), [])
  | TouchCall.completeCalibration baselineValue millis =>
    (w.1.completeCalibration w.2.1 w.2.2 baselineValue millis, [])

/-- Perform a sequence of calls; the callback invocations are collected in
order. -/
def TouchSensor.calls (w : TouchSensor × LedStrip × TouchSettings) :
    List TouchCall → (TouchSensor × LedStrip × TouchSettings) × List TouchEvent
  | [] => (w, [])
  | c :: rest =>
    let r := TouchSensor.call w c
    let t := TouchSensor.calls r.1 rest
    (t.1, r.2 ++ t.2)

/-- Whether a sequence of touch events strictly alternates, starting with
TouchPressed when `pressedNext` and with TouchReleased otherwise. -/
def TouchEvent.alternates (pressedNext : Bool) : List TouchEvent → Bool
  | [] => true
  | TouchEvent.TOUCH_PRESSED :: rest => pressedNext && TouchEvent.alternates false rest
  | TouchEvent.TOUCH_RELEASED :: rest => !pressedNext && TouchEvent.alternates true rest

/-! ## hardware/rotary_encoder -/

/-- Events delivered to the encoder callback; also the raw delta direction. -/
inductive EncoderEvent where
  | ENCODER_CLOCKWISE
  | ENCODER_COUNTER_CLOCKWISE
deriving DecidableEq, Repr

/-- Data members of `class RotaryEncoder` (the click button is a separate
object and does not share state with the rotation filter). -/
structure RotaryEncoder where
  lastCount : Int
  lastUpdateCount : Int
  callback : Bool
  notchAccumulator : Int
  accumulatedDirection : EncoderEvent
  lastNotchTime : Nat
  lastDirection : EncoderEvent
  consistentDirectionCount : Int
deriving DecidableEq, Repr

/-- The constructor together with the default member initialisers. -/
def RotaryEncoder.new : RotaryEncoder :=
  { lastCount := 0
    lastUpdateCount := 0
    callback := false
    notchAccumulator := 0
    accumulatedDirection := EncoderEvent.ENCODER_CLOCKWISE
    lastNotchTime := 0
    lastDirection := EncoderEvent.ENCODER_CLOCKWISE
    consistentDirectionCount := 0 }

/-- `RotaryEncoder::setCallback`; `false` is the null pointer. -/
def RotaryEncoder.setCallback (s : RotaryEncoder) (callback : Bool) : RotaryEncoder :=
  { s with callback := callback }

/-- `RotaryEncoder::handleEncoderEvent(event)`; `millis` is the value the
`millis()` call returns. The second component lists the callback invocations. -/
def RotaryEncoder.handleEncoderEvent (s : RotaryEncoder) (event : EncoderEvent) (millis : Nat) :
    RotaryEncoder × List EncoderEvent :=
  -- directional bounce filtering
  let s1 :=
    if event = s.lastDirection then
      { s with consistentDirectionCount := wrapInt32 (s.consistentDirectionCount + 1) }
    else
      { s with consistentDirectionCount := 1, lastDirection := event }
  if s1.consistentDirectionCount < ENCODER_DIRECTION_CONSISTENCY then
    (s1, [])
  else
    let currentTime := millis
    -- reset accumulator if direction changed or timeout occurred
    let s2 :=
      if event ≠ s1.accumulatedDirection ∨
          subU32 currentTime s1.lastNotchTime ≥ ENCODER_PRECISION_RESET_TIMEOUT then
        { s1 with notchAccumulator := 0, accumulatedDirection := event }
      else s1
    let s3 := { s2 with
      notchAccumulator := wrapInt32 (s2.notchAccumulator + 1)
      lastNotchTime := currentTime }
    if s3.notchAccumulator ≥ ENCODER_PRECISION_NOTCH_THRESHOLD then
      ({ s3 with notchAccumulator := 0 }, if s3.callback then [event] else [])
    else
      (s3, [])

/-- The rotation part of `RotaryEncoder::update`: `currentCount` is the tick
counter read from the hardware, `millisEvent` the clock read inside
`handleEncoderEvent` and `millisCheck` the clock read by the timeout check. -/
def RotaryEncoder.update (s : RotaryEncoder) (currentCount : Int) (millisEvent millisCheck : Nat) :
    RotaryEncoder × List EncoderEvent :=
  let r :=
    if currentCount ≠ s.lastUpdateCount then
      let event :=
        if currentCount > s.lastUpdateCount then EncoderEvent.ENCODER_CLOCKWISE
        else EncoderEvent.ENCODER_COUNTER_CLOCKWISE
      let h := s.handleEncoderEvent event millisEvent
      ({ h.1 with lastUpdateCount := currentCount }, h.2)
    else
      (s, [])
  let s1 := r.1
  let s2 :=
    if s1.notchAccumulator > 0 then
      if subU32 millisCheck s1.lastNotchTime ≥ ENCODER_PRECISION_RESET_TIMEOUT then
        { s1 with notchAccumulator := 0 }
      else s1
    else s1
  (s2, r.2)

/-- Feed a sequence of raw deltas, each with the clock value at its arrival,
to `handleEncoderEvent`; the callback invocations are collected in order. -/
def RotaryEncoder.feed (s : RotaryEncoder) : List (EncoderEvent × Nat) →
    RotaryEncoder × List EncoderEvent
  | [] => (s, [])
  | (event, millis) :: rest =>
    let h := s.handleEncoderEvent event millis
    let r := RotaryEncoder.feed h.1 rest
    (r.1, h.2 ++ r.2)

/-- Run `update` once per poll of the main loop; a poll is the tick counter
read from the hardware and the two clock values of `RotaryEncoder.update`. -/
def RotaryEncoder.poll (s : RotaryEncoder) : List (Int × Nat × Nat) →
    RotaryEncoder × List EncoderEvent
  | [] => (s, [])
  | (currentCount, millisEvent, millisCheck) :: rest =>
    let u := s.update currentCount millisEvent millisCheck
    let r := RotaryEncoder.poll u.1 rest
    (r.1, u.2 ++ r.2)

/-- One call made on the encoder, with the counter and clock values it reads. -/
inductive EncoderCall where
  | handleEncoderEvent (event : EncoderEvent) (millis : Nat)
  | update (currentCount : Int) (millisEvent millisCheck : Nat)
deriving DecidableEq, Repr

/-- Perform one call on the encoder. -/
def RotaryEncoder.call (s : RotaryEncoder) : EncoderCall → RotaryEncoder × List EncoderEvent
  | EncoderCall.handleEncoderEvent event millis => s.handleEncoderEvent event millis
  | EncoderCall.update currentCount millisEvent millisCheck =>
    s.update currentCount millisEvent millisCheck

/-- Perform a sequence of calls on the encoder, yielding the final state. -/
def RotaryEncoder.calls (s : RotaryEncoder) (cs : List EncoderCall) : RotaryEncoder :=
  cs.foldl (fun s c => (s.call c).1) s

/-! ## communication/bluetooth_handler -/

/-- State of one report characteristic of the BLE stack: the value last
stored with `setValue` and the values pushed to the peers by `notify`, oldest
first. -/
structure BLECharacteristic where
  value : List Nat
  notified : List (List Nat)
deriving DecidableEq, Repr

/-- The characteristic pointers held by `BluetoothHandler`. -/
inductive CharRef where
  | headsetInput
  | headsetOutput
  | keyboardInput
  | consumerInput
deriving DecidableEq, Repr

/-- One call of a high-level send method: which report, with which payload. -/
inductive Request where
  | headset (reportValue : Nat)
  | keyboard (report : List Nat)
  | consumer (report : Nat)
deriving DecidableEq, Repr

/-- Data members of `class BluetoothHandler`. A characteristic pointer is
`none` while null and otherwise holds the state of the object it points to.
`requests` is not a data member: it records, in order, the reports handed to
`sendHeadsetReport`, `sendKeyboardReport` and `sendConsumerReport`, whether or
not they could be delivered. `pServer` tells whether the server pointer is
set and `advertising` whether the advertising of that server was started. The
three `Cccd` fields are the values of the notification descriptors (UUID
0x2902) of the input characteristics, `none` when the characteristic has no
such descriptor. -/
structure BluetoothHandler where
  connectedClients : Nat
  headsetInput : Option BLECharacteristic
  headsetOutput : Option BLECharacteristic
  keyboardInput : Option BLECharacteristic
  consumerInput : Option BLECharacteristic
  hostStateCallback : Bool
  requests : List Request
  pServer : Bool
  advertising : Bool
  headsetInputCccd : Option (List Nat)
  keyboardInputCccd : Option (List Nat)
  consumerInputCccd : Option (List Nat)
deriving DecidableEq, Repr

/-- The constructor `BluetoothHandler::BluetoothHandler()`. -/
def BluetoothHandler.new : BluetoothHandler :=
  { connectedClients := 0
    headsetInput := none
    headsetOutput := none
    keyboardInput := none
    consumerInput := none
    hostStateCallback := false
    requests := []
    pServer := false
    advertising := false
    headsetInputCccd := none
    keyboardInputCccd := none
    consumerInputCccd := none }

/-- Dereference one of the characteristic pointers. -/
def BluetoothHandler.characteristic (h : BluetoothHandler) : CharRef → Option BLECharacteristic
  | CharRef.headsetInput => h.headsetInput
  | CharRef.headsetOutput => h.headsetOutput
  | CharRef.keyboardInput => h.keyboardInput
  | CharRef.consumerInput => h.consumerInput

/-- Store a new state of the object behind one of the characteristic pointers. -/
def BluetoothHandler.setCharacteristic (h : BluetoothHandler) (c : CharRef)
    (v : BLECharacteristic) : BluetoothHandler :=
  match c with
  | CharRef.headsetInput => { h with headsetInput := some v }
  | CharRef.headsetOutput => { h with headsetOutput := some v }
  | CharRef.keyboardInput => { h with keyboardInput := some v }
  | CharRef.consumerInput => { h with consumerInput := some v }

/-- `BluetoothHandler::setHostStateCallback`; `false` is the null pointer. -/
def BluetoothHandler.setHostStateCallback (h : BluetoothHandler) (callback : Bool) :
    BluetoothHandler :=
  { h with hostStateCallback := callback }

/-- `BluetoothHandler::getConnectedClients`. -/
def BluetoothHandler.getConnectedClients (h : BluetoothHandler) : Nat := h.connectedClients

/-- `BluetoothHandler::sendReport(characteristic, report, length)`: with a
peer and a bound characteristic the first `length` bytes are stored in the
characteristic and notified. -/
def BluetoothHandler.sendReport (h : BluetoothHandler) (characteristic : CharRef)
    (report : List Nat) (length : Nat) : BluetoothHandler × Bool :=
  match h.characteristic characteristic with
  | none => (h, false)
  | some c =>
    if h.connectedClients = 0 then (h, false)
    else
      let bytes := report.take length
      (h.setCharacteristic characteristic
        { value := bytes, notified := c.notified ++ [bytes] }, true)

/-- `BluetoothHandler::sendHeadsetReport(uint8_t reportValue)`. -/
def BluetoothHandler.sendHeadsetReport (h : BluetoothHandler) (reportValue : Nat) :
    BluetoothHandler × Bool :=
  let reportValue := reportValue % 256
  let h := { h with requests := h.requests ++ [Request.headset reportValue] }
  if h.headsetInput.isNone then (h, false)
  else if h.connectedClients = 0 then (h, false)
  else h.sendReport CharRef.headsetInput [reportValue] 1

/-- `BluetoothHandler::sendKeyboardReport(uint8_t* reportValue)`: the report
is the 8-byte array the pointer refers to. -/
def BluetoothHandler.sendKeyboardReport (h : BluetoothHandler) (reportValue : List Nat) :
    BluetoothHandler × Bool :=
  let h := { h with requests := h.requests ++ [Request.keyboard (reportValue.take 8)] }
  if h.keyboardInput.isNone then (h, false)
  else if h.connectedClients = 0 then (h, false)
  else h.sendReport CharRef.keyboardInput reportValue 8

/-- `BluetoothHandler::sendConsumerReport(uint16_t consumerCode)`: the report
is the low byte of the code. -/
def BluetoothHandler.sendConsumerReport (h : BluetoothHandler) (consumerCode : Nat) :
    BluetoothHandler × Bool :=
  let consumerCode := consumerCode % 65536
  let report := (consumerCode &&& 0xFF) % 256
  let h := { h with requests := h.requests ++ [Request.consumer report] }
  if h.consumerInput.isNone then (h, false)
  else if h.connectedClients = 0 then (h, false)
  else h.sendReport CharRef.consumerInput [report] 1

/-- `BluetoothHandler::isConnected`. -/
def BluetoothHandler.isConnected (h : BluetoothHandler) : Bool :=
  decide (h.connectedClients > 0)

/-- `BluetoothHandler::startAdvertising`: without a server nothing is
started. -/
def BluetoothHandler.startAdvertising (h : BluetoothHandler) : BluetoothHandler :=
  if !h.pServer then h else { h with advertising := true }

/-- The lambda `enableNotifications` of `onConnect`: when the characteristic
is bound and has a 0x2902 descriptor, the descriptor value becomes 01 00. -/
def MultiClientServerCallbacks.enableNotifications (h : BluetoothHandler)
    (characteristic : CharRef) : BluetoothHandler :=
  match h.characteristic characteristic with
  | none => h
  | some _ =>
    match characteristic with
    | CharRef.headsetInput =>
      if h.headsetInputCccd.isSome then { h with headsetInputCccd := some [0x01, 0x00] } else h
    | CharRef.keyboardInput =>
      if h.keyboardInputCccd.isSome then { h with keyboardInputCccd := some [0x01, 0x00] } else h
    | CharRef.consumerInput =>
      if h.consumerInputCccd.isSome then { h with consumerInputCccd := some [0x01, 0x00] } else h
    | CharRef.headsetOutput => h

/-- `MultiClientServerCallbacks::onConnect`: count the peer (a `uint32_t`
increment) and enable the notifications of the three input characteristics. -/
def MultiClientServerCallbacks.onConnect (h : BluetoothHandler) : BluetoothHandler :=
  let h := { h with connectedClients := wrapUInt32 ((h.connectedClients : Int) + 1) }
  let h := MultiClientServerCallbacks.enableNotifications h CharRef.headsetInput
  let h := MultiClientServerCallbacks.enableNotifications h CharRef.keyboardInput
  MultiClientServerCallbacks.enableNotifications h CharRef.consumerInput

/-- `MultiClientServerCallbacks::onDisconnect`: a `uint32_t` decrement. -/
def MultiClientServerCallbacks.onDisconnect (h : BluetoothHandler) : BluetoothHandler :=
  { h with connectedClients := wrapUInt32 ((h.connectedClients : Int) - 1) }

/-- A connection event of the BLE server. -/
inductive ServerEvent where
  | connect
  | disconnect
deriving DecidableEq, Repr

/-- The server callback the BLE stack invokes for one connection event. -/
def MultiClientServerCallbacks.handle (h : BluetoothHandler) : ServerEvent → BluetoothHandler
  | ServerEvent.connect => MultiClientServerCallbacks.onConnect h
  | ServerEvent.disconnect => MultiClientServerCallbacks.onDisconnect h

/-- The server callbacks for a sequence of connection events, in order. -/
def MultiClientServerCallbacks.run (h : BluetoothHandler) (events : List ServerEvent) :
    BluetoothHandler :=
  events.foldl MultiClientServerCallbacks.handle h

/-- Whether every disconnect of the sequence ends a connection that is still
counted, starting from `count` counted peers, and the count stays below
`2^32`. -/
def ServerEvent.balanced (count : Nat) : List ServerEvent → Bool
  | [] => true
  | ServerEvent.connect :: rest =>
    decide (count + 1 < 4294967296) && ServerEvent.balanced (count + 1) rest
  | ServerEvent.disconnect :: rest =>
    decide (0 < count) && ServerEvent.balanced (count - 1) rest

/-- Number of connects minus number of disconnects of an event sequence. -/
def ServerEvent.net : List ServerEvent → Int
  | [] => 0
  | ServerEvent.connect :: rest => ServerEvent.net rest + 1
  | ServerEvent.disconnect :: rest => ServerEvent.net rest - 1

/-- The callback `OutputCallbacks::onWrite`, with `value` the bytes written to
the LED output characteristic. The result lists the invocations of the host
state callback as pairs `(callActive, muteState)`. -/
def OutputCallbacks.onWrite (h : BluetoothHandler) (value : List Nat) : List (Bool × Bool) :=
  if value.length > 0 then
    let reportData := value.getD 0 0 % 256
    let ledMuteState := decide (reportData &&& 0x01 ≠ 0)
    let ledOffHookState := decide (reportData &&& 0x02 ≠ 0)
    if h.hostStateCallback then [(ledOffHookState, ledMuteState)] else []
  else []

/-! ## communication/keyboard_handler -/

/-- Modifier bit of the left control key. -/
def KEY_LEFT_CTRL : Nat := 0x01

/-- Modifier bit of the left shift key. -/
def KEY_LEFT_SHIFT : Nat := 0x02

/-- Usage id of the F1 key. -/
def KEY_F1 : Nat := 0x3A

/-- Modifier bit of the left alt key. -/
def KEY_LEFT_ALT : Nat := 0x04

/-- Modifier bit of the right control key. -/
def KEY_RIGHT_CTRL : Nat := 0x10

/-- Modifier bit of the right alt key. -/
def KEY_RIGHT_ALT : Nat := 0x40

/-- Usage id of the A key. -/
def KEY_A : Nat := 0x04

/-- Usage id of the E key. -/
def KEY_E : Nat := 0x08

/-- Usage id of the H key. -/
def KEY_H : Nat := 0x0B

/-- Usage id named `KEY_LEFT_ARROW` in the header. -/
def KEY_LEFT_ARROW : Nat := 0x50

/-- Usage id named `KEY_RIGHT_ARROW` in the header. -/
def KEY_RIGHT_ARROW : Nat := 0x4F

/-- Consumer control bit for volume up (hidmap.h). -/
def CONSUMER_VOLUME_UP : Nat := 0x01

/-- Consumer control bit for volume down (hidmap.h). -/
def CONSUMER_VOLUME_DOWN : Nat := 0x02

/-- Consumer control bit for mute (hidmap.h). -/
def CONSUMER_MUTE : Nat := 0x04

/-- `KeyboardHandler::sendKeys(modifiers, key1, ..., key5)`; every argument
is a `uint8_t`. -/
def KeyboardHandler.sendKeys (ble : BluetoothHandler)
    (modifiers key1 key2 key3 key4 key5 : Nat) : BluetoothHandler × Bool :=
  let keyReport := [modifiers % 256, 0, key1 % 256, key2 % 256, key3 % 256, key4 % 256,
    key5 % 256, 0]
  ble.sendKeyboardReport keyReport

/-- `KeyboardHandler::releaseAllKeys`. -/
def KeyboardHandler.releaseAllKeys (ble : BluetoothHandler) : BluetoothHandler :=
  (ble.sendKeyboardReport [0, 0, 0, 0, 0, 0, 0, 0]).1

/-- `KeyboardHandler::sendCtrlShiftF1`. -/
def KeyboardHandler.sendCtrlShiftF1 (ble : BluetoothHandler) : BluetoothHandler :=
  let ble := (KeyboardHandler.sendKeys ble (KEY_LEFT_CTRL ||| KEY_LEFT_SHIFT) KEY_F1 0 0 0 0).1
  KeyboardHandler.releaseAllKeys ble

/-- `KeyboardHandler::sendRightArrow`. -/
def KeyboardHandler.sendRightArrow (ble : BluetoothHandler) : BluetoothHandler :=
  let ble := (KeyboardHandler.sendKeys ble 0 KEY_RIGHT_ARROW 0 0 0 0).1
  KeyboardHandler.releaseAllKeys ble

/-- `KeyboardHandler::sendLeftArrow`. -/
def KeyboardHandler.sendLeftArrow (ble : BluetoothHandler) : BluetoothHandler :=
  let ble := (KeyboardHandler.sendKeys ble 0 KEY_LEFT_ARROW 0 0 0 0).1
  KeyboardHandler.releaseAllKeys ble

/-- `KeyboardHandler::sendCtrlE`. -/
def KeyboardHandler.sendCtrlE (ble : BluetoothHandler) : BluetoothHandler :=
  let ble := (KeyboardHandler.sendKeys ble KEY_LEFT_CTRL KEY_E 0 0 0 0).1
  KeyboardHandler.releaseAllKeys ble

/-- `KeyboardHandler::sendCtrlAltH`. -/
def KeyboardHandler.sendCtrlAltH (ble : BluetoothHandler) : BluetoothHandler :=
  let ble := (KeyboardHandler.sendKeys ble (KEY_LEFT_CTRL ||| KEY_LEFT_ALT) 0 0 0 0 0).1
  let ble := (KeyboardHandler.sendKeys ble (KEY_LEFT_CTRL ||| KEY_LEFT_ALT) KEY_H 0 0 0 0).1
  let ble := (KeyboardHandler.sendKeys ble (KEY_LEFT_CTRL ||| KEY_LEFT_ALT) 0 0 0 0 0).1
  KeyboardHandler.releaseAllKeys ble

/-- `KeyboardHandler::sendCtrlAltHAlternative1` (sequential key presses). -/
def KeyboardHandler.sendCtrlAltHAlternative1 (ble : BluetoothHandler) : BluetoothHandler :=
  let ble := (KeyboardHandler.sendKeys ble (KEY_LEFT_CTRL ||| KEY_LEFT_ALT) 0 0 0 0 0).1
  let ble := (KeyboardHandler.sendKeys ble (KEY_LEFT_CTRL ||| KEY_LEFT_ALT) KEY_H 0 0 0 0).1
  KeyboardHandler.releaseAllKeys ble

/-- `KeyboardHandler::sendCtrlAltHAlternative2` (fast timing). -/
def KeyboardHandler.sendCtrlAltHAlternative2 (ble : BluetoothHandler) : BluetoothHandler :=
  let ble := (KeyboardHandler.sendKeys ble (KEY_LEFT_CTRL ||| KEY_LEFT_ALT) KEY_H 0 0 0 0).1
  KeyboardHandler.releaseAllKeys ble

/-- `KeyboardHandler::sendCtrlAltHAlternative3` (right modifiers). -/
def KeyboardHandler.sendCtrlAltHAlternative3 (ble : BluetoothHandler) : BluetoothHandler :=
  let ble := (KeyboardHandler.sendKeys ble (KEY_RIGHT_CTRL ||| KEY_RIGHT_ALT) KEY_H 0 0 0 0).1
  KeyboardHandler.releaseAllKeys ble

/-- `KeyboardHandler::sendA`. -/
def KeyboardHandler.sendA (ble : BluetoothHandler) : BluetoothHandler :=
  let ble := (KeyboardHandler.sendKeys ble 0 KEY_A 0 0 0 0).1
  KeyboardHandler.releaseAllKeys ble

/-- `KeyboardHandler::sendShortcut(uint8_t shortcutType)`: the cases are the
`SHORTCUT_` constants 1 to 8, any other type only logs a warning. -/
def KeyboardHandler.sendShortcut (ble : BluetoothHandler) (shortcutType : Nat) :
    BluetoothHandler :=
  match shortcutType % 256 with
  | 1 => KeyboardHandler.sendRightArrow ble
  | 2 => KeyboardHandler.sendLeftArrow ble
  | 3 => KeyboardHandler.sendCtrlShiftF1 ble
  | 4 => KeyboardHandler.sendCtrlE ble
  | 5 => KeyboardHandler.sendCtrlAltH ble
  | 6 => KeyboardHandler.sendCtrlAltHAlternative1 ble
  | 7 => KeyboardHandler.sendCtrlAltHAlternative2 ble
  | 8 => KeyboardHandler.sendCtrlAltHAlternative3 ble
  | _ => ble

/-- Property of a keyboard method `f`: whatever the transport state, what `f`
appends to the request log is a non-empty list of 8-byte keyboard reports
ending with the all-zero report. -/
def EndsWithRelease (f : BluetoothHandler → BluetoothHandler) : Prop :=
  ∀ ble : BluetoothHandler, ∃ reports : List (List Nat),
    (f ble).requests = ble.requests ++ reports.map Request.keyboard
    ∧ (∀ r ∈ reports, r.length = 8)
    ∧ reports.getLast? = some [0, 0, 0, 0, 0, 0, 0, 0]

/-- `KeyboardHandler::sendVolumeUp`. -/
def KeyboardHandler.sendVolumeUp (ble : BluetoothHandler) : BluetoothHandler :=
  let ble := (ble.sendConsumerReport CONSUMER_VOLUME_UP).1
  (ble.sendConsumerReport 0x00).1

/-- `KeyboardHandler::sendVolumeDown`. -/
def KeyboardHandler.sendVolumeDown (ble : BluetoothHandler) : BluetoothHandler :=
  let ble := (ble.sendConsumerReport CONSUMER_VOLUME_DOWN).1
  (ble.sendConsumerReport 0x00).1

/-- `KeyboardHandler::sendConsumerMute`. -/
def KeyboardHandler.sendConsumerMute (ble : BluetoothHandler) : BluetoothHandler :=
  let ble := (ble.sendConsumerReport CONSUMER_MUTE).1
  (ble.sendConsumerReport 0x00).1

/-! ## hardware/button -/

/-- Events delivered by a `Button`. -/
inductive ButtonEvent where
  | BUTTON_PRESSED
  | BUTTON_RELEASED
  | BUTTON_CLICKED
  | BUTTON_DOUBLE_CLICKED
  | BUTTON_LONG_PRESSED
deriving DecidableEq, Repr

/-- The `MultiButtonConfig` filled in by the `Button` constructor. -/
structure MultiButtonConfig where
  debounceDecay : Nat
  longClickDelay : Nat
  singleClickDelay : Nat
deriving DecidableEq, Repr

/-- Data members of `class Button`; the `PinButton` object belongs to the
MultiButton library. -/
structure Button where
  pin : Nat
  callback : Bool
  buttonConfig : MultiButtonConfig
deriving DecidableEq, Repr

/-- The constructor `Button::Button(buttonPin, debounceTime, longPressTime,
doubleClickTime)`. -/
def Button.new (buttonPin debounceTime longPressTime doubleClickTime : Nat) : Button :=
  { pin := buttonPin
    callback := false
    buttonConfig :=
      { debounceDecay := debounceTime
        longClickDelay := longPressTime
        singleClickDelay := doubleClickTime } }

/-- `Button::setCallback`; `false` is the null pointer. -/
def Button.setCallback (b : Button) (callback : Bool) : Button :=
  { b with callback := callback }

/-- What the `PinButton` object answers after its own `update()` in one poll. -/
structure PinButtonFlags where
  isSingleClick : Bool
  isDoubleClick : Bool
  isLongClick : Bool
  isReleased : Bool
deriving DecidableEq, Repr

/-- `Button::update`, given the answers of the `PinButton` object in this
poll: the callbacks made, in order. -/
def Button.update (b : Button) (flags : PinButtonFlags) : List ButtonEvent :=
  if b.callback then
    (if flags.isSingleClick then [ButtonEvent.BUTTON_CLICKED] else [])
    ++ (if flags.isDoubleClick then [ButtonEvent.BUTTON_DOUBLE_CLICKED] else [])
    ++ (if flags.isLongClick then [ButtonEvent.BUTTON_LONG_PRESSED] else [])
    ++ (if flags.isReleased then [ButtonEvent.BUTTON_RELEASED] else [])
  else []

/-- `Button::update` over consecutive polls. -/
def Button.updates (b : Button) (polls : List PinButtonFlags) : List ButtonEvent :=
  polls.flatMap b.update

/-- Modelled from the spec: a physical action on a button, as the input of the
click classification of the MultiButton library (not part of the repository):
how long the pin is held down and how long it then stays released before the
next press (or for good), in milliseconds. -/
structure Press where
  held : Nat
  gap : Nat
deriving DecidableEq, Repr

/-- No answer set in a poll. -/
def PinButtonFlags.none : PinButtonFlags := ⟨false, false, false, false⟩

/-- Modelled from the spec: whether a press is a short press-release of the
click classification of the MultiButton library (not part of the repository):
held for at least the debounce window and less than the long-press
threshold. -/
def Press.isShort (cfg : MultiButtonConfig) (p : Press) : Bool :=
  decide (cfg.debounceDecay ≤ p.held) && decide (p.held < cfg.longClickDelay)

/-- Modelled from the spec: the click classification of the `PinButton`
object of the MultiButton library, which is not part of the repository. For a
sequence of physical presses it gives the polls in which the object answers
something, as section 4.1 of the specification words it: a press shorter than
the debounce window gives no event; holding past the long-press threshold
gives LongPressed, then Released; two short press-releases inside the
double-click window give Released, DoubleClicked, Released and no Clicked; a
short press-release otherwise gives Released, then Clicked. -/
def PinButton.classify (cfg : MultiButtonConfig) : List Press → List PinButtonFlags
  | [] => []
  | [p] =>
    if p.held < cfg.debounceDecay then []
    else if cfg.longClickDelay ≤ p.held then
      [{ PinButtonFlags.none with isLongClick := true },
       { PinButtonFlags.none with isReleased := true }]
    else
      [{ PinButtonFlags.none with isReleased := true },
       { PinButtonFlags.none with isSingleClick := true }]
  | p :: q :: rest =>
    if p.held < cfg.debounceDecay then PinButton.classify cfg (q :: rest)
    else if cfg.longClickDelay ≤ p.held then
      { PinButtonFlags.none with isLongClick := true }
        :: { PinButtonFlags.none with isReleased := true }
        :: PinButton.classify cfg (q :: rest)
    else if p.gap < cfg.singleClickDelay ∧ q.isShort cfg then
      { PinButtonFlags.none with isReleased := true }
        :: { PinButtonFlags.none with isDoubleClick := true }
        :: { PinButtonFlags.none with isReleased := true }
        :: PinButton.classify cfg rest
    else
      { PinButtonFlags.none with isReleased := true }
        :: { PinButtonFlags.none with isSingleClick := true }
        :: PinButton.classify cfg (q :: rest)

/-! ## core/device_controller -/

/-- The device state variables of `class DeviceController`. -/
structure DeviceState where
  muteState : Bool
  dropState : Bool
  callActive : Bool
  pushToTalkMode : Bool
  touchPressed : Bool
  encoderVolumeMode : Bool
deriving DecidableEq, Repr

/-- Member initialisers of the device state variables. -/
def DeviceState.new : DeviceState :=
  { muteState := false
    dropState := false
    callActive := false
    pushToTalkMode := false
    touchPressed := false
    encoderVolumeMode := true }

/-- The controller instance together with the singletons its handlers reach
through `getLedStrip()` and `getBLEHandler()`. -/
structure Device where
  state : DeviceState
  led : LedStrip
  ble : BluetoothHandler
deriving DecidableEq, Repr

/-- `DeviceController::toggleMute`. -/
def DeviceState.toggleMute (s : DeviceState) : DeviceState :=
  { s with muteState := !s.muteState }

/-- `DeviceController::updateCallState(muteValue, dropValue)`. -/
def DeviceController.updateCallState (w : Device) (muteValue dropValue : Bool) : Device :=
  let reportValue := (if muteValue then 0x01 else 0x00) ||| (if dropValue then 0x02 else 0x00)
  { w with ble := (w.ble.sendHeadsetReport reportValue).1 }

/-- `DeviceController::updateLedCallStatus`. -/
def DeviceController.updateLedCallStatus (w : Device) : Device :=
  if !w.state.callActive then
    { w with led := w.led.clear }
  else
    let color := if w.state.muteState then LedStrip.colorRed else LedStrip.colorGreen
    { w with led := w.led.setColor color }

/-- `DeviceController::onLeftButtonEvent`. -/
def DeviceController.onLeftButtonEvent (w : Device) (event : ButtonEvent) : Device :=
  if !w.state.callActive then w
  else if event = ButtonEvent.BUTTON_CLICKED then
    { w with ble := KeyboardHandler.sendCtrlShiftF1 w.ble }
  else if event = ButtonEvent.BUTTON_LONG_PRESSED then
    let w := DeviceController.updateCallState w w.state.muteState true
    DeviceController.updateCallState w w.state.muteState false
  else w

/-- `DeviceController::onTouchEvent`. -/
def DeviceController.onTouchEvent (w : Device) (event : TouchEvent) : Device :=
  if event = TouchEvent.TOUCH_PRESSED then
    let w := { w with state := { w.state with touchPressed := true } }
    if !w.state.callActive then w
    else if w.state.pushToTalkMode then
      if w.state.muteState then
        let w := { w with state := { w.state with muteState := false } }
        let w := DeviceController.updateLedCallStatus w
        if w.ble.getConnectedClients > 0 then
          DeviceController.updateCallState w w.state.muteState w.state.dropState
        else w
      else w
    else
      let w := { w with state := w.state.toggleMute }
      let w := DeviceController.updateLedCallStatus w
      if w.ble.getConnectedClients > 0 then
        DeviceController.updateCallState w w.state.muteState w.state.dropState
      else w
  else if event = TouchEvent.TOUCH_RELEASED then
    let w := { w with state := { w.state with touchPressed := false } }
    if !w.state.callActive then w
    else if w.state.pushToTalkMode then
      let w := { w with state := { w.state with muteState := true } }
      let w := DeviceController.updateLedCallStatus w
      if w.ble.getConnectedClients > 0 then
        DeviceController.updateCallState w w.state.muteState w.state.dropState
      else w
    else w
  else w

/-- `DeviceController::togglePushToTalk`. -/
def DeviceState.togglePushToTalk (s : DeviceState) : DeviceState :=
  { s with pushToTalkMode := !s.pushToTalkMode }

/-- `DeviceController::toggleEncoderMode`. -/
def DeviceState.toggleEncoderMode (s : DeviceState) : DeviceState :=
  { s with encoderVolumeMode := !s.encoderVolumeMode }

/-- `DeviceController::onRightButtonEvent`. -/
def DeviceController.onRightButtonEvent (w : Device) (event : ButtonEvent) : Device :=
  if event = ButtonEvent.BUTTON_CLICKED then
    if !w.state.callActive then w
    else { w with ble := KeyboardHandler.sendCtrlAltH w.ble }
  else w

/-- `DeviceController::onEncoderButtonEvent`: the LED calls are made in the
order of the source, the delays between them are not modelled. -/
def DeviceController.onEncoderButtonEvent (w : Device) (event : ButtonEvent) : Device :=
  if event = ButtonEvent.BUTTON_CLICKED then
    if !w.state.callActive then
      let w := { w with state := w.state.toggleEncoderMode }
      if w.state.encoderVolumeMode then
        let led := w.led.setColor LedStrip.colorGreen
        let led := led.clear
        let led := led.setColor LedStrip.colorGreen
        let led := led.clear
        { w with led := led }
      else
        let led := w.led.setColorRGB 255 165 0
        let led := led.clear
        let led := led.setColorRGB 255 165 0
        let led := led.clear
        { w with led := led }
    else w
  else if event = ButtonEvent.BUTTON_DOUBLE_CLICKED then
    let w := { w with state := w.state.togglePushToTalk }
    let w :=
      if w.state.pushToTalkMode then
        let led := w.led.setColor LedStrip.colorBlue
        let led := led.clear
        let led := led.setColor LedStrip.colorBlue
        { w with led := led }
      else
        let led := w.led.setColorRGB 255 0 255
        let led := led.clear
        let led := led.setColorRGB 255 0 255
        { w with led := led }
    DeviceController.updateLedCallStatus w
  else if event = ButtonEvent.BUTTON_LONG_PRESSED then
    let w := { w with ble := w.ble.startAdvertising }
    let flash := fun (led : LedStrip) => (led.setColorRGB 0 0 255).clear
    { w with led := flash (flash (flash (flash (flash w.led)))) }
  else w

/-- `DeviceController::onEncoderEvent`. -/
def DeviceController.onEncoderEvent (w : Device) (event : EncoderEvent) : Device :=
  if w.state.encoderVolumeMode then
    match event with
    | EncoderEvent.ENCODER_CLOCKWISE =>
      { w with ble := KeyboardHandler.sendVolumeDown w.ble }
    | EncoderEvent.ENCODER_COUNTER_CLOCKWISE =>
      { w with ble := KeyboardHandler.sendVolumeUp w.ble }
  else
    match event with
    | EncoderEvent.ENCODER_CLOCKWISE =>
      { w with ble := KeyboardHandler.sendLeftArrow w.ble }
    | EncoderEvent.ENCODER_COUNTER_CLOCKWISE =>
      { w with ble := KeyboardHandler.sendRightArrow w.ble }

/-- `DeviceController::onHostStateUpdate(hostCallActive, hostMuteState)`. -/
def DeviceController.onHostStateUpdate (w : Device) (hostCallActive hostMuteState : Bool) :
    Device :=
  let w := { w with state := { w.state with callActive := hostCallActive } }
  let w := { w with state := { w.state with muteState := hostMuteState } }
  DeviceController.updateLedCallStatus w

/-- `DeviceController::staticHostStateCallback`: the instance pointer is set
by the constructor, so the call always reaches the controller. -/
def DeviceController.staticHostStateCallback (w : Device) (callActive muteState : Bool) :
    Device :=
  DeviceController.onHostStateUpdate w callActive muteState

/-- A write of `value` to the LED output characteristic: `onWrite` runs and
each invocation of the registered host state callback, which is
`staticHostStateCallback`, is applied to the controller. -/
def Device.hostWrite (w : Device) (value : List Nat) : Device :=
  (OutputCallbacks.onWrite w.ble value).foldl
    (fun w cm => DeviceController.staticHostStateCallback w cm.1 cm.2) w

/-- The call-status colour of a device state: off without a call, red for a
muted call, green for an unmuted call. -/
def DeviceState.statusColor (s : DeviceState) : Color :=
  if s.callActive then (if s.muteState then LedStrip.colorRed else LedStrip.colorGreen)
  else Color.off

/-- Whether the LED shows the call-status colour of the device state. -/
def Device.showsCallStatus (w : Device) : Bool :=
  decide (w.led.shown = w.state.statusColor)

/-! ## Touch calibration -/

theorem wrapInt32_of_range (x : Int) (h0 : -2147483648 ≤ x) (h1 : x < 2147483648) :
    wrapInt32 x = x := by
  unfold wrapInt32; omega

theorem completeCalibration_stage0 (s : TouchSensor) (led : LedStrip) (prefs : TouchSettings)
    (u : Int) (m : Nat) (hs : s.calibrationStage = 0) :
    s.completeCalibration led prefs u m =
      ({ s with untouchedValue := u, calibrationStage := 1, calibrationStartTime := m },
       led.setColor LedStrip.colorMagenta, prefs) := by
  simp [TouchSensor.completeCalibration, hs]

theorem threshold_stage1 (s : TouchSensor) (led : LedStrip) (prefs : TouchSettings)
    (t : Int) (m : Nat) (hs : s.calibrationStage ≠ 0)
    (hu0 : 0 ≤ s.untouchedValue) (hu1 : s.untouchedValue < 2147483648)
    (ht0 : 0 ≤ t) (ht1 : t < 2147483648) :
    (s.completeCalibration led prefs t m).1.touchThreshold =
      min s.untouchedValue t + Int.tdiv (max s.untouchedValue t - min s.untouchedValue t) 2 := by
  simp only [TouchSensor.completeCalibration, if_neg hs]
  by_cases h : t > s.untouchedValue
  · simp only [if_pos h]
    rw [wrapInt32_of_range (t - s.untouchedValue) (by omega) (by omega)]
    rw [min_eq_left (le_of_lt h), max_eq_right (le_of_lt h)]
    rw [Int.tdiv_eq_ediv (by omega) (by omega)]
    apply wrapInt32_of_range <;> omega
  · simp only [if_neg h]
    have h' : t ≤ s.untouchedValue := by omega
    rw [wrapInt32_of_range (s.untouchedValue - t) (by omega) (by omega)]
    rw [min_eq_right h', max_eq_left h']
    rw [Int.tdiv_eq_ediv (by omega) (by omega)]
    apply wrapInt32_of_range <;> omega

theorem calibrateBoth_threshold (s : TouchSensor) (led : LedStrip) (prefs : TouchSettings)
    (u t : Int) (m0 m1 : Nat) (hs : s.calibrationStage = 0)
    (hu0 : 0 ≤ u) (hu1 : u < 2147483648) (ht0 : 0 ≤ t) (ht1 : t < 2147483648) :
    (s.calibrateBoth led prefs u t m0 m1).1.touchThreshold =
      min u t + Int.tdiv (max u t - min u t) 2 := by
  unfold TouchSensor.calibrateBoth
  rw [completeCalibration_stage0 s led prefs u m0 hs]
  exact threshold_stage1 _ _ _ t m1 (by simp) hu0 hu1 ht0 ht1

/-- C1: finishing the second calibration stage with touched baseline t, after
the first stage stored the untouched baseline u (both non-negative int
values), sets touchThreshold to min(u,t) + (max(u,t) - min(u,t)) / 2 with
truncating division; the result is the same when u and t are exchanged and
lies between min(u,t) and max(u,t). -/
theorem touch_threshold_midpoint (s : TouchSensor) (led : LedStrip) (prefs : TouchSettings)
    (u t : Int) (m0 m1 : Nat) (hs : s.calibrationStage = 0)
    (hu0 : 0 ≤ u) (hu1 : u < 2147483648) (ht0 : 0 ≤ t) (ht1 : t < 2147483648) :
    (s.calibrateBoth led prefs u t m0 m1).1.touchThreshold =
        min u t + Int.tdiv (max u t - min u t) 2
    ∧ (s.calibrateBoth led prefs u t m0 m1).1.touchThreshold =
        (s.calibrateBoth led prefs t u m0 m1).1.touchThreshold
    ∧ min u t ≤ (s.calibrateBoth led prefs u t m0 m1).1.touchThreshold
    ∧ (s.calibrateBoth led prefs u t m0 m1).1.touchThreshold ≤ max u t := by
  have h1 := calibrateBoth_threshold s led prefs u t m0 m1 hs hu0 hu1 ht0 ht1
  have h2 := calibrateBoth_threshold s led prefs t u m0 m1 hs ht0 ht1 hu0 hu1
  have hd : 0 ≤ max u t - min u t := by
    have := min_le_max (a := u) (b := t)
    omega
  have hdiv : Int.tdiv (max u t - min u t) 2 = (max u t - min u t) / 2 :=
    Int.tdiv_eq_ediv hd (by omega)
  refine ⟨h1, ?_, ?_, ?_⟩
  · rw [h1, h2, min_comm t u, max_comm t u]
  · rw [h1, hdiv]; omega
  · rw [h1, hdiv]; omega

/-- Witness for C1: baselines (100, 200) and (200, 100) both give 150. -/
theorem touch_threshold_midpoint_witness :
    ((TouchSensor.new 4 50).calibrateBoth ⟨Color.off, 10⟩ ⟨none, none, none⟩
        100 200 0 5001).1.touchThreshold = 150
    ∧ ((TouchSensor.new 4 50).calibrateBoth ⟨Color.off, 10⟩ ⟨none, none, none⟩
        200 100 0 5001).1.touchThreshold = 150 := by
  have h := touch_threshold_midpoint (TouchSensor.new 4 50) ⟨Color.off, 10⟩ ⟨none, none, none⟩
    100 200 0 5001 rfl (by decide) (by decide) (by decide) (by decide)
  have e : min (100 : Int) 200 + Int.tdiv (max (100 : Int) 200 - min (100 : Int) 200) 2 = 150 := by
    decide
  exact ⟨h.1.trans e, (h.2.1.symm.trans (h.1.trans e))⟩

/-! ## Rotary encoder filter -/

theorem handleEncoderEvent_unconfirmed (s : RotaryEncoder) (event : EncoderEvent) (millis : Nat)
    (h : s.consistentDirectionCount = 0 ∨ event ≠ s.lastDirection) :
    (s.handleEncoderEvent event millis).2 = []
    ∧ (s.handleEncoderEvent event millis).1.notchAccumulator = s.notchAccumulator
    ∧ (s.handleEncoderEvent event millis).1.consistentDirectionCount = 1
    ∧ (s.handleEncoderEvent event millis).1.lastDirection = event := by
  by_cases he : event = s.lastDirection
  · rcases h with h | h
    · simp [RotaryEncoder.handleEncoderEvent, he, h, wrapInt32, ENCODER_DIRECTION_CONSISTENCY]
    · exact absurd he h
  · simp [RotaryEncoder.handleEncoderEvent, he, ENCODER_DIRECTION_CONSISTENCY]

theorem feed_alternating (inputs : List (EncoderEvent × Nat)) :
    ∀ s : RotaryEncoder, List.Chain' (fun a b => a.1 ≠ b.1) inputs →
      (∀ e ∈ inputs.head?, s.consistentDirectionCount = 0 ∨ e.1 ≠ s.lastDirection) →
      (s.feed inputs).2 = [] ∧ (s.feed inputs).1.notchAccumulator = s.notchAccumulator := by
  induction inputs with
  | nil => intro s _ _; simp [RotaryEncoder.feed]
  | cons e rest ih =>
    intro s hc hh
    obtain ⟨event, millis⟩ := e
    rw [List.chain'_cons'] at hc
    have h0 := hh (event, millis) (by simp)
    obtain ⟨h1, h2, h3, h4⟩ := handleEncoderEvent_unconfirmed s event millis h0
    have hrest := ih (s.handleEncoderEvent event millis).1 hc.2 (by
      intro e' he'
      right
      rw [h4]
      exact fun h => hc.1 e' he' h.symm)
    simp only [RotaryEncoder.feed]
    rw [h1, hrest.1, hrest.2, h2]
    simp

/-- C2: from the initial encoder filter state (with or without a registered
callback), after every prefix of a strictly alternating sequence of raw
direction deltas, whatever their timestamps, handleEncoderEvent has invoked
the Rotated callback zero times and the notch accumulator is 0. -/
theorem encoder_alternating_no_rotation (callback : Bool) (inputs : List (EncoderEvent × Nat))
    (halt : List.Chain' (fun a b => a.1 ≠ b.1) inputs) (k : Nat) :
    ((RotaryEncoder.new.setCallback callback).feed (inputs.take k)).2 = []
    ∧ ((RotaryEncoder.new.setCallback callback).feed (inputs.take k)).1.notchAccumulator = 0 := by
  have h := feed_alternating (inputs.take k) (RotaryEncoder.new.setCallback callback)
    (halt.take k) (by intro e _; left; rfl)
  exact ⟨h.1, h.2.trans rfl⟩

/-- Witness for C2: the bounce CW, CCW, CW, CCW fires nothing. -/
theorem encoder_alternating_no_rotation_witness :
    ((RotaryEncoder.new.setCallback true).feed
        ([(EncoderEvent.ENCODER_CLOCKWISE, 10), (EncoderEvent.ENCODER_COUNTER_CLOCKWISE, 20),
          (EncoderEvent.ENCODER_CLOCKWISE, 900), (EncoderEvent.ENCODER_COUNTER_CLOCKWISE, 905)].take
          4)).2 = []
    ∧ ((RotaryEncoder.new.setCallback true).feed
        ([(EncoderEvent.ENCODER_CLOCKWISE, 10), (EncoderEvent.ENCODER_COUNTER_CLOCKWISE, 20),
          (EncoderEvent.ENCODER_CLOCKWISE, 900), (EncoderEvent.ENCODER_COUNTER_CLOCKWISE, 905)].take
          4)).1.notchAccumulator = 0 :=
  encoder_alternating_no_rotation true
    [(EncoderEvent.ENCODER_CLOCKWISE, 10), (EncoderEvent.ENCODER_COUNTER_CLOCKWISE, 20),
     (EncoderEvent.ENCODER_CLOCKWISE, 900), (EncoderEvent.ENCODER_COUNTER_CLOCKWISE, 905)]
    (by simp) 4

/-- C3: from the initial encoder filter state with a callback registered, four
consecutive deltas of one direction d, the accepted notches arriving less than
the reset timeout after one another, invoke the Rotated callback exactly once,
with direction d. This holds for handleEncoderEvent fed directly and for four
polls of update whose tick counter moves in direction d each time. -/
theorem encoder_four_consistent_one_rotation (d : EncoderEvent) (t1 t2 t3 t4 : Nat)
    (h23 : subU32 t3 t2 < ENCODER_PRECISION_RESET_TIMEOUT) :
    ((RotaryEncoder.new.setCallback true).feed [(d, t1), (d, t2), (d, t3), (d, t4)]).2 = [d]
    ∧ ∀ (c1 c2 c3 c4 : Int) (k1 k2 k3 k4 : Nat),
        ((d = EncoderEvent.ENCODER_CLOCKWISE ∧ 0 < c1 ∧ c1 < c2 ∧ c2 < c3 ∧ c3 < c4) ∨
         (d = EncoderEvent.ENCODER_COUNTER_CLOCKWISE ∧ c1 < 0 ∧ c2 < c1 ∧ c3 < c2 ∧ c4 < c3)) →
        subU32 k2 t2 < ENCODER_PRECISION_RESET_TIMEOUT →
        ((RotaryEncoder.new.setCallback true).poll
          [(c1, t1, k1), (c2, t2, k2), (c3, t3, k3), (c4, t4, k4)]).2 = [d] := by
  have h23' := Nat.not_le.mpr h23
  constructor
  · cases d <;>
      simp [RotaryEncoder.feed, RotaryEncoder.handleEncoderEvent, RotaryEncoder.new,
        RotaryEncoder.setCallback, wrapInt32, ENCODER_DIRECTION_CONSISTENCY,
        ENCODER_PRECISION_NOTCH_THRESHOLD, h23']
  · intro c1 c2 c3 c4 k1 k2 k3 k4 hdir hk
    have hk' := Nat.not_le.mpr hk
    rcases hdir with ⟨hd, h1, h2, h3, h4⟩ | ⟨hd, h1, h2, h3, h4⟩
    · subst hd
      have e1 : ¬ c1 = 0 := by omega
      have e2 : ¬ c2 = c1 := by omega
      have e3 : ¬ c3 = c2 := by omega
      have e4 : ¬ c4 = c3 := by omega
      simp [RotaryEncoder.poll, RotaryEncoder.update, RotaryEncoder.handleEncoderEvent,
        RotaryEncoder.new, RotaryEncoder.setCallback, wrapInt32, ENCODER_DIRECTION_CONSISTENCY,
        ENCODER_PRECISION_NOTCH_THRESHOLD, h23', hk', e1, e2, e3, e4, h1, h2, h3, h4]
    · subst hd
      have e1 : ¬ c1 = 0 := by omega
      have e2 : ¬ c2 = c1 := by omega
      have e3 : ¬ c3 = c2 := by omega
      have e4 : ¬ c4 = c3 := by omega
      have g1 : ¬ 0 < c1 := by omega
      have g2 : ¬ c1 < c2 := by omega
      have g3 : ¬ c2 < c3 := by omega
      have g4 : ¬ c3 < c4 := by omega
      simp [RotaryEncoder.poll, RotaryEncoder.update, RotaryEncoder.handleEncoderEvent,
        RotaryEncoder.new, RotaryEncoder.setCallback, wrapInt32, ENCODER_DIRECTION_CONSISTENCY,
        ENCODER_PRECISION_NOTCH_THRESHOLD, h23', hk', e1, e2, e3, e4, g1, g2, g3, g4]

/-- Witness for C3: four clockwise deltas 100 ms apart fire once. -/
theorem encoder_four_consistent_one_rotation_witness :
    ((RotaryEncoder.new.setCallback true).feed
      [(EncoderEvent.ENCODER_CLOCKWISE, 1000), (EncoderEvent.ENCODER_CLOCKWISE, 1100),
       (EncoderEvent.ENCODER_CLOCKWISE, 1200), (EncoderEvent.ENCODER_CLOCKWISE, 1300)]).2
      = [EncoderEvent.ENCODER_CLOCKWISE] :=
  (encoder_four_consistent_one_rotation EncoderEvent.ENCODER_CLOCKWISE 1000 1100 1200 1300
    (by decide)).1

/-- C4: whatever the accumulator holds, in particular one notch in direction
d, when the next delta in direction d passes the consistency filter more than
the reset timeout after the last notch, no Rotated callback is invoked and the
accumulator afterwards is 1, counted from the new notch (lastNotchTime is the
arrival time). The same holds for an update call that sees this delta, the
timeout check of that call reading the clock less than the timeout later. -/
theorem encoder_idle_reset (s : RotaryEncoder) (d : EncoderEvent) (millis : Nat)
    (hlast : s.lastDirection = d)
    (haccept : ENCODER_DIRECTION_CONSISTENCY ≤ wrapInt32 (s.consistentDirectionCount + 1))
    (hidle : subU32 millis s.lastNotchTime > ENCODER_PRECISION_RESET_TIMEOUT) :
    (s.handleEncoderEvent d millis).2 = []
    ∧ (s.handleEncoderEvent d millis).1.notchAccumulator = 1
    ∧ (s.handleEncoderEvent d millis).1.lastNotchTime = millis
    ∧ (s.handleEncoderEvent d millis).1.accumulatedDirection = d
    ∧ ∀ (currentCount : Int) (millisCheck : Nat), currentCount ≠ s.lastUpdateCount →
        d = (if currentCount > s.lastUpdateCount then EncoderEvent.ENCODER_CLOCKWISE
              else EncoderEvent.ENCODER_COUNTER_CLOCKWISE) →
        subU32 millisCheck millis < ENCODER_PRECISION_RESET_TIMEOUT →
        (s.update currentCount millis millisCheck).2 = []
        ∧ (s.update currentCount millis millisCheck).1.notchAccumulator = 1 := by
  have hrej : ¬ wrapInt32 (s.consistentDirectionCount + 1) < ENCODER_DIRECTION_CONSISTENCY :=
    not_lt.mpr haccept
  have hto : ENCODER_PRECISION_RESET_TIMEOUT ≤ subU32 millis s.lastNotchTime := le_of_lt hidle
  have key : s.handleEncoderEvent d millis =
      ({ s with
          consistentDirectionCount := wrapInt32 (s.consistentDirectionCount + 1)
          notchAccumulator := 1
          accumulatedDirection := d
          lastNotchTime := millis }, []) := by
    have hw : wrapInt32 1 = 1 := by decide
    simp [RotaryEncoder.handleEncoderEvent, hlast, hrej, hto, hw,
      ENCODER_PRECISION_NOTCH_THRESHOLD]
  refine ⟨by rw [key], by rw [key], by rw [key], by rw [key], ?_⟩
  intro currentCount millisCheck hne hd hchk
  have hchk' := Nat.not_le.mpr hchk
  simp only [RotaryEncoder.update, if_pos hne, ← hd, key]
  simp [hchk']

/-- Witness for C4: one clockwise notch at 1000 ms, the next delta at 1600 ms. -/
theorem encoder_idle_reset_witness :
    (RotaryEncoder.handleEncoderEvent
      { lastCount := 0, lastUpdateCount := 2, callback := true, notchAccumulator := 1,
        accumulatedDirection := EncoderEvent.ENCODER_CLOCKWISE, lastNotchTime := 1000,
        lastDirection := EncoderEvent.ENCODER_CLOCKWISE, consistentDirectionCount := 2 }
      EncoderEvent.ENCODER_CLOCKWISE 1600).2 = []
    ∧ (RotaryEncoder.handleEncoderEvent
      { lastCount := 0, lastUpdateCount := 2, callback := true, notchAccumulator := 1,
        accumulatedDirection := EncoderEvent.ENCODER_CLOCKWISE, lastNotchTime := 1000,
        lastDirection := EncoderEvent.ENCODER_CLOCKWISE, consistentDirectionCount := 2 }
      EncoderEvent.ENCODER_CLOCKWISE 1600).1.notchAccumulator = 1 :=
  have h := encoder_idle_reset
    { lastCount := 0, lastUpdateCount := 2, callback := true, notchAccumulator := 1,
      accumulatedDirection := EncoderEvent.ENCODER_CLOCKWISE, lastNotchTime := 1000,
      lastDirection := EncoderEvent.ENCODER_CLOCKWISE, consistentDirectionCount := 2 }
    EncoderEvent.ENCODER_CLOCKWISE 1600 rfl (by decide) (by decide)
  ⟨h.1, h.2.1⟩

/-! ## Touch handling of the device controller -/

/-- C5: in toggle mode with a call active, a touch press negates muted (and
records the touch), and the following release only clears touchPressed: it
leaves muted, the LED and the transport untouched, so no report is sent. From
muted = false the pair ends with muted = true. -/
theorem toggle_mode_press_release (w : Device)
    (hcall : w.state.callActive = true) (hmode : w.state.pushToTalkMode = false) :
    (DeviceController.onTouchEvent w TouchEvent.TOUCH_PRESSED).state =
        { w.state with touchPressed := true, muteState := !w.state.muteState }
    ∧ DeviceController.onTouchEvent
          (DeviceController.onTouchEvent w TouchEvent.TOUCH_PRESSED) TouchEvent.TOUCH_RELEASED =
        { DeviceController.onTouchEvent w TouchEvent.TOUCH_PRESSED with
          state := { (DeviceController.onTouchEvent w TouchEvent.TOUCH_PRESSED).state with
            touchPressed := false } }
    ∧ (DeviceController.onTouchEvent
          (DeviceController.onTouchEvent w TouchEvent.TOUCH_PRESSED)
          TouchEvent.TOUCH_RELEASED).state.muteState = !w.state.muteState
    ∧ (DeviceController.onTouchEvent
          (DeviceController.onTouchEvent w TouchEvent.TOUCH_PRESSED)
          TouchEvent.TOUCH_RELEASED).ble =
        (DeviceController.onTouchEvent w TouchEvent.TOUCH_PRESSED).ble
    ∧ (w.state.muteState = false →
        (DeviceController.onTouchEvent
          (DeviceController.onTouchEvent w TouchEvent.TOUCH_PRESSED)
          TouchEvent.TOUCH_RELEASED).state.muteState = true) := by
  have hp : (DeviceController.onTouchEvent w TouchEvent.TOUCH_PRESSED).state =
      { w.state with touchPressed := true, muteState := !w.state.muteState } := by
    by_cases hc : 0 < w.ble.getConnectedClients <;>
      simp [DeviceController.onTouchEvent, DeviceController.updateLedCallStatus,
        DeviceController.updateCallState, DeviceState.toggleMute, hcall, hmode, hc]
  have hr : DeviceController.onTouchEvent
        (DeviceController.onTouchEvent w TouchEvent.TOUCH_PRESSED) TouchEvent.TOUCH_RELEASED =
      { DeviceController.onTouchEvent w TouchEvent.TOUCH_PRESSED with
        state := { (DeviceController.onTouchEvent w TouchEvent.TOUCH_PRESSED).state with
          touchPressed := false } } := by
    generalize hw1 : DeviceController.onTouchEvent w TouchEvent.TOUCH_PRESSED = w1 at hp
    have h1 : w1.state.callActive = true := by rw [hp]; exact hcall
    have h2 : w1.state.pushToTalkMode = false := by rw [hp]; exact hmode
    simp [DeviceController.onTouchEvent, h1, h2]
  refine ⟨hp, hr, ?_, ?_, ?_⟩
  · rw [hr]; simp [hp]
  · rw [hr]
  · intro hm; rw [hr]; simp [hp, hm]

/-- Witness for C5: a connected device in a call, unmuted, toggle mode. -/
theorem toggle_mode_press_release_witness :
    (DeviceController.onTouchEvent
      (DeviceController.onTouchEvent
        ⟨{ DeviceState.new with callActive := true }, ⟨Color.off, 10⟩,
          { BluetoothHandler.new with connectedClients := 1, headsetInput := some ⟨[], []⟩ }⟩
        TouchEvent.TOUCH_PRESSED)
      TouchEvent.TOUCH_RELEASED).state.muteState = true :=
  (toggle_mode_press_release
    ⟨{ DeviceState.new with callActive := true }, ⟨Color.off, 10⟩,
      { BluetoothHandler.new with connectedClients := 1, headsetInput := some ⟨[], []⟩ }⟩
    rfl rfl).2.2.2.2 rfl

/-- C6 as stated fails: in push-to-talk mode with a call active and muted
already false, a touch press is not a no-op on the DeviceState, because
touchPressed becomes true. -/
theorem push_to_talk_press_changes_state :
    ({ DeviceState.new with callActive := true, pushToTalkMode := true } : DeviceState).muteState
        = false
    ∧ (DeviceController.onTouchEvent
        ⟨{ DeviceState.new with callActive := true, pushToTalkMode := true },
          ⟨Color.off, 10⟩, BluetoothHandler.new⟩
        TouchEvent.TOUCH_PRESSED).state ≠
      { DeviceState.new with callActive := true, pushToTalkMode := true } := by
  decide

/-- C6 amended: in push-to-talk mode with a call active, a touch press leaves
muted = false; when muted was already false the press only sets touchPressed
(the other DeviceState fields, the LED and the transport are untouched, so no
report is sent). A touch release leaves muted = true whatever it was, also
after a press. -/
theorem push_to_talk_press_release (w : Device)
    (hcall : w.state.callActive = true) (hmode : w.state.pushToTalkMode = true) :
    (DeviceController.onTouchEvent w TouchEvent.TOUCH_PRESSED).state =
        { w.state with touchPressed := true, muteState := false }
    ∧ (w.state.muteState = false →
        DeviceController.onTouchEvent w TouchEvent.TOUCH_PRESSED =
          { w with state := { w.state with touchPressed := true } })
    ∧ (DeviceController.onTouchEvent w TouchEvent.TOUCH_RELEASED).state =
        { w.state with touchPressed := false, muteState := true }
    ∧ (DeviceController.onTouchEvent
          (DeviceController.onTouchEvent w TouchEvent.TOUCH_PRESSED)
          TouchEvent.TOUCH_RELEASED).state.muteState = true := by
  have hp : (DeviceController.onTouchEvent w TouchEvent.TOUCH_PRESSED).state =
      { w.state with touchPressed := true, muteState := false } := by
    by_cases hc : 0 < w.ble.getConnectedClients <;> cases hm : w.state.muteState <;>
      simp [DeviceController.onTouchEvent, DeviceController.updateLedCallStatus,
        DeviceController.updateCallState, hcall, hmode, hc, hm]
  have hrel : ∀ v : Device, v.state.callActive = true → v.state.pushToTalkMode = true →
      (DeviceController.onTouchEvent v TouchEvent.TOUCH_RELEASED).state =
        { v.state with touchPressed := false, muteState := true } := by
    intro v h1 h2
    by_cases hc : 0 < v.ble.getConnectedClients <;>
      simp [DeviceController.onTouchEvent, DeviceController.updateLedCallStatus,
        DeviceController.updateCallState, h1, h2, hc]
  refine ⟨hp, ?_, hrel w hcall hmode, ?_⟩
  · intro hm
    simp [DeviceController.onTouchEvent, hcall, hmode, hm]
  · rw [hrel _ (by rw [hp]; exact hcall) (by rw [hp]; exact hmode)]

/-- Witness for C6 amended: a connected device in a call, unmuted, push-to-talk. -/
theorem push_to_talk_press_release_witness :
    (DeviceController.onTouchEvent
      (DeviceController.onTouchEvent
        ⟨{ DeviceState.new with callActive := true, pushToTalkMode := true }, ⟨Color.off, 10⟩,
          { BluetoothHandler.new with connectedClients := 1, headsetInput := some ⟨[], []⟩ }⟩
        TouchEvent.TOUCH_PRESSED)
      TouchEvent.TOUCH_RELEASED).state.muteState = true :=
  (push_to_talk_press_release
    ⟨{ DeviceState.new with callActive := true, pushToTalkMode := true }, ⟨Color.off, 10⟩,
      { BluetoothHandler.new with connectedClients := 1, headsetInput := some ⟨[], []⟩ }⟩
    rfl rfl).2.2.2

/-! ## Gating, host authority and report encoding -/

/-- C7 as stated fails: with no call active and the pad not yet recorded as
touched, a touch press changes the DeviceState (touchPressed becomes true). -/
theorem gating_touch_press_changes_state :
    DeviceState.new.callActive = false
    ∧ (DeviceController.onTouchEvent ⟨DeviceState.new, ⟨Color.off, 10⟩, BluetoothHandler.new⟩
        TouchEvent.TOUCH_PRESSED).state ≠ DeviceState.new := by
  decide

/-- C7 amended: with no call active, a long press on the left button leaves
the whole device as it was (DeviceState, LED and transport: zero reports); a
touch press sends zero reports as well, leaves callActive, muted, dropped,
pushToTalkMode and encoderVolumeMode as they were and sets touchPressed. -/
theorem gating_no_call (w : Device) (hcall : w.state.callActive = false) :
    DeviceController.onLeftButtonEvent w ButtonEvent.BUTTON_LONG_PRESSED = w
    ∧ DeviceController.onTouchEvent w TouchEvent.TOUCH_PRESSED =
        { w with state := { w.state with touchPressed := true } }
    ∧ (DeviceController.onTouchEvent w TouchEvent.TOUCH_PRESSED).ble = w.ble
    ∧ (DeviceController.onTouchEvent w TouchEvent.TOUCH_PRESSED).led = w.led := by
  have ht : DeviceController.onTouchEvent w TouchEvent.TOUCH_PRESSED =
      { w with state := { w.state with touchPressed := true } } := by
    simp [DeviceController.onTouchEvent, hcall]
  refine ⟨?_, ht, ?_, ?_⟩
  · simp [DeviceController.onLeftButtonEvent, hcall]
  · rw [ht]
  · rw [ht]

/-- Witness for C7 amended: a connected, idle device. -/
theorem gating_no_call_witness :
    DeviceController.onLeftButtonEvent
        ⟨DeviceState.new, ⟨Color.off, 10⟩,
          { BluetoothHandler.new with connectedClients := 1, headsetInput := some ⟨[], []⟩ }⟩
        ButtonEvent.BUTTON_LONG_PRESSED =
      ⟨DeviceState.new, ⟨Color.off, 10⟩,
        { BluetoothHandler.new with connectedClients := 1, headsetInput := some ⟨[], []⟩ }⟩ :=
  (gating_no_call
    ⟨DeviceState.new, ⟨Color.off, 10⟩,
      { BluetoothHandler.new with connectedClients := 1, headsetInput := some ⟨[], []⟩ }⟩
    rfl).1

/-- C8: for every prior state and every pair (c, m), onHostStateUpdate(c, m)
leaves callActive = c and muted = m, changes no other DeviceState field and
sends nothing, and the LED then shows the status of the new values: red for
c and m, green for c and not m, off for not c. -/
theorem host_state_update_authoritative (w : Device) (c m : Bool) :
    (DeviceController.onHostStateUpdate w c m).state =
        { w.state with callActive := c, muteState := m }
    ∧ (DeviceController.onHostStateUpdate w c m).led.shown =
        (if c then (if m then LedStrip.colorRed else LedStrip.colorGreen) else Color.off)
    ∧ (DeviceController.onHostStateUpdate w c m).ble = w.ble
    ∧ LedStrip.colorRed ≠ LedStrip.colorGreen
    ∧ LedStrip.colorRed ≠ Color.off
    ∧ LedStrip.colorGreen ≠ Color.off := by
  refine ⟨?_, ?_, ?_, by decide, by decide, by decide⟩ <;>
    cases c <;> cases m <;>
    simp [DeviceController.onHostStateUpdate, DeviceController.updateLedCallStatus,
      LedStrip.clear, LedStrip.setColor]

theorem land_two_pow_ne_zero (x i : Nat) : decide (x &&& 2 ^ i ≠ 0) = x.testBit i := by
  rw [Nat.and_two_pow x i]
  cases x.testBit i <;> simp

theorem testBit_low_of_mod (v n i : Nat) (h : i < n) : (v % 2 ^ n).testBit i = v.testBit i := by
  rw [Nat.testBit_mod_two_pow]; simp [h]

theorem byte_bit0 (v : Nat) : decide ((v % 256) &&& 0x01 ≠ 0) = v.testBit 0 :=
  (land_two_pow_ne_zero (v % 256) 0).trans (testBit_low_of_mod v 8 0 (by decide))

theorem byte_bit1 (v : Nat) : decide ((v % 256) &&& 0x02 ≠ 0) = v.testBit 1 :=
  (land_two_pow_ne_zero (v % 256) 1).trans (testBit_low_of_mod v 8 1 (by decide))

/-- C9: with the host state callback registered, a write of a non-empty byte
string to the LED output characteristic invokes the callback exactly once,
with muted = bit 0 and callActive = bit 1 of the first byte, whatever the
other bits and the further bytes, and the controller ends as after
onHostStateUpdate with these values; an empty write invokes no callback and
leaves the device unchanged. -/
theorem host_report_decoding (w : Device) (hcb : w.ble.hostStateCallback = true) :
    (∀ (v : Nat) (rest : List Nat),
        OutputCallbacks.onWrite w.ble (v :: rest) = [(v.testBit 1, v.testBit 0)]
        ∧ w.hostWrite (v :: rest) =
            DeviceController.onHostStateUpdate w (v.testBit 1) (v.testBit 0))
    ∧ (∀ (v v2 : Nat) (rest rest2 : List Nat), v % 4 = v2 % 4 →
        OutputCallbacks.onWrite w.ble (v :: rest) = OutputCallbacks.onWrite w.ble (v2 :: rest2))
    ∧ OutputCallbacks.onWrite w.ble [] = []
    ∧ w.hostWrite [] = w := by
  have h1 : ∀ (v : Nat) (rest : List Nat),
      OutputCallbacks.onWrite w.ble (v :: rest) = [(v.testBit 1, v.testBit 0)] := by
    intro v rest
    have b0 := byte_bit0 v
    have b1 := byte_bit1 v
    simp only [OutputCallbacks.onWrite, List.length_cons, List.getD_cons_zero, hcb]
    simp only [Nat.succ_pos, if_true, gt_iff_lt, Nat.zero_lt_succ, b0, b1]
  refine ⟨?_, ?_, by simp [OutputCallbacks.onWrite], by simp [Device.hostWrite, OutputCallbacks.onWrite]⟩
  · intro v rest
    refine ⟨h1 v rest, ?_⟩
    simp [Device.hostWrite, h1, DeviceController.staticHostStateCallback]
  · intro v v2 rest rest2 hv
    rw [h1, h1]
    have e0 : v.testBit 0 = v2.testBit 0 := by
      rw [← testBit_low_of_mod v 2 0 (by decide), ← testBit_low_of_mod v2 2 0 (by decide)]
      exact congrArg (fun x => Nat.testBit x 0) hv
    have e1 : v.testBit 1 = v2.testBit 1 := by
      rw [← testBit_low_of_mod v 2 1 (by decide), ← testBit_low_of_mod v2 2 1 (by decide)]
      exact congrArg (fun x => Nat.testBit x 1) hv
    rw [e0, e1]

/-- Witness for C9: the host writes 0x03 and the device becomes active, muted. -/
theorem host_report_decoding_witness :
    (Device.hostWrite
      ⟨DeviceState.new, ⟨Color.off, 10⟩, BluetoothHandler.new.setHostStateCallback true⟩
      [3]).state = { DeviceState.new with callActive := true, muteState := true } := by
  rw [((host_report_decoding
    ⟨DeviceState.new, ⟨Color.off, 10⟩, BluetoothHandler.new.setHostStateCallback true⟩
    rfl).1 3 []).2]
  decide

/-- C10: updateCallState(mute, drop) hands the transport exactly one headset
report, the byte (mute ? 1 : 0) + (drop ? 2 : 0), and touches neither the
DeviceState nor the LED; with a peer connected and the characteristic bound
that single byte is stored and notified. The byte is below 4 (bits 2 to 7 are
zero), bit 0 is mute and bit 1 is drop, so the encoding is injective. -/
theorem telephony_status_encoding (w : Device) (mute drop : Bool) :
    (DeviceController.updateCallState w mute drop).ble.requests =
        w.ble.requests ++ [Request.headset ((if mute then 1 else 0) + (if drop then 2 else 0))]
    ∧ (DeviceController.updateCallState w mute drop).state = w.state
    ∧ (DeviceController.updateCallState w mute drop).led = w.led
    ∧ (∀ c : BLECharacteristic, w.ble.headsetInput = some c → w.ble.connectedClients ≠ 0 →
        (DeviceController.updateCallState w mute drop).ble.headsetInput =
          some { value := [(if mute then 1 else 0) + (if drop then 2 else 0)],
                 notified := c.notified ++ [[(if mute then 1 else 0) + (if drop then 2 else 0)]] })
    ∧ (if mute then 1 else 0) + (if drop then 2 else 0) < 4
    ∧ Nat.testBit ((if mute then 1 else 0) + (if drop then 2 else 0)) 0 = mute
    ∧ Nat.testBit ((if mute then 1 else 0) + (if drop then 2 else 0)) 1 = drop
    ∧ (∀ mute2 drop2 : Bool,
        (if mute then 1 else 0) + (if drop then 2 else 0) =
          (if mute2 then 1 else 0) + (if drop2 then 2 else 0) → mute = mute2 ∧ drop = drop2) := by
  have hreq : ∀ (h : BluetoothHandler) (v : Nat),
      (h.sendHeadsetReport v).1.requests = h.requests ++ [Request.headset (v % 256)] := by
    intro h v
    unfold BluetoothHandler.sendHeadsetReport BluetoothHandler.sendReport
      BluetoothHandler.characteristic BluetoothHandler.setCharacteristic
    cases hh : h.headsetInput <;> by_cases hc : h.connectedClients = 0 <;> simp [hh, hc]
  have henc : ((if mute then 0x01 else 0x00) ||| (if drop then 0x02 else 0x00) : Nat) =
      (if mute then 1 else 0) + (if drop then 2 else 0) := by
    cases mute <;> cases drop <;> decide
  refine ⟨?_, rfl, rfl, ?_, ?_, ?_, ?_, ?_⟩
  · simp only [DeviceController.updateCallState, hreq, henc]
    cases mute <;> cases drop <;> rfl
  · intro c hc hn
    simp only [DeviceController.updateCallState, henc]
    cases mute <;> cases drop <;>
      simp [BluetoothHandler.sendHeadsetReport, BluetoothHandler.sendReport,
        BluetoothHandler.characteristic, BluetoothHandler.setCharacteristic, hc, hn]
  · cases mute <;> cases drop <;> decide
  · cases mute <;> cases drop <;> decide
  · cases mute <;> cases drop <;> decide
  · intro mute2 drop2
    cases mute <;> cases drop <;> cases mute2 <;> cases drop2 <;> decide

/-! ## Transport: send primitives and the peer count -/

theorem sendReport_eq (h : BluetoothHandler) (c : CharRef) (report : List Nat) (length : Nat) :
    h.sendReport c report length =
      match h.characteristic c with
      | none => (h, false)
      | some x =>
        if h.connectedClients = 0 then (h, false)
        else (h.setCharacteristic c
          { value := report.take length, notified := x.notified ++ [report.take length] }, true) := by
  unfold BluetoothHandler.sendReport
  cases h.characteristic c <;> rfl

theorem sendHeadsetReport_requests (h : BluetoothHandler) (v : Nat) :
    (h.sendHeadsetReport v).1.requests = h.requests ++ [Request.headset (v % 256)] := by
  unfold BluetoothHandler.sendHeadsetReport BluetoothHandler.sendReport
    BluetoothHandler.characteristic BluetoothHandler.setCharacteristic
  cases hh : h.headsetInput <;> by_cases hc : h.connectedClients = 0 <;> simp [hh, hc]

theorem sendKeyboardReport_requests (h : BluetoothHandler) (r : List Nat) :
    (h.sendKeyboardReport r).1.requests = h.requests ++ [Request.keyboard (r.take 8)] := by
  unfold BluetoothHandler.sendKeyboardReport BluetoothHandler.sendReport
    BluetoothHandler.characteristic BluetoothHandler.setCharacteristic
  cases hh : h.keyboardInput <;> by_cases hc : h.connectedClients = 0 <;> simp [hh, hc]

theorem low_byte_of_code (code : Nat) : (code % 65536 &&& 0xFF) % 256 = code % 256 := by
  have h := Nat.and_pow_two_sub_one_eq_mod (code % 65536) 8
  have e : (2 : Nat) ^ 8 - 1 = 0xFF := by decide
  rw [e] at h
  rw [h]
  have e2 : (2 : Nat) ^ 8 = 256 := by decide
  rw [e2]
  omega

theorem sendConsumerReport_requests (h : BluetoothHandler) (code : Nat) :
    (h.sendConsumerReport code).1.requests = h.requests ++ [Request.consumer (code % 256)] := by
  have hb := low_byte_of_code code
  unfold BluetoothHandler.sendConsumerReport BluetoothHandler.sendReport
    BluetoothHandler.characteristic BluetoothHandler.setCharacteristic
  cases hh : h.consumerInput <;> by_cases hc : h.connectedClients = 0 <;> simp [hh, hc, hb]

/-- C11: a send returns true exactly when the peer count is non-zero and the
target characteristic is bound, for sendReport and the three high-level send
methods; a send that returns false stores no characteristic value and
notifies nothing (sendReport leaves the handler as it was). In particular
with connectedClients = 0 every send returns false and is such a no-op. -/
theorem send_true_iff_connected_and_bound (h : BluetoothHandler) :
    (∀ (c : CharRef) (report : List Nat) (length : Nat),
        ((h.sendReport c report length).2 = true ↔
          (h.connectedClients ≠ 0 ∧ (h.characteristic c).isSome = true))
        ∧ ((h.sendReport c report length).2 = false → (h.sendReport c report length).1 = h))
    ∧ (∀ v : Nat,
        ((h.sendHeadsetReport v).2 = true ↔
          (h.connectedClients ≠ 0 ∧ h.headsetInput.isSome = true))
        ∧ ((h.sendHeadsetReport v).2 = false →
          ∀ c, (h.sendHeadsetReport v).1.characteristic c = h.characteristic c))
    ∧ (∀ r : List Nat,
        ((h.sendKeyboardReport r).2 = true ↔
          (h.connectedClients ≠ 0 ∧ h.keyboardInput.isSome = true))
        ∧ ((h.sendKeyboardReport r).2 = false →
          ∀ c, (h.sendKeyboardReport r).1.characteristic c = h.characteristic c))
    ∧ (∀ code : Nat,
        ((h.sendConsumerReport code).2 = true ↔
          (h.connectedClients ≠ 0 ∧ h.consumerInput.isSome = true))
        ∧ ((h.sendConsumerReport code).2 = false →
          ∀ c, (h.sendConsumerReport code).1.characteristic c = h.characteristic c))
    ∧ (h.connectedClients = 0 →
        (∀ (c : CharRef) (report : List Nat) (length : Nat),
          h.sendReport c report length = (h, false))
        ∧ (∀ v : Nat, (h.sendHeadsetReport v).2 = false
            ∧ ∀ c, (h.sendHeadsetReport v).1.characteristic c = h.characteristic c)
        ∧ (∀ r : List Nat, (h.sendKeyboardReport r).2 = false
            ∧ ∀ c, (h.sendKeyboardReport r).1.characteristic c = h.characteristic c)
        ∧ (∀ code : Nat, (h.sendConsumerReport code).2 = false
            ∧ ∀ c, (h.sendConsumerReport code).1.characteristic c = h.characteristic c)) := by
  have hS : ∀ (c : CharRef) (report : List Nat) (length : Nat),
      ((h.sendReport c report length).2 = true ↔
        (h.connectedClients ≠ 0 ∧ (h.characteristic c).isSome = true))
      ∧ ((h.sendReport c report length).2 = false → (h.sendReport c report length).1 = h) := by
    intro c report length
    rw [sendReport_eq]
    cases hx : h.characteristic c <;> by_cases hc : h.connectedClients = 0 <;> simp [hc]
  have hH : ∀ v : Nat,
      ((h.sendHeadsetReport v).2 = true ↔
        (h.connectedClients ≠ 0 ∧ h.headsetInput.isSome = true))
      ∧ ((h.sendHeadsetReport v).2 = false →
        ∀ c, (h.sendHeadsetReport v).1.characteristic c = h.characteristic c) := by
    intro v
    unfold BluetoothHandler.sendHeadsetReport BluetoothHandler.sendReport
    cases hx : h.headsetInput <;> by_cases hc : h.connectedClients = 0 <;>
      simp [hx, hc, BluetoothHandler.characteristic]
  have hK : ∀ r : List Nat,
      ((h.sendKeyboardReport r).2 = true ↔
        (h.connectedClients ≠ 0 ∧ h.keyboardInput.isSome = true))
      ∧ ((h.sendKeyboardReport r).2 = false →
        ∀ c, (h.sendKeyboardReport r).1.characteristic c = h.characteristic c) := by
    intro r
    unfold BluetoothHandler.sendKeyboardReport BluetoothHandler.sendReport
    cases hx : h.keyboardInput <;> by_cases hc : h.connectedClients = 0 <;>
      simp [hx, hc, BluetoothHandler.characteristic]
  have hC : ∀ code : Nat,
      ((h.sendConsumerReport code).2 = true ↔
        (h.connectedClients ≠ 0 ∧ h.consumerInput.isSome = true))
      ∧ ((h.sendConsumerReport code).2 = false →
        ∀ c, (h.sendConsumerReport code).1.characteristic c = h.characteristic c) := by
    intro code
    unfold BluetoothHandler.sendConsumerReport BluetoothHandler.sendReport
    cases hx : h.consumerInput <;> by_cases hc : h.connectedClients = 0 <;>
      simp [hx, hc, BluetoothHandler.characteristic]
  refine ⟨hS, hH, hK, hC, ?_⟩
  intro h0
  have f : ∀ {b : Bool} {P : Prop}, (b = true ↔ (h.connectedClients ≠ 0 ∧ P)) → b = false := by
    intro b P hb
    cases b
    · rfl
    · exact absurd h0 (hb.mp rfl).1
  refine ⟨?_, ?_, ?_, ?_⟩
  · intro c report length
    have e := f (hS c report length).1
    exact Prod.ext ((hS c report length).2 e) e
  · intro v
    exact ⟨f (hH v).1, (hH v).2 (f (hH v).1)⟩
  · intro r
    exact ⟨f (hK r).1, (hK r).2 (f (hK r).1)⟩
  · intro code
    exact ⟨f (hC code).1, (hC code).2 (f (hC code).1)⟩

/-- Witness for C11: a bound headset characteristic and no peer. -/
theorem send_true_iff_connected_and_bound_witness :
    (BluetoothHandler.sendHeadsetReport
        { BluetoothHandler.new with headsetInput := some ⟨[7], [[7]]⟩ } 1).2 = false
    ∧ ∀ c, (BluetoothHandler.sendHeadsetReport
        { BluetoothHandler.new with headsetInput := some ⟨[7], [[7]]⟩ } 1).1.characteristic c =
          BluetoothHandler.characteristic
            { BluetoothHandler.new with headsetInput := some ⟨[7], [[7]]⟩ } c :=
  ((send_true_iff_connected_and_bound
    { BluetoothHandler.new with headsetInput := some ⟨[7], [[7]]⟩ }).2.2.2.2 rfl).2.1 1

theorem enableNotifications_frame (h : BluetoothHandler) (c : CharRef) :
    (MultiClientServerCallbacks.enableNotifications h c).requests = h.requests
    ∧ (MultiClientServerCallbacks.enableNotifications h c).connectedClients = h.connectedClients
    ∧ ∀ x, (MultiClientServerCallbacks.enableNotifications h c).characteristic x =
        h.characteristic x := by
  unfold MultiClientServerCallbacks.enableNotifications
  cases h.characteristic c with
  | none => exact ⟨rfl, rfl, fun _ => rfl⟩
  | some v =>
    cases c
    · by_cases hd : h.headsetInputCccd.isSome = true
      · rw [if_pos hd]; exact ⟨rfl, rfl, fun x => by cases x <;> rfl⟩
      · rw [if_neg hd]; exact ⟨rfl, rfl, fun _ => rfl⟩
    · exact ⟨rfl, rfl, fun _ => rfl⟩
    · by_cases hd : h.keyboardInputCccd.isSome = true
      · rw [if_pos hd]; exact ⟨rfl, rfl, fun x => by cases x <;> rfl⟩
      · rw [if_neg hd]; exact ⟨rfl, rfl, fun _ => rfl⟩
    · by_cases hd : h.consumerInputCccd.isSome = true
      · rw [if_pos hd]; exact ⟨rfl, rfl, fun x => by cases x <;> rfl⟩
      · rw [if_neg hd]; exact ⟨rfl, rfl, fun _ => rfl⟩

theorem onConnect_frame (h : BluetoothHandler) :
    (MultiClientServerCallbacks.onConnect h).requests = h.requests
    ∧ (MultiClientServerCallbacks.onConnect h).connectedClients =
        wrapUInt32 ((h.connectedClients : Int) + 1)
    ∧ ∀ x, (MultiClientServerCallbacks.onConnect h).characteristic x = h.characteristic x := by
  unfold MultiClientServerCallbacks.onConnect
  refine ⟨?_, ?_, ?_⟩
  · rw [(enableNotifications_frame _ _).1, (enableNotifications_frame _ _).1,
      (enableNotifications_frame _ _).1]
  · rw [(enableNotifications_frame _ _).2.1, (enableNotifications_frame _ _).2.1,
      (enableNotifications_frame _ _).2.1]
  · intro x
    rw [(enableNotifications_frame _ _).2.2, (enableNotifications_frame _ _).2.2,
      (enableNotifications_frame _ _).2.2]
    cases x <;> rfl

theorem run_balanced (events : List ServerEvent) :
    ∀ h : BluetoothHandler, h.connectedClients < 4294967296 →
      ServerEvent.balanced h.connectedClients events = true →
      (((MultiClientServerCallbacks.run h events).connectedClients : Int) =
          (h.connectedClients : Int) + ServerEvent.net events)
      ∧ (MultiClientServerCallbacks.run h events).connectedClients < 4294967296 := by
  induction events with
  | nil => intro h hlt _; simp [MultiClientServerCallbacks.run, ServerEvent.net, hlt]
  | cons e rest ih =>
    intro h hlt hb
    cases e with
    | connect =>
      simp only [ServerEvent.balanced, Bool.and_eq_true, decide_eq_true_eq] at hb
      have hc : (MultiClientServerCallbacks.onConnect h).connectedClients =
          h.connectedClients + 1 := by
        rw [(onConnect_frame h).2.1]; unfold wrapUInt32; omega
      have := ih (MultiClientServerCallbacks.onConnect h) (by rw [hc]; exact hb.1)
        (by rw [hc]; exact hb.2)
      simp only [MultiClientServerCallbacks.run, List.foldl_cons,
        MultiClientServerCallbacks.handle, ServerEvent.net] at this ⊢
      rw [hc] at this
      constructor
      · rw [this.1]; push_cast; ring
      · exact this.2
    | disconnect =>
      simp only [ServerEvent.balanced, Bool.and_eq_true, decide_eq_true_eq] at hb
      have hc : (MultiClientServerCallbacks.onDisconnect h).connectedClients =
          h.connectedClients - 1 := by
        simp only [MultiClientServerCallbacks.onDisconnect]
        unfold wrapUInt32; omega
      have := ih (MultiClientServerCallbacks.onDisconnect h) (by rw [hc]; omega)
        (by rw [hc]; exact hb.2)
      simp only [MultiClientServerCallbacks.run, List.foldl_cons,
        MultiClientServerCallbacks.handle, ServerEvent.net] at this ⊢
      rw [hc] at this
      constructor
      · rw [this.1]; omega
      · exact this.2

/-- C12 as stated fails: a disconnect event delivered to a transport with zero
peers makes the unsigned count wrap to 2^32 - 1, and isConnected() then
reports true. -/
theorem disconnect_at_zero_wraps :
    BluetoothHandler.new.connectedClients = 0
    ∧ BluetoothHandler.new.isConnected = false
    ∧ (MultiClientServerCallbacks.onDisconnect BluetoothHandler.new).connectedClients
        = 4294967295
    ∧ (MultiClientServerCallbacks.onDisconnect BluetoothHandler.new).isConnected = true := by
  decide

/-- C12 amended: the peer count is an unsigned counter, hence never negative.
Over every sequence of connect and disconnect events in which each disconnect
ends a connection that is still counted (and fewer than 2^32 peers are
counted), every connect adds one and every disconnect subtracts one without
wrapping: the count afterwards is the count before plus connects minus
disconnects, and isConnected() is true exactly when that number is positive. -/
theorem peer_count_balanced (h : BluetoothHandler) (events : List ServerEvent)
    (hlt : h.connectedClients < 4294967296)
    (hbal : ServerEvent.balanced h.connectedClients events = true) :
    (((MultiClientServerCallbacks.run h events).connectedClients : Int) =
        (h.connectedClients : Int) + ServerEvent.net events)
    ∧ 0 ≤ (h.connectedClients : Int) + ServerEvent.net events
    ∧ ((MultiClientServerCallbacks.run h events).isConnected = true ↔
        0 < (h.connectedClients : Int) + ServerEvent.net events)
    ∧ (h.connectedClients + 1 < 4294967296 →
        (MultiClientServerCallbacks.onConnect h).connectedClients = h.connectedClients + 1)
    ∧ (0 < h.connectedClients →
        (MultiClientServerCallbacks.onDisconnect h).connectedClients = h.connectedClients - 1) := by
  have hr := run_balanced events h hlt hbal
  refine ⟨hr.1, by rw [← hr.1]; exact Int.ofNat_nonneg _, ?_, ?_, ?_⟩
  · rw [← hr.1]
    simp [BluetoothHandler.isConnected]
  · intro hc
    have := (run_balanced [ServerEvent.connect] h hlt (by
      simp [ServerEvent.balanced, hc])).1
    simp [MultiClientServerCallbacks.run, MultiClientServerCallbacks.handle,
      ServerEvent.net] at this
    exact_mod_cast this
  · intro hc
    have := (run_balanced [ServerEvent.disconnect] h hlt (by
      simp [ServerEvent.balanced, hc])).1
    simp [MultiClientServerCallbacks.run, MultiClientServerCallbacks.handle,
      ServerEvent.net] at this
    omega

/-- Witness for C12 amended: connect, connect, disconnect from a fresh
transport leaves one peer. -/
theorem peer_count_balanced_witness :
    (((MultiClientServerCallbacks.run BluetoothHandler.new
        [ServerEvent.connect, ServerEvent.connect, ServerEvent.disconnect]).connectedClients
        : Int) =
      ((BluetoothHandler.new.connectedClients : Nat) : Int) +
        ServerEvent.net [ServerEvent.connect, ServerEvent.connect, ServerEvent.disconnect]) :=
  (peer_count_balanced BluetoothHandler.new
    [ServerEvent.connect, ServerEvent.connect, ServerEvent.disconnect]
    (by decide) (by decide)).1

/-- C13, what the code does: onConnect hands no report to the transport and
stores or notifies nothing on any characteristic; it only counts the peer
(and rewrites the notification descriptors). -/
theorem connect_sends_no_report (h : BluetoothHandler) :
    (MultiClientServerCallbacks.onConnect h).requests = h.requests
    ∧ (∀ c, (MultiClientServerCallbacks.onConnect h).characteristic c = h.characteristic c)
    ∧ (MultiClientServerCallbacks.onConnect h).connectedClients =
        wrapUInt32 ((h.connectedClients : Int) + 1) := by
  exact ⟨(onConnect_frame h).1, (onConnect_frame h).2.2, (onConnect_frame h).2.1⟩

/-! ## Report dispatch: keyboard, consumer control and telephony pulses -/

theorem sendHeadsetReport_delivered (h : BluetoothHandler) (v : Nat) (c : BLECharacteristic)
    (hb : h.headsetInput = some c) (hn : h.connectedClients ≠ 0) :
    (h.sendHeadsetReport v).1 =
      { h with
        requests := h.requests ++ [Request.headset (v % 256)]
        headsetInput := some { value := [v % 256], notified := c.notified ++ [[v % 256]] } } := by
  simp [BluetoothHandler.sendHeadsetReport, BluetoothHandler.sendReport,
    BluetoothHandler.characteristic, BluetoothHandler.setCharacteristic, hb, hn]

theorem sendKeyboardReport_delivered (h : BluetoothHandler) (r : List Nat) (c : BLECharacteristic)
    (hb : h.keyboardInput = some c) (hn : h.connectedClients ≠ 0) :
    (h.sendKeyboardReport r).1 =
      { h with
        requests := h.requests ++ [Request.keyboard (r.take 8)]
        keyboardInput := some { value := r.take 8, notified := c.notified ++ [r.take 8] } } := by
  simp [BluetoothHandler.sendKeyboardReport, BluetoothHandler.sendReport,
    BluetoothHandler.characteristic, BluetoothHandler.setCharacteristic, hb, hn]

theorem sendConsumerReport_delivered (h : BluetoothHandler) (code : Nat) (c : BLECharacteristic)
    (hb : h.consumerInput = some c) (hn : h.connectedClients ≠ 0) :
    (h.sendConsumerReport code).1 =
      { h with
        requests := h.requests ++ [Request.consumer (code % 256)]
        consumerInput :=
          some { value := [code % 256], notified := c.notified ++ [[code % 256]] } } := by
  have hl := low_byte_of_code code
  simp [BluetoothHandler.sendConsumerReport, BluetoothHandler.sendReport,
    BluetoothHandler.characteristic, BluetoothHandler.setCharacteristic, hb, hn, hl]

theorem consumer_pulse_requests (h : BluetoothHandler) (code : Nat) :
    ((h.sendConsumerReport code).1.sendConsumerReport 0x00).1.requests =
      h.requests ++ [Request.consumer (code % 256), Request.consumer 0] := by
  rw [sendConsumerReport_requests, sendConsumerReport_requests]
  simp

theorem consumer_pulse_delivered (h : BluetoothHandler) (code : Nat) (c : BLECharacteristic)
    (hb : h.consumerInput = some c) (hn : h.connectedClients ≠ 0) :
    ((h.sendConsumerReport code).1.sendConsumerReport 0x00).1.consumerInput =
      some { value := [0], notified := c.notified ++ [[code % 256], [0]] } := by
  have hl := low_byte_of_code code
  simp [BluetoothHandler.sendConsumerReport, BluetoothHandler.sendReport,
    BluetoothHandler.characteristic, BluetoothHandler.setCharacteristic, hb, hn, hl]

theorem key_then_release_requests (h : BluetoothHandler) (m k : Nat) :
    (KeyboardHandler.releaseAllKeys (KeyboardHandler.sendKeys h m k 0 0 0 0).1).requests =
      h.requests ++ [Request.keyboard [m % 256, 0, k % 256, 0, 0, 0, 0, 0],
        Request.keyboard [0, 0, 0, 0, 0, 0, 0, 0]] := by
  simp [KeyboardHandler.releaseAllKeys, KeyboardHandler.sendKeys, sendKeyboardReport_requests]

theorem key_then_release_delivered (h : BluetoothHandler) (m k : Nat) (c : BLECharacteristic)
    (hb : h.keyboardInput = some c) (hn : h.connectedClients ≠ 0) :
    (KeyboardHandler.releaseAllKeys (KeyboardHandler.sendKeys h m k 0 0 0 0).1).keyboardInput =
      some { value := [0, 0, 0, 0, 0, 0, 0, 0],
             notified := c.notified ++ [[m % 256, 0, k % 256, 0, 0, 0, 0, 0],
               [0, 0, 0, 0, 0, 0, 0, 0]] } := by
  simp [KeyboardHandler.releaseAllKeys, KeyboardHandler.sendKeys,
    BluetoothHandler.sendKeyboardReport, BluetoothHandler.sendReport,
    BluetoothHandler.characteristic, BluetoothHandler.setCharacteristic, hb, hn]

/-- C14: onEncoderEvent leaves the DeviceState and the LED unchanged and what
it sends depends only on encoderVolumeMode and the direction, never on
callActive. In volume mode clockwise hands the transport the consumer pulse
0x02, 0x00 (volume down) and counter-clockwise 0x01, 0x00 (volume up); in
navigation mode clockwise hands it the keyboard report with keycode 0x50 (left
arrow) and counter-clockwise the one with keycode 0x4F (right arrow), each
followed by the all-zero release. With a peer connected and the
characteristic bound exactly these reports are notified. -/
theorem rotation_dispatch (w : Device) (event : EncoderEvent) :
    (DeviceController.onEncoderEvent w event).state = w.state
    ∧ (DeviceController.onEncoderEvent w event).led = w.led
    ∧ (∀ v : Device, v.ble = w.ble → v.state.encoderVolumeMode = w.state.encoderVolumeMode →
        (DeviceController.onEncoderEvent v event).ble =
          (DeviceController.onEncoderEvent w event).ble)
    ∧ (∀ c : Bool,
        (DeviceController.onEncoderEvent
          { w with state := { w.state with callActive := c } } event).ble =
          (DeviceController.onEncoderEvent w event).ble)
    ∧ (w.state.encoderVolumeMode = true →
        (DeviceController.onEncoderEvent w event).ble.requests =
          w.ble.requests ++
            (match event with
              | EncoderEvent.ENCODER_CLOCKWISE => [Request.consumer 0x02, Request.consumer 0x00]
              | EncoderEvent.ENCODER_COUNTER_CLOCKWISE =>
                [Request.consumer 0x01, Request.consumer 0x00])
        ∧ ∀ c : BLECharacteristic, w.ble.consumerInput = some c → w.ble.connectedClients ≠ 0 →
            (DeviceController.onEncoderEvent w event).ble.consumerInput =
              some { value := [0x00],
                     notified := c.notified ++
                       (match event with
                        | EncoderEvent.ENCODER_CLOCKWISE => [[0x02], [0x00]]
                        | EncoderEvent.ENCODER_COUNTER_CLOCKWISE => [[0x01], [0x00]]) })
    ∧ (w.state.encoderVolumeMode = false →
        (DeviceController.onEncoderEvent w event).ble.requests =
          w.ble.requests ++
            (match event with
              | EncoderEvent.ENCODER_CLOCKWISE =>
                [Request.keyboard [0, 0, 0x50, 0, 0, 0, 0, 0],
                 Request.keyboard [0, 0, 0, 0, 0, 0, 0, 0]]
              | EncoderEvent.ENCODER_COUNTER_CLOCKWISE =>
                [Request.keyboard [0, 0, 0x4F, 0, 0, 0, 0, 0],
                 Request.keyboard [0, 0, 0, 0, 0, 0, 0, 0]])
        ∧ ∀ c : BLECharacteristic, w.ble.keyboardInput = some c → w.ble.connectedClients ≠ 0 →
            (DeviceController.onEncoderEvent w event).ble.keyboardInput =
              some { value := [0, 0, 0, 0, 0, 0, 0, 0],
                     notified := c.notified ++
                       (match event with
                        | EncoderEvent.ENCODER_CLOCKWISE =>
                          [[0, 0, 0x50, 0, 0, 0, 0, 0], [0, 0, 0, 0, 0, 0, 0, 0]]
                        | EncoderEvent.ENCODER_COUNTER_CLOCKWISE =>
                          [[0, 0, 0x4F, 0, 0, 0, 0, 0], [0, 0, 0, 0, 0, 0, 0, 0]]) }) := by
  refine ⟨?_, ?_, ?_, ?_, ?_, ?_⟩
  · unfold DeviceController.onEncoderEvent
    cases w.state.encoderVolumeMode <;> cases event <;> rfl
  · unfold DeviceController.onEncoderEvent
    cases w.state.encoderVolumeMode <;> cases event <;> rfl
  · intro v hv hm
    unfold DeviceController.onEncoderEvent
    rw [hm, hv]
    cases w.state.encoderVolumeMode <;> cases event <;> rfl
  · intro c
    unfold DeviceController.onEncoderEvent
    cases hm : w.state.encoderVolumeMode <;> cases event <;> simp [hm]
  · intro hm
    constructor
    · cases event <;>
        simp [DeviceController.onEncoderEvent, hm, KeyboardHandler.sendVolumeDown,
          KeyboardHandler.sendVolumeUp, consumer_pulse_requests, CONSUMER_VOLUME_DOWN,
          CONSUMER_VOLUME_UP]
    · intro c hb hn
      cases event <;>
        simp [DeviceController.onEncoderEvent, hm, KeyboardHandler.sendVolumeDown,
          KeyboardHandler.sendVolumeUp, consumer_pulse_delivered _ _ c hb hn,
          CONSUMER_VOLUME_DOWN, CONSUMER_VOLUME_UP]
  · intro hm
    constructor
    · cases event <;>
        simp [DeviceController.onEncoderEvent, hm, KeyboardHandler.sendLeftArrow,
          KeyboardHandler.sendRightArrow, key_then_release_requests, KEY_LEFT_ARROW,
          KEY_RIGHT_ARROW]
    · intro c hb hn
      cases event <;>
        simp [DeviceController.onEncoderEvent, hm, KeyboardHandler.sendLeftArrow,
          KeyboardHandler.sendRightArrow, key_then_release_delivered _ _ _ c hb hn,
          KEY_LEFT_ARROW, KEY_RIGHT_ARROW]

/-- Witness for C14: a connected device in volume mode, turned clockwise. -/
theorem rotation_dispatch_witness :
    (DeviceController.onEncoderEvent
      ⟨DeviceState.new, ⟨Color.off, 10⟩,
        { BluetoothHandler.new with connectedClients := 1, consumerInput := some ⟨[], []⟩ }⟩
      EncoderEvent.ENCODER_CLOCKWISE).ble.consumerInput = some ⟨[0], [[2], [0]]⟩ :=
  ((rotation_dispatch
    ⟨DeviceState.new, ⟨Color.off, 10⟩,
      { BluetoothHandler.new with connectedClients := 1, consumerInput := some ⟨[], []⟩ }⟩
    EncoderEvent.ENCODER_CLOCKWISE).2.2.2.2.1 rfl).2 ⟨[], []⟩ rfl (by decide)

theorem sendKeys_requests (h : BluetoothHandler) (m k1 k2 k3 k4 k5 : Nat) :
    (KeyboardHandler.sendKeys h m k1 k2 k3 k4 k5).1.requests =
      h.requests ++ [Request.keyboard
        [m % 256, 0, k1 % 256, k2 % 256, k3 % 256, k4 % 256, k5 % 256, 0]] := by
  simp [KeyboardHandler.sendKeys, sendKeyboardReport_requests]

theorem releaseAllKeys_requests (h : BluetoothHandler) :
    (KeyboardHandler.releaseAllKeys h).requests =
      h.requests ++ [Request.keyboard [0, 0, 0, 0, 0, 0, 0, 0]] := by
  simp [KeyboardHandler.releaseAllKeys, sendKeyboardReport_requests]

theorem endsWithRelease_one (m k : Nat) :
    EndsWithRelease (fun ble =>
      KeyboardHandler.releaseAllKeys (KeyboardHandler.sendKeys ble m k 0 0 0 0).1) := by
  intro ble
  refine ⟨[[m % 256, 0, k % 256, 0, 0, 0, 0, 0], [0, 0, 0, 0, 0, 0, 0, 0]], ?_, ?_, ?_⟩
  · simp [releaseAllKeys_requests, sendKeys_requests]
  · intro r hr; simp at hr; rcases hr with rfl | rfl <;> rfl
  · rfl

theorem endsWithRelease_sendCtrlAltH : EndsWithRelease KeyboardHandler.sendCtrlAltH := by
  intro ble
  refine ⟨[[(KEY_LEFT_CTRL ||| KEY_LEFT_ALT) % 256, 0, 0, 0, 0, 0, 0, 0],
    [(KEY_LEFT_CTRL ||| KEY_LEFT_ALT) % 256, 0, KEY_H % 256, 0, 0, 0, 0, 0],
    [(KEY_LEFT_CTRL ||| KEY_LEFT_ALT) % 256, 0, 0, 0, 0, 0, 0, 0],
    [0, 0, 0, 0, 0, 0, 0, 0]], ?_, ?_, ?_⟩
  · simp [KeyboardHandler.sendCtrlAltH, releaseAllKeys_requests, sendKeys_requests]
  · intro r hr; simp at hr; rcases hr with rfl | rfl | rfl | rfl <;> rfl
  · rfl

theorem endsWithRelease_sendCtrlAltHAlternative1 :
    EndsWithRelease KeyboardHandler.sendCtrlAltHAlternative1 := by
  intro ble
  refine ⟨[[(KEY_LEFT_CTRL ||| KEY_LEFT_ALT) % 256, 0, 0, 0, 0, 0, 0, 0],
    [(KEY_LEFT_CTRL ||| KEY_LEFT_ALT) % 256, 0, KEY_H % 256, 0, 0, 0, 0, 0],
    [0, 0, 0, 0, 0, 0, 0, 0]], ?_, ?_, ?_⟩
  · simp [KeyboardHandler.sendCtrlAltHAlternative1, releaseAllKeys_requests, sendKeys_requests]
  · intro r hr; simp at hr; rcases hr with rfl | rfl | rfl <;> rfl
  · rfl

/-- C15: for every shortcutType byte the keyboard reports that sendShortcut
hands to the transport are 8 bytes each and either none at all, exactly when
the type is not one of 1 to 8, or a sequence ending with the all-zero report;
each of sendRightArrow, sendLeftArrow, sendCtrlShiftF1, sendCtrlE,
sendCtrlAltH, its three alternatives and sendA hands over a non-empty
sequence of 8-byte reports ending with the all-zero report. -/
theorem keyboard_actions_end_with_release :
    (∀ (ble : BluetoothHandler) (shortcutType : Nat), ∃ reports : List (List Nat),
      (KeyboardHandler.sendShortcut ble shortcutType).requests =
        ble.requests ++ reports.map Request.keyboard
      ∧ (∀ r ∈ reports, r.length = 8)
      ∧ ((reports = [] ∧ ¬ (1 ≤ shortcutType % 256 ∧ shortcutType % 256 ≤ 8))
          ∨ (reports.getLast? = some [0, 0, 0, 0, 0, 0, 0, 0]
              ∧ 1 ≤ shortcutType % 256 ∧ shortcutType % 256 ≤ 8)))
    ∧ EndsWithRelease KeyboardHandler.sendRightArrow
    ∧ EndsWithRelease KeyboardHandler.sendLeftArrow
    ∧ EndsWithRelease KeyboardHandler.sendCtrlShiftF1
    ∧ EndsWithRelease KeyboardHandler.sendCtrlE
    ∧ EndsWithRelease KeyboardHandler.sendCtrlAltH
    ∧ EndsWithRelease KeyboardHandler.sendCtrlAltHAlternative1
    ∧ EndsWithRelease KeyboardHandler.sendCtrlAltHAlternative2
    ∧ EndsWithRelease KeyboardHandler.sendCtrlAltHAlternative3
    ∧ EndsWithRelease KeyboardHandler.sendA := by
  have h1 : EndsWithRelease KeyboardHandler.sendRightArrow := endsWithRelease_one 0 KEY_RIGHT_ARROW
  have h2 : EndsWithRelease KeyboardHandler.sendLeftArrow := endsWithRelease_one 0 KEY_LEFT_ARROW
  have h3 : EndsWithRelease KeyboardHandler.sendCtrlShiftF1 :=
    endsWithRelease_one (KEY_LEFT_CTRL ||| KEY_LEFT_SHIFT) KEY_F1
  have h4 : EndsWithRelease KeyboardHandler.sendCtrlE := endsWithRelease_one KEY_LEFT_CTRL KEY_E
  have h5 := endsWithRelease_sendCtrlAltH
  have h6 := endsWithRelease_sendCtrlAltHAlternative1
  have h7 : EndsWithRelease KeyboardHandler.sendCtrlAltHAlternative2 :=
    endsWithRelease_one (KEY_LEFT_CTRL ||| KEY_LEFT_ALT) KEY_H
  have h8 : EndsWithRelease KeyboardHandler.sendCtrlAltHAlternative3 :=
    endsWithRelease_one (KEY_RIGHT_CTRL ||| KEY_RIGHT_ALT) KEY_H
  have h9 : EndsWithRelease KeyboardHandler.sendA := endsWithRelease_one 0 KEY_A
  refine ⟨?_, h1, h2, h3, h4, h5, h6, h7, h8, h9⟩
  intro ble shortcutType
  have known : ∀ (f : BluetoothHandler → BluetoothHandler), EndsWithRelease f →
      KeyboardHandler.sendShortcut ble shortcutType = f ble →
      (1 ≤ shortcutType % 256 ∧ shortcutType % 256 ≤ 8) →
      ∃ reports : List (List Nat),
        (KeyboardHandler.sendShortcut ble shortcutType).requests =
          ble.requests ++ reports.map Request.keyboard
        ∧ (∀ r ∈ reports, r.length = 8)
        ∧ ((reports = [] ∧ ¬ (1 ≤ shortcutType % 256 ∧ shortcutType % 256 ≤ 8))
            ∨ (reports.getLast? = some [0, 0, 0, 0, 0, 0, 0, 0]
                ∧ 1 ≤ shortcutType % 256 ∧ shortcutType % 256 ≤ 8)) := by
    intro f hf he hr
    obtain ⟨reports, a, b, c⟩ := hf ble
    exact ⟨reports, by rw [he]; exact a, b, Or.inr ⟨c, hr⟩⟩
  have key : ∀ n, shortcutType % 256 = n → KeyboardHandler.sendShortcut ble shortcutType =
      (match n with
        | 1 => KeyboardHandler.sendRightArrow ble
        | 2 => KeyboardHandler.sendLeftArrow ble
        | 3 => KeyboardHandler.sendCtrlShiftF1 ble
        | 4 => KeyboardHandler.sendCtrlE ble
        | 5 => KeyboardHandler.sendCtrlAltH ble
        | 6 => KeyboardHandler.sendCtrlAltHAlternative1 ble
        | 7 => KeyboardHandler.sendCtrlAltHAlternative2 ble
        | 8 => KeyboardHandler.sendCtrlAltHAlternative3 ble
        | _ => ble) := by
    intro n hn
    unfold KeyboardHandler.sendShortcut
    rw [hn]
  have unknown : KeyboardHandler.sendShortcut ble shortcutType = ble →
      ¬ (1 ≤ shortcutType % 256 ∧ shortcutType % 256 ≤ 8) →
      ∃ reports : List (List Nat),
        (KeyboardHandler.sendShortcut ble shortcutType).requests =
          ble.requests ++ reports.map Request.keyboard
        ∧ (∀ r ∈ reports, r.length = 8)
        ∧ ((reports = [] ∧ ¬ (1 ≤ shortcutType % 256 ∧ shortcutType % 256 ≤ 8))
            ∨ (reports.getLast? = some [0, 0, 0, 0, 0, 0, 0, 0]
                ∧ 1 ≤ shortcutType % 256 ∧ shortcutType % 256 ≤ 8)) := by
    intro he hr
    exact ⟨[], by rw [he]; simp, by simp, Or.inl ⟨rfl, hr⟩⟩
  obtain ⟨n, hn⟩ : ∃ n, shortcutType % 256 = n := ⟨_, rfl⟩
  rcases n with _ | _ | _ | _ | _ | _ | _ | _ | _ | n
  · exact unknown (key _ hn) (by omega)
  · exact known _ h1 (key _ hn) (by omega)
  · exact known _ h2 (key _ hn) (by omega)
  · exact known _ h3 (key _ hn) (by omega)
  · exact known _ h4 (key _ hn) (by omega)
  · exact known _ h5 (key _ hn) (by omega)
  · exact known _ h6 (key _ hn) (by omega)
  · exact known _ h7 (key _ hn) (by omega)
  · exact known _ h8 (key _ hn) (by omega)
  · exact unknown (key _ hn) (by omega)

/-- C16: sendVolumeUp, sendVolumeDown and sendConsumerMute each hand the
transport exactly two consumer reports, the first 0x01, 0x02 and 0x04
respectively (a single bit) and the second 0x00, and with a peer connected and
the characteristic bound these two 1-byte values are what is notified;
sendConsumerReport hands over and transmits the low 8 bits of its 16-bit
argument as one byte. -/
theorem consumer_actions_are_pulses (ble : BluetoothHandler) :
    (KeyboardHandler.sendVolumeUp ble).requests =
        ble.requests ++ [Request.consumer 0x01, Request.consumer 0x00]
    ∧ (KeyboardHandler.sendVolumeDown ble).requests =
        ble.requests ++ [Request.consumer 0x02, Request.consumer 0x00]
    ∧ (KeyboardHandler.sendConsumerMute ble).requests =
        ble.requests ++ [Request.consumer 0x04, Request.consumer 0x00]
    ∧ ((0x01 : Nat) = 2 ^ 0 ∧ (0x02 : Nat) = 2 ^ 1 ∧ (0x04 : Nat) = 2 ^ 2)
    ∧ (∀ c : BLECharacteristic, ble.consumerInput = some c → ble.connectedClients ≠ 0 →
        (KeyboardHandler.sendVolumeUp ble).consumerInput =
            some { value := [0x00], notified := c.notified ++ [[0x01], [0x00]] }
        ∧ (KeyboardHandler.sendVolumeDown ble).consumerInput =
            some { value := [0x00], notified := c.notified ++ [[0x02], [0x00]] }
        ∧ (KeyboardHandler.sendConsumerMute ble).consumerInput =
            some { value := [0x00], notified := c.notified ++ [[0x04], [0x00]] })
    ∧ (∀ consumerCode : Nat,
        (ble.sendConsumerReport consumerCode).1.requests =
            ble.requests ++ [Request.consumer (consumerCode % 256)]
        ∧ consumerCode % 256 = (consumerCode % 65536) % 256
        ∧ ∀ c : BLECharacteristic, ble.consumerInput = some c → ble.connectedClients ≠ 0 →
            (ble.sendConsumerReport consumerCode).1.consumerInput =
              some { value := [consumerCode % 256],
                     notified := c.notified ++ [[consumerCode % 256]] }) := by
  refine ⟨?_, ?_, ?_, by decide, ?_, ?_⟩
  · simp [KeyboardHandler.sendVolumeUp, consumer_pulse_requests, CONSUMER_VOLUME_UP]
  · simp [KeyboardHandler.sendVolumeDown, consumer_pulse_requests, CONSUMER_VOLUME_DOWN]
  · simp [KeyboardHandler.sendConsumerMute, consumer_pulse_requests, CONSUMER_MUTE]
  · intro c hb hn
    refine ⟨?_, ?_, ?_⟩
    · simp [KeyboardHandler.sendVolumeUp, consumer_pulse_delivered _ _ c hb hn,
        CONSUMER_VOLUME_UP]
    · simp [KeyboardHandler.sendVolumeDown, consumer_pulse_delivered _ _ c hb hn,
        CONSUMER_VOLUME_DOWN]
    · simp [KeyboardHandler.sendConsumerMute, consumer_pulse_delivered _ _ c hb hn,
        CONSUMER_MUTE]
  · intro consumerCode
    refine ⟨sendConsumerReport_requests ble consumerCode, by omega, ?_⟩
    intro c hb hn
    rw [sendConsumerReport_delivered ble consumerCode c hb hn]

/-- Witness for C16: volume up on a connected transport. -/
theorem consumer_actions_are_pulses_witness :
    (KeyboardHandler.sendVolumeUp
      { BluetoothHandler.new with connectedClients := 1, consumerInput := some ⟨[], []⟩ }
      ).consumerInput = some ⟨[0], [[1], [0]]⟩ :=
  ((consumer_actions_are_pulses
    { BluetoothHandler.new with connectedClients := 1, consumerInput := some ⟨[], []⟩ }
    ).2.2.2.2.1 ⟨[], []⟩ rfl (by decide)).1

/-- C17: with a call active, a long press on the left button hands the
transport exactly two telephony reports, the first with the drop bit set and
the second with it clear, both carrying the current mute bit, and leaves the
DeviceState (dropped and muted included) and the LED as they were; with a peer
connected and the characteristic bound exactly these two bytes are notified. -/
theorem drop_pulse (w : Device) (hcall : w.state.callActive = true) :
    (DeviceController.onLeftButtonEvent w ButtonEvent.BUTTON_LONG_PRESSED).state = w.state
    ∧ (DeviceController.onLeftButtonEvent w ButtonEvent.BUTTON_LONG_PRESSED).led = w.led
    ∧ (DeviceController.onLeftButtonEvent w ButtonEvent.BUTTON_LONG_PRESSED).ble.requests =
        w.ble.requests ++
          [Request.headset ((if w.state.muteState then 1 else 0) + 2),
           Request.headset (if w.state.muteState then 1 else 0)]
    ∧ (∀ c : BLECharacteristic, w.ble.headsetInput = some c → w.ble.connectedClients ≠ 0 →
        (DeviceController.onLeftButtonEvent w ButtonEvent.BUTTON_LONG_PRESSED).ble.headsetInput =
          some { value := [if w.state.muteState then 1 else 0],
                 notified := c.notified ++
                   [[(if w.state.muteState then 1 else 0) + 2],
                    [if w.state.muteState then 1 else 0]] })
    ∧ Nat.testBit ((if w.state.muteState then 1 else 0) + 2) 1 = true
    ∧ Nat.testBit (if w.state.muteState then 1 else 0) 1 = false
    ∧ Nat.testBit ((if w.state.muteState then 1 else 0) + 2) 0 = w.state.muteState
    ∧ Nat.testBit (if w.state.muteState then 1 else 0) 0 = w.state.muteState := by
  refine ⟨?_, ?_, ?_, ?_, ?_, ?_, ?_, ?_⟩
  · simp [DeviceController.onLeftButtonEvent, DeviceController.updateCallState, hcall]
  · simp [DeviceController.onLeftButtonEvent, DeviceController.updateCallState, hcall]
  · cases hm : w.state.muteState <;>
      simp [DeviceController.onLeftButtonEvent, DeviceController.updateCallState, hcall, hm,
        sendHeadsetReport_requests]
  · intro c hb hn
    cases hm : w.state.muteState <;>
      simp [DeviceController.onLeftButtonEvent, DeviceController.updateCallState, hcall, hm,
        BluetoothHandler.sendHeadsetReport, BluetoothHandler.sendReport,
        BluetoothHandler.characteristic, BluetoothHandler.setCharacteristic, hb, hn]
  · cases w.state.muteState <;> decide
  · cases w.state.muteState <;> decide
  · cases w.state.muteState <;> decide
  · cases w.state.muteState <;> decide

/-- Witness for C17: a connected device in a call, muted. -/
theorem drop_pulse_witness :
    (DeviceController.onLeftButtonEvent
      ⟨{ DeviceState.new with callActive := true, muteState := true }, ⟨Color.off, 10⟩,
        { BluetoothHandler.new with connectedClients := 1, headsetInput := some ⟨[], []⟩ }⟩
      ButtonEvent.BUTTON_LONG_PRESSED).ble.headsetInput = some ⟨[1], [[3], [1]]⟩ :=
  (drop_pulse
    ⟨{ DeviceState.new with callActive := true, muteState := true }, ⟨Color.off, 10⟩,
      { BluetoothHandler.new with connectedClients := 1, headsetInput := some ⟨[], []⟩ }⟩
    rfl).2.2.2.1 ⟨[], []⟩ rfl (by decide)

/-! ## Mode toggles on the encoder button -/

/-- C18: a click on the encoder button with no call active negates
encoderVolumeMode, leaves every other DeviceState field and the transport
unchanged (no report), and a second click restores the original DeviceState;
with a call active the click changes nothing at all and sends no report. -/
theorem encoder_click_toggles_mode (w : Device) :
    (w.state.callActive = false →
      (DeviceController.onEncoderButtonEvent w ButtonEvent.BUTTON_CLICKED).state =
          { w.state with encoderVolumeMode := !w.state.encoderVolumeMode }
      ∧ (DeviceController.onEncoderButtonEvent w ButtonEvent.BUTTON_CLICKED).ble = w.ble
      ∧ (DeviceController.onEncoderButtonEvent
          (DeviceController.onEncoderButtonEvent w ButtonEvent.BUTTON_CLICKED)
          ButtonEvent.BUTTON_CLICKED).state = w.state)
    ∧ (w.state.callActive = true →
      DeviceController.onEncoderButtonEvent w ButtonEvent.BUTTON_CLICKED = w) := by
  constructor
  · intro hcall
    have h1 : ∀ v : Device, v.state.callActive = false →
        (DeviceController.onEncoderButtonEvent v ButtonEvent.BUTTON_CLICKED).state =
          { v.state with encoderVolumeMode := !v.state.encoderVolumeMode }
        ∧ (DeviceController.onEncoderButtonEvent v ButtonEvent.BUTTON_CLICKED).ble = v.ble := by
      intro v hv
      cases hm : v.state.encoderVolumeMode <;>
        simp [DeviceController.onEncoderButtonEvent, DeviceState.toggleEncoderMode, hv, hm]
    refine ⟨(h1 w hcall).1, (h1 w hcall).2, ?_⟩
    have hc2 : (DeviceController.onEncoderButtonEvent w
        ButtonEvent.BUTTON_CLICKED).state.callActive = false := by
      rw [(h1 w hcall).1]; exact hcall
    rw [(h1 _ hc2).1, (h1 w hcall).1]
    simp
  · intro hcall
    simp [DeviceController.onEncoderButtonEvent, hcall]

/-- Witness for C18: an idle device in volume mode leaves it on a click. -/
theorem encoder_click_toggles_mode_witness :
    (DeviceController.onEncoderButtonEvent ⟨DeviceState.new, ⟨Color.off, 10⟩, BluetoothHandler.new⟩
      ButtonEvent.BUTTON_CLICKED).state = { DeviceState.new with encoderVolumeMode := false } :=
  ((encoder_click_toggles_mode ⟨DeviceState.new, ⟨Color.off, 10⟩, BluetoothHandler.new⟩).1
    rfl).1

/-- C19: a double click on the encoder button, call or no call, negates
pushToTalkMode, leaves every other DeviceState field and the transport
unchanged, and the LED left by the handler is the call-status colour of the
state (off without a call, red for call and muted, green for call and not
muted), which is neither the blue nor the purple flash colour. -/
theorem push_to_talk_double_click (w : Device) :
    (DeviceController.onEncoderButtonEvent w ButtonEvent.BUTTON_DOUBLE_CLICKED).state =
        { w.state with pushToTalkMode := !w.state.pushToTalkMode }
    ∧ (DeviceController.onEncoderButtonEvent w ButtonEvent.BUTTON_DOUBLE_CLICKED).ble = w.ble
    ∧ (DeviceController.onEncoderButtonEvent w ButtonEvent.BUTTON_DOUBLE_CLICKED).led.shown =
        (if w.state.callActive then
          (if w.state.muteState then LedStrip.colorRed else LedStrip.colorGreen)
         else Color.off)
    ∧ (DeviceController.onEncoderButtonEvent w ButtonEvent.BUTTON_DOUBLE_CLICKED).led.shown ≠
        LedStrip.colorBlue
    ∧ (DeviceController.onEncoderButtonEvent w ButtonEvent.BUTTON_DOUBLE_CLICKED).led.shown ≠
        (⟨255, 0, 255⟩ : Color) := by
  have hled : (DeviceController.onEncoderButtonEvent w ButtonEvent.BUTTON_DOUBLE_CLICKED).led.shown =
      (if w.state.callActive then
        (if w.state.muteState then LedStrip.colorRed else LedStrip.colorGreen)
       else Color.off) := by
    cases hp : w.state.pushToTalkMode <;> cases hc : w.state.callActive <;>
      cases hm : w.state.muteState <;>
      simp [DeviceController.onEncoderButtonEvent, DeviceState.togglePushToTalk,
        DeviceController.updateLedCallStatus, LedStrip.setColor, LedStrip.setColorRGB,
        LedStrip.clear, hp, hc, hm]
  refine ⟨?_, ?_, hled, ?_, ?_⟩
  · cases hp : w.state.pushToTalkMode <;> cases hc : w.state.callActive <;>
      simp [DeviceController.onEncoderButtonEvent, DeviceState.togglePushToTalk,
        DeviceController.updateLedCallStatus, hp, hc]
  · cases hp : w.state.pushToTalkMode <;> cases hc : w.state.callActive <;>
      simp [DeviceController.onEncoderButtonEvent, DeviceState.togglePushToTalk,
        DeviceController.updateLedCallStatus, hp, hc]
  · rw [hled]
    cases w.state.callActive <;> cases w.state.muteState <;> decide
  · rw [hled]
    cases w.state.callActive <;> cases w.state.muteState <;> decide

/-! ## Two-stage calibration -/

/-- C20: from any sensor state startCalibration enters the untouched stage
(in progress, stage 0, not complete); the first completeCalibration(a) stores
untouched = a, moves to stage 1, stays in progress and not complete and
leaves the threshold and the stored settings alone; the second
completeCalibration(b) stores touched = b, keeps untouched = a, sets
calibrationComplete and clears calibrationInProgress. -/
theorem two_stage_calibration (s : TouchSensor) (led : LedStrip) (prefs : TouchSettings)
    (a b : Int) (m0 m1 m2 : Nat) :
    ((s.startCalibration led m0).1.calibrationInProgress = true
      ∧ (s.startCalibration led m0).1.calibrationStage = 0
      ∧ (s.startCalibration led m0).1.calibrationComplete = false)
    ∧ (((s.startCalibration led m0).1.completeCalibration
          (s.startCalibration led m0).2 prefs a m1).1.untouchedValue = a
      ∧ ((s.startCalibration led m0).1.completeCalibration
          (s.startCalibration led m0).2 prefs a m1).1.calibrationStage = 1
      ∧ ((s.startCalibration led m0).1.completeCalibration
          (s.startCalibration led m0).2 prefs a m1).1.calibrationInProgress = true
      ∧ ((s.startCalibration led m0).1.completeCalibration
          (s.startCalibration led m0).2 prefs a m1).1.calibrationComplete = false
      ∧ ((s.startCalibration led m0).1.completeCalibration
          (s.startCalibration led m0).2 prefs a m1).1.touchThreshold = s.touchThreshold
      ∧ ((s.startCalibration led m0).1.completeCalibration
          (s.startCalibration led m0).2 prefs a m1).2.2 = prefs)
    ∧ (((s.startCalibration led m0).1.calibrateBoth
          (s.startCalibration led m0).2 prefs a b m1 m2).1.untouchedValue = a
      ∧ ((s.startCalibration led m0).1.calibrateBoth
          (s.startCalibration led m0).2 prefs a b m1 m2).1.touchedValue = b
      ∧ ((s.startCalibration led m0).1.calibrateBoth
          (s.startCalibration led m0).2 prefs a b m1 m2).1.calibrationComplete = true
      ∧ ((s.startCalibration led m0).1.calibrateBoth
          (s.startCalibration led m0).2 prefs a b m1 m2).1.calibrationInProgress = false) := by
  refine ⟨⟨rfl, rfl, rfl⟩, ?_, ?_⟩
  · simp [TouchSensor.startCalibration, TouchSensor.completeCalibration]
  · unfold TouchSensor.calibrateBoth
    by_cases hab : b > a <;>
      simp [TouchSensor.startCalibration, TouchSensor.completeCalibration, hab]

/-! ## Touch sensor: startup, persistence and steady-state detection -/

theorem completeCalibration_frame (s : TouchSensor) (led : LedStrip) (prefs : TouchSettings)
    (v : Int) (m : Nat) :
    (s.completeCalibration led prefs v m).1.touchState = s.touchState
    ∧ (s.completeCalibration led prefs v m).1.callback = s.callback := by
  unfold TouchSensor.completeCalibration
  by_cases h0 : s.calibrationStage = 0
  · simp [h0]
  · by_cases h1 : v > s.untouchedValue <;> simp [h0, h1]

/-- C21: in every sensor state with calibrationInProgress true or
calibrationComplete false, for every raw reading and clock value,
TouchSensor::update invokes no callback and leaves touchState unchanged. -/
theorem touch_suppressed_until_calibrated (s : TouchSensor) (led : LedStrip)
    (prefs : TouchSettings) (currentMillis : Nat) (touchRead : Nat → Nat) (millisStage : Nat)
    (h : s.calibrationInProgress = true ∨ s.calibrationComplete = false) :
    (s.update led prefs currentMillis touchRead millisStage).2.2.2 = []
    ∧ (s.update led prefs currentMillis touchRead millisStage).1.touchState = s.touchState := by
  unfold TouchSensor.update
  by_cases hp : s.calibrationInProgress = true
  · rw [if_pos hp]
    by_cases ht : subU32 currentMillis s.calibrationStartTime > CALIBRATION_INTERVAL
    · rw [if_pos ht]
      exact ⟨rfl, (completeCalibration_frame s led prefs _ millisStage).1⟩
    · rw [if_neg ht]
      simp only []
      split_ifs <;> exact ⟨rfl, rfl⟩
  · rw [if_neg hp]
    have hc : s.calibrationComplete = false := by
      rcases h with h | h
      · exact absurd h hp
      · exact h
    simp [hc]

/-- Witness for C21: a freshly constructed sensor, a high reading. -/
theorem touch_suppressed_until_calibrated_witness :
    (((TouchSensor.new 4 50).setCallback true).update ⟨Color.off, 10⟩ ⟨none, none, none⟩
      1000 (fun _ => 4000) 1000).2.2.2 = [] :=
  (touch_suppressed_until_calibrated ((TouchSensor.new 4 50).setCallback true)
    ⟨Color.off, 10⟩ ⟨none, none, none⟩ 1000 (fun _ => 4000) 1000 (Or.inr rfl)).1

theorem loadSettings_new (touchPin debounceTime : Nat) (prefs : TouchSettings) :
    ((0 < wrapInt32 (prefs.untouched.getD 0) ∧ 0 < wrapInt32 (prefs.touched.getD 0)) →
      (TouchSensor.new touchPin debounceTime).loadSettings prefs =
        { TouchSensor.new touchPin debounceTime with
          untouchedValue := wrapInt32 (prefs.untouched.getD 0)
          touchedValue := wrapInt32 (prefs.touched.getD 0)
          touchThreshold := wrapInt32 (prefs.touchThresh.getD 0)
          calibrationComplete := true })
    ∧ (¬ (0 < wrapInt32 (prefs.untouched.getD 0) ∧ 0 < wrapInt32 (prefs.touched.getD 0)) →
      (TouchSensor.new touchPin debounceTime).loadSettings prefs =
        { TouchSensor.new touchPin debounceTime with
          untouchedValue := wrapInt32 (prefs.untouched.getD 0)
          touchedValue := wrapInt32 (prefs.touched.getD 0)
          touchThreshold := 0
          calibrationComplete := false }) := by
  constructor
  · intro h
    simp [TouchSensor.loadSettings, TouchSensor.new, h]
  · intro h
    simp only [TouchSensor.loadSettings, TouchSensor.new, gt_iff_lt, if_neg h]

/-- C22 as stated fails: the store holds unsigned 32-bit words and
loadSettings assigns them to int members. With the positive untouched word
4294967295 (touched 200, threshold 77) the baseline reads back as -1, so
begin yields calibrationComplete = false, threshold 0 and starts the untouched
calibration stage; with the positive baselines (100, 200) and the stored
threshold word 4000000000 the sensor comes up calibrated, but the threshold
loaded is -294967296, not the stored value. -/
theorem begin_large_stored_word :
    (((TouchSensor.new 4 50).begin ⟨Color.off, 10⟩
        ⟨some 4294967295, some 200, some 77⟩ 0).1.calibrationComplete = false
      ∧ ((TouchSensor.new 4 50).begin ⟨Color.off, 10⟩
        ⟨some 4294967295, some 200, some 77⟩ 0).1.touchThreshold = 0
      ∧ ((TouchSensor.new 4 50).begin ⟨Color.off, 10⟩
        ⟨some 4294967295, some 200, some 77⟩ 0).1.calibrationInProgress = true
      ∧ ((TouchSensor.new 4 50).begin ⟨Color.off, 10⟩
        ⟨some 4294967295, some 200, some 77⟩ 0).1.calibrationStage = 0)
    ∧ ((TouchSensor.new 4 50).begin ⟨Color.off, 10⟩
        ⟨some 100, some 200, some 4000000000⟩ 0).1.calibrationComplete = true
    ∧ ((TouchSensor.new 4 50).begin ⟨Color.off, 10⟩
        ⟨some 100, some 200, some 4000000000⟩ 0).1.touchThreshold = -294967296 := by
  decide

/-- C22 (amended): TouchSensor::begin on a freshly constructed sensor. With a
store in which the untouched or the touched key is missing or zero it yields
calibrationComplete = false, threshold 0 and the sensor in the untouched
calibration stage (in progress, stage 0); with both baselines stored as words
between 1 and 2^31 - 1, which are positive when read into the int members, it
yields calibrationComplete = true, no calibration in progress, the baselines
loaded, and the threshold word loaded as an int (unchanged when below 2^31).
The sensor comes up calibrated exactly when both loaded baselines are
positive as int; a stored baseline word from 2^31 up to 2^32 - 1 reads back
negative and is treated like a missing one. -/
theorem touch_begin_startup (touchPin debounceTime : Nat) (led : LedStrip)
    (prefs : TouchSettings) (millis : Nat) :
    ((prefs.untouched = none ∨ prefs.untouched = some 0 ∨
        prefs.touched = none ∨ prefs.touched = some 0) →
      ((TouchSensor.new touchPin debounceTime).begin led prefs millis).1.calibrationComplete
          = false
      ∧ ((TouchSensor.new touchPin debounceTime).begin led prefs millis).1.touchThreshold = 0
      ∧ ((TouchSensor.new touchPin debounceTime).begin led prefs millis).1.calibrationInProgress
          = true
      ∧ ((TouchSensor.new touchPin debounceTime).begin led prefs millis).1.calibrationStage = 0)
    ∧ (∀ u t : Nat, prefs.untouched = some u → prefs.touched = some t →
        0 < u → u < 2147483648 → 0 < t → t < 2147483648 →
      ((TouchSensor.new touchPin debounceTime).begin led prefs millis).1.calibrationComplete
          = true
      ∧ ((TouchSensor.new touchPin debounceTime).begin led prefs millis).1.calibrationInProgress
          = false
      ∧ ((TouchSensor.new touchPin debounceTime).begin led prefs millis).1.untouchedValue = u
      ∧ ((TouchSensor.new touchPin debounceTime).begin led prefs millis).1.touchedValue = t
      ∧ ((TouchSensor.new touchPin debounceTime).begin led prefs millis).1.touchThreshold =
          wrapInt32 (prefs.touchThresh.getD 0)
      ∧ ∀ h : Nat, prefs.touchThresh = some h → h < 2147483648 →
          ((TouchSensor.new touchPin debounceTime).begin led prefs millis).1.touchThreshold = h)
    ∧ (((TouchSensor.new touchPin debounceTime).begin led prefs millis).1.calibrationComplete
          = true ↔
        (0 < wrapInt32 (prefs.untouched.getD 0) ∧ 0 < wrapInt32 (prefs.touched.getD 0)))
    ∧ (∀ v : Nat, (prefs.untouched = some v ∨ prefs.touched = some v) →
        2147483648 ≤ v → v < 4294967296 →
      ((TouchSensor.new touchPin debounceTime).begin led prefs millis).1.calibrationComplete
          = false
      ∧ ((TouchSensor.new touchPin debounceTime).begin led prefs millis).1.touchThreshold = 0
      ∧ ((TouchSensor.new touchPin debounceTime).begin led prefs millis).1.calibrationInProgress
          = true
      ∧ ((TouchSensor.new touchPin debounceTime).begin led prefs millis).1.calibrationStage
          = 0) := by
  have hl := loadSettings_new touchPin debounceTime prefs
  have hneg : ¬ (0 < wrapInt32 (prefs.untouched.getD 0) ∧ 0 < wrapInt32 (prefs.touched.getD 0)) →
      ((TouchSensor.new touchPin debounceTime).begin led prefs millis).1.calibrationComplete
          = false
      ∧ ((TouchSensor.new touchPin debounceTime).begin led prefs millis).1.touchThreshold = 0
      ∧ ((TouchSensor.new touchPin debounceTime).begin led prefs millis).1.calibrationInProgress
          = true
      ∧ ((TouchSensor.new touchPin debounceTime).begin led prefs millis).1.calibrationStage
          = 0 := by
    intro h
    simp only [TouchSensor.begin, hl.2 h]
    simp [TouchSensor.startCalibration]
  have hpos : (0 < wrapInt32 (prefs.untouched.getD 0) ∧ 0 < wrapInt32 (prefs.touched.getD 0)) →
      ((TouchSensor.new touchPin debounceTime).begin led prefs millis).1 =
        { TouchSensor.new touchPin debounceTime with
          untouchedValue := wrapInt32 (prefs.untouched.getD 0)
          touchedValue := wrapInt32 (prefs.touched.getD 0)
          touchThreshold := wrapInt32 (prefs.touchThresh.getD 0)
          calibrationComplete := true } := by
    intro h
    simp only [TouchSensor.begin, hl.1 h]
    simp
  have hz : wrapInt32 0 = 0 := by decide
  refine ⟨?_, ?_, ?_, ?_⟩
  · intro h
    apply hneg
    rintro ⟨h1, h2⟩
    rcases h with h | h | h | h <;> simp [h, hz] at h1 h2
  · intro u t hu ht hu0 hu1 ht0 ht1
    have eu : wrapInt32 (prefs.untouched.getD 0) = u := by
      rw [hu]; exact wrapInt32_of_range _ (by simp only [Option.getD_some]; omega) (by simp only [Option.getD_some]; omega)
    have et : wrapInt32 (prefs.touched.getD 0) = t := by
      rw [ht]; exact wrapInt32_of_range _ (by simp only [Option.getD_some]; omega) (by simp only [Option.getD_some]; omega)
    have hp := hpos ⟨by rw [eu]; exact_mod_cast hu0, by rw [et]; exact_mod_cast ht0⟩
    rw [hp]
    refine ⟨rfl, rfl, eu, et, rfl, ?_⟩
    intro h hh hlt
    show wrapInt32 (prefs.touchThresh.getD 0) = h
    rw [hh]; exact wrapInt32_of_range _ (by simp only [Option.getD_some]; omega) (by simp only [Option.getD_some]; omega)
  · constructor
    · intro hc
      by_contra hn
      rw [(hneg hn).1] at hc
      exact Bool.noConfusion hc
    · intro h
      rw [hpos h]
  · intro v hv hlo hhi
    apply hneg
    have hw : wrapInt32 (v : Int) < 0 := by
      unfold wrapInt32
      omega
    rintro ⟨h1, h2⟩
    rcases hv with hv | hv
    · rw [hv, Option.getD_some] at h1
      omega
    · rw [hv, Option.getD_some] at h2
      omega

/-- Witness for C22 (amended): a store holding the profile (100, 200, 150). -/
theorem touch_begin_startup_witness :
    ((TouchSensor.new 4 50).begin ⟨Color.off, 10⟩ ⟨some 100, some 200, some 150⟩
        0).1.calibrationComplete = true
    ∧ ((TouchSensor.new 4 50).begin ⟨Color.off, 10⟩ ⟨some 100, some 200, some 150⟩
        0).1.touchThreshold = 150 :=
  have h := (touch_begin_startup 4 50 ⟨Color.off, 10⟩ ⟨some 100, some 200, some 150⟩ 0).2.1
    100 200 rfl rfl (by decide) (by decide) (by decide) (by decide)
  ⟨h.1, h.2.2.2.2.2 150 rfl (by decide)⟩

theorem touch_threshold_bounds (s : TouchSensor) (led : LedStrip) (prefs : TouchSettings)
    (u t : Int) (m0 m1 : Nat) (hs : s.calibrationStage = 0)
    (hu0 : 0 ≤ u) (hu1 : u < 2147483648) (ht0 : 0 ≤ t) (ht1 : t < 2147483648) :
    min u t ≤ (s.calibrateBoth led prefs u t m0 m1).1.touchThreshold
    ∧ (s.calibrateBoth led prefs u t m0 m1).1.touchThreshold ≤ max u t
    ∧ (u < t → (s.calibrateBoth led prefs u t m0 m1).1.touchThreshold < t)
    ∧ (t < u → (s.calibrateBoth led prefs u t m0 m1).1.touchThreshold < u) := by
  have h1 := calibrateBoth_threshold s led prefs u t m0 m1 hs hu0 hu1 ht0 ht1
  have hd : 0 ≤ max u t - min u t := by
    have := min_le_max (a := u) (b := t)
    omega
  have hdiv : Int.tdiv (max u t - min u t) 2 = (max u t - min u t) / 2 :=
    Int.tdiv_eq_ediv hd (by omega)
  rw [h1, hdiv]
  refine ⟨by omega, by omega, ?_, ?_⟩
  · intro h
    rw [min_eq_left (le_of_lt h), max_eq_right (le_of_lt h)]
    omega
  · intro h
    rw [min_eq_right (le_of_lt h), max_eq_left (le_of_lt h)]
    omega

theorem calibrateBoth_fields (s : TouchSensor) (led : LedStrip) (prefs : TouchSettings)
    (u t : Int) (m0 m1 : Nat) (hs : s.calibrationStage = 0) :
    (s.calibrateBoth led prefs u t m0 m1).1.untouchedValue = u
    ∧ (s.calibrateBoth led prefs u t m0 m1).1.touchedValue = t
    ∧ (s.calibrateBoth led prefs u t m0 m1).1.calibrationComplete = true
    ∧ (s.calibrateBoth led prefs u t m0 m1).1.calibrationInProgress = false
    ∧ (s.calibrateBoth led prefs u t m0 m1).2.2 =
        { untouched := some (wrapUInt32 u)
          touched := some (wrapUInt32 t)
          touchThresh := some (wrapUInt32 (s.calibrateBoth led prefs u t m0 m1).1.touchThreshold) }
    := by
  unfold TouchSensor.calibrateBoth
  rw [completeCalibration_stage0 s led prefs u m0 hs]
  by_cases h : t > u <;>
    simp [TouchSensor.completeCalibration, TouchSensor.saveSettings, h]

theorem wrap_roundtrip (x : Int) (h0 : 0 ≤ x) (h1 : x < 2147483648) :
    wrapInt32 ((wrapUInt32 x : Nat) : Int) = x := by
  unfold wrapInt32 wrapUInt32
  omega

/-- C23 as stated fails: a calibration completing with baselines (40, 0) is
saved, but loading it on a fresh sensor does not restore the profile: the
threshold comes back as 0 instead of 20 and calibrationComplete is false, so
the next boot recalibrates. -/
theorem zero_baseline_not_restored :
    (((TouchSensor.new 4 50).calibrateBoth ⟨Color.off, 10⟩ ⟨none, none, none⟩
        40 0 0 6000).1.calibrationComplete = true
      ∧ ((TouchSensor.new 4 50).calibrateBoth ⟨Color.off, 10⟩ ⟨none, none, none⟩
        40 0 0 6000).1.touchThreshold = 20)
    ∧ ((TouchSensor.new 4 50).loadSettings
        ((TouchSensor.new 4 50).calibrateBoth ⟨Color.off, 10⟩ ⟨none, none, none⟩
          40 0 0 6000).2.2).calibrationComplete = false
    ∧ ((TouchSensor.new 4 50).loadSettings
        ((TouchSensor.new 4 50).calibrateBoth ⟨Color.off, 10⟩ ⟨none, none, none⟩
          40 0 0 6000).2.2).touchThreshold = 0
    ∧ ((TouchSensor.new 4 50).begin ⟨Color.off, 10⟩
        ((TouchSensor.new 4 50).calibrateBoth ⟨Color.off, 10⟩ ⟨none, none, none⟩
          40 0 0 6000).2.2 0).1.calibrationInProgress = true := by
  decide

/-- C23 amended: for every pair of positive baselines (u, t) (int values)
with which a calibration completes, saving the profile and loading it on a
fresh sensor restores untouched = u, touched = t, the same threshold and
calibrationComplete = true, and begin starts no calibration. -/
theorem calibration_profile_persists (s : TouchSensor) (led : LedStrip) (prefs : TouchSettings)
    (u t : Int) (m0 m1 : Nat) (touchPin debounceTime : Nat) (led2 : LedStrip) (m2 : Nat)
    (hs : s.calibrationStage = 0)
    (hu0 : 0 < u) (hu1 : u < 2147483648) (ht0 : 0 < t) (ht1 : t < 2147483648) :
    ((TouchSensor.new touchPin debounceTime).loadSettings
        (s.calibrateBoth led prefs u t m0 m1).2.2).untouchedValue = u
    ∧ ((TouchSensor.new touchPin debounceTime).loadSettings
        (s.calibrateBoth led prefs u t m0 m1).2.2).touchedValue = t
    ∧ ((TouchSensor.new touchPin debounceTime).loadSettings
        (s.calibrateBoth led prefs u t m0 m1).2.2).touchThreshold =
          (s.calibrateBoth led prefs u t m0 m1).1.touchThreshold
    ∧ ((TouchSensor.new touchPin debounceTime).loadSettings
        (s.calibrateBoth led prefs u t m0 m1).2.2).calibrationComplete = true
    ∧ ((TouchSensor.new touchPin debounceTime).begin led2
        (s.calibrateBoth led prefs u t m0 m1).2.2 m2).1.calibrationInProgress = false := by
  have hf := calibrateBoth_fields s led prefs u t m0 m1 hs
  have hthr := touch_threshold_bounds s led prefs u t m0 m1 hs (le_of_lt hu0) hu1 (le_of_lt ht0) ht1
  have h0 : 0 ≤ (s.calibrateBoth led prefs u t m0 m1).1.touchThreshold := by
    have := hthr.1
    have hm : 0 ≤ min u t := le_min (le_of_lt hu0) (le_of_lt ht0)
    omega
  have h1 : (s.calibrateBoth led prefs u t m0 m1).1.touchThreshold < 2147483648 := by
    have := hthr.2
    have hm : max u t < 2147483648 := max_lt hu1 ht1
    omega
  have eu := wrap_roundtrip u (le_of_lt hu0) hu1
  have et := wrap_roundtrip t (le_of_lt ht0) ht1
  have eh := wrap_roundtrip _ h0 h1
  have hl := (loadSettings_new touchPin debounceTime (s.calibrateBoth led prefs u t m0 m1).2.2).1
  rw [hf.2.2.2.2] at hl ⊢
  simp only [Option.getD_some, eu, et, eh] at hl
  have hl' := hl ⟨hu0, ht0⟩
  refine ⟨by rw [hl'], by rw [hl'], by rw [hl'], by rw [hl'], ?_⟩
  simp only [TouchSensor.begin, hl']
  simp [TouchSensor.new]

/-- Witness for C23 amended: the profile (100, 200) with threshold 150. -/
theorem calibration_profile_persists_witness :
    ((TouchSensor.new 4 50).loadSettings
      ((TouchSensor.new 4 50).calibrateBoth ⟨Color.off, 10⟩ ⟨none, none, none⟩
        100 200 0 6000).2.2).calibrationComplete = true :=
  (calibration_profile_persists (TouchSensor.new 4 50) ⟨Color.off, 10⟩ ⟨none, none, none⟩
    100 200 0 6000 4 50 ⟨Color.off, 10⟩ 0 rfl (by decide) (by decide) (by decide)
    (by decide)).2.2.2.1

theorem update_no_event_calibrating (s : TouchSensor) (led : LedStrip)
    (prefs : TouchSettings) (cm : Nat) (tr : Nat → Nat) (ms : Nat)
    (h : s.calibrationInProgress = true ∨ s.calibrationComplete = false) :
    (s.update led prefs cm tr ms).2.2.2 = []
    ∧ (s.update led prefs cm tr ms).1.touchState = s.touchState
    ∧ (s.update led prefs cm tr ms).1.callback = s.callback := by
  unfold TouchSensor.update
  by_cases hp : s.calibrationInProgress = true
  · rw [if_pos hp]
    by_cases ht : subU32 cm s.calibrationStartTime > CALIBRATION_INTERVAL
    · rw [if_pos ht]
      exact ⟨rfl, (completeCalibration_frame s led prefs _ ms).1,
        (completeCalibration_frame s led prefs _ ms).2⟩
    · rw [if_neg ht]
      simp only []
      split_ifs <;> exact ⟨rfl, rfl, rfl⟩
  · rw [if_neg hp]
    have hc : s.calibrationComplete = false := by
      rcases h with h | h
      · exact absurd h hp
      · exact h
    simp [hc]

theorem debounce_notify (s : TouchSensor) (cm : Nat) (reading : Int) :
    ((s.debounce cm reading).notify cm reading).1.callback = s.callback
    ∧ ((s.debounce cm reading).notify cm reading).1.touchThreshold = s.touchThreshold
    ∧ ((reading ≠ s.touchState ∧ reading = s.lastReading
          ∧ subU32 cm s.lastDebounceTime > s.debounceTime) →
        ((s.debounce cm reading).notify cm reading).1.touchState = reading
        ∧ ((s.debounce cm reading).notify cm reading).2 =
            (if s.callback then
              (if reading ≠ 0 then [TouchEvent.TOUCH_PRESSED] else [TouchEvent.TOUCH_RELEASED])
             else []))
    ∧ (¬ (reading ≠ s.touchState ∧ reading = s.lastReading
          ∧ subU32 cm s.lastDebounceTime > s.debounceTime) →
        ((s.debounce cm reading).notify cm reading).1.touchState = s.touchState
        ∧ ((s.debounce cm reading).notify cm reading).2 = []) := by
  have hz : ¬ (subU32 cm cm > s.debounceTime) := by
    unfold subU32 wrapUInt32
    simp
  by_cases h1 : reading = s.lastReading
  · subst h1
    by_cases h2 : subU32 cm s.lastDebounceTime > s.debounceTime
    · by_cases h3 : s.lastReading = s.touchState
      · simp [TouchSensor.debounce, TouchSensor.notify, h2, h3]
      · by_cases h4 : s.callback = true
        · by_cases h5 : s.lastReading = 0
          · have h3z : ¬ (0 = s.touchState) := by rw [← h5]; exact h3
            simp [TouchSensor.debounce, TouchSensor.notify, h2, h3z, h4, h5]
          · simp [TouchSensor.debounce, TouchSensor.notify, h2, h3, h4, h5]
        · simp [TouchSensor.debounce, TouchSensor.notify, h2, h3, h4]
    · simp [TouchSensor.debounce, TouchSensor.notify, h2]
  · simp [TouchSensor.debounce, TouchSensor.notify, h1, hz]

theorem update_steady (s : TouchSensor) (led : LedStrip)
    (prefs : TouchSettings) (cm : Nat) (tr : Nat → Nat) (ms : Nat)
    (hp : s.calibrationInProgress = false) (hc : s.calibrationComplete = true)
    (reading : Int)
    (hr : reading = if wrapInt32 (tr 0) > s.touchThreshold then 1 else 0) :
    (s.update led prefs cm tr ms).1.callback = s.callback
    ∧ (s.update led prefs cm tr ms).1.lastReading = reading
    ∧ (s.update led prefs cm tr ms).1.touchThreshold = s.touchThreshold
    ∧ ((reading ≠ s.touchState ∧ reading = s.lastReading
          ∧ subU32 cm s.lastDebounceTime > s.debounceTime) →
        (s.update led prefs cm tr ms).1.touchState = reading
        ∧ (s.update led prefs cm tr ms).2.2.2 =
            (if s.callback then
              (if reading ≠ 0 then [TouchEvent.TOUCH_PRESSED] else [TouchEvent.TOUCH_RELEASED])
             else []))
    ∧ (¬ (reading ≠ s.touchState ∧ reading = s.lastReading
          ∧ subU32 cm s.lastDebounceTime > s.debounceTime) →
        (s.update led prefs cm tr ms).1.touchState = s.touchState
        ∧ (s.update led prefs cm tr ms).2.2.2 = []) := by
  have hu : s.update led prefs cm tr ms =
      ({ ((s.debounce cm reading).notify cm reading).1 with lastReading := reading }, led, prefs,
        ((s.debounce cm reading).notify cm reading).2) := by
    unfold TouchSensor.update
    rw [hp, hc, hr]
    rfl
  rw [hu]
  exact ⟨(debounce_notify s cm reading).1, rfl, (debounce_notify s cm reading).2.1,
    (debounce_notify s cm reading).2.2.1, (debounce_notify s cm reading).2.2.2⟩

/-- The thresholded reading of a steady-state update is 0 or 1. -/
theorem reading_zero_or_one (v thr : Int) :
    (if v > thr then (1 : Int) else 0) = 0 ∨ (if v > thr then (1 : Int) else 0) = 1 := by
  by_cases h : v > thr
  · right; rw [if_pos h]
  · left; rw [if_neg h]

/-- What one `update` does to `touchState` and which callbacks it makes. -/
theorem update_effect (s : TouchSensor) (led : LedStrip)
    (prefs : TouchSettings) (cm : Nat) (tr : Nat → Nat) (ms : Nat) :
    (s.update led prefs cm tr ms).1.callback = s.callback
    ∧ ((s.update led prefs cm tr ms).1.touchState = s.touchState
        ∨ (s.update led prefs cm tr ms).1.touchState
            = (if wrapInt32 (tr 0) > s.touchThreshold then 1 else 0))
    ∧ (((s.update led prefs cm tr ms).2.2.2 = []
          ∧ (s.callback = true → (s.update led prefs cm tr ms).1.touchState = s.touchState))
        ∨ (s.calibrationInProgress = false ∧ s.calibrationComplete = true
            ∧ s.callback = true
            ∧ (if wrapInt32 (tr 0) > s.touchThreshold then (1 : Int) else 0) ≠ s.touchState
            ∧ (if wrapInt32 (tr 0) > s.touchThreshold then (1 : Int) else 0) = s.lastReading
            ∧ subU32 cm s.lastDebounceTime > s.debounceTime
            ∧ (s.update led prefs cm tr ms).1.touchState
                = (if wrapInt32 (tr 0) > s.touchThreshold then 1 else 0)
            ∧ (s.update led prefs cm tr ms).2.2.2 =
                [if (if wrapInt32 (tr 0) > s.touchThreshold then (1 : Int) else 0) ≠ 0
                  then TouchEvent.TOUCH_PRESSED else TouchEvent.TOUCH_RELEASED])) := by
  by_cases hcal : s.calibrationInProgress = true ∨ s.calibrationComplete = false
  · have h := update_no_event_calibrating s led prefs cm tr ms hcal
    exact ⟨h.2.2, Or.inl h.2.1, Or.inl ⟨h.1, fun _ => h.2.1⟩⟩
  · have hp : s.calibrationInProgress = false := by
      cases hq : s.calibrationInProgress
      · rfl
      · exact absurd (Or.inl hq) hcal
    have hc : s.calibrationComplete = true := by
      cases hq : s.calibrationComplete
      · exact absurd (Or.inr hq) hcal
      · rfl
    obtain ⟨reading, hr⟩ : ∃ r : Int, r = if wrapInt32 (tr 0) > s.touchThreshold then 1 else 0 :=
      ⟨_, rfl⟩
    have h := update_steady s led prefs cm tr ms hp hc reading hr
    rw [← hr]
    by_cases hcond : reading ≠ s.touchState ∧ reading = s.lastReading
        ∧ subU32 cm s.lastDebounceTime > s.debounceTime
    · have h4 := h.2.2.2.1 hcond
      refine ⟨h.1, Or.inr h4.1, ?_⟩
      by_cases hcb : s.callback = true
      · right
        refine ⟨hp, hc, hcb, hcond.1, hcond.2.1, hcond.2.2, h4.1, ?_⟩
        rw [h4.2, if_pos hcb]
        by_cases hz : reading = 0
        · simp [hz]
        · simp [hz]
      · left
        refine ⟨?_, fun hh => absurd hh hcb⟩
        rw [h4.2, if_neg hcb]
    · have h5 := h.2.2.2.2 hcond
      exact ⟨h.1, Or.inl h5.1, Or.inl ⟨h5.2, fun _ => h5.1⟩⟩

/-- One call keeps `touchState` in {0, 1}, keeps the callback registration, and
its callbacks, if any, follow the change of `touchState`. -/
theorem call_effect (w : TouchSensor × LedStrip × TouchSettings) (c : TouchCall)
    (hinv : w.1.touchState = 0 ∨ w.1.touchState = 1) :
    ((TouchSensor.call w c).1.1.touchState = 0 ∨ (TouchSensor.call w c).1.1.touchState = 1)
    ∧ (TouchSensor.call w c).1.1.callback = w.1.callback
    ∧ (w.1.callback = false → (TouchSensor.call w c).2 = [])
    ∧ (w.1.callback = true →
        ((TouchSensor.call w c).2 = [] ∧ (TouchSensor.call w c).1.1.touchState = w.1.touchState)
        ∨ ((TouchSensor.call w c).2 = [TouchEvent.TOUCH_PRESSED] ∧ w.1.touchState = 0
            ∧ (TouchSensor.call w c).1.1.touchState = 1)
        ∨ ((TouchSensor.call w c).2 = [TouchEvent.TOUCH_RELEASED] ∧ w.1.touchState = 1
            ∧ (TouchSensor.call w c).1.1.touchState = 0)) := by
  cases c with
  | update cm tr ms =>
    have h := update_effect w.1 w.2.1 w.2.2 cm tr ms
    have h01 := reading_zero_or_one (wrapInt32 (tr 0)) w.1.touchThreshold
    show ((w.1.update w.2.1 w.2.2 cm tr ms).1.touchState = 0
        ∨ (w.1.update w.2.1 w.2.2 cm tr ms).1.touchState = 1)
      ∧ (w.1.update w.2.1 w.2.2 cm tr ms).1.callback = w.1.callback
      ∧ (w.1.callback = false → (w.1.update w.2.1 w.2.2 cm tr ms).2.2.2 = [])
      ∧ (w.1.callback = true →
        ((w.1.update w.2.1 w.2.2 cm tr ms).2.2.2 = []
          ∧ (w.1.update w.2.1 w.2.2 cm tr ms).1.touchState = w.1.touchState)
        ∨ ((w.1.update w.2.1 w.2.2 cm tr ms).2.2.2 = [TouchEvent.TOUCH_PRESSED]
            ∧ w.1.touchState = 0 ∧ (w.1.update w.2.1 w.2.2 cm tr ms).1.touchState = 1)
        ∨ ((w.1.update w.2.1 w.2.2 cm tr ms).2.2.2 = [TouchEvent.TOUCH_RELEASED]
            ∧ w.1.touchState = 1 ∧ (w.1.update w.2.1 w.2.2 cm tr ms).1.touchState = 0))
    refine ⟨?_, h.1, ?_, ?_⟩
    · rcases h.2.1 with h1 | h1
      · rw [h1]; exact hinv
      · rw [h1]; exact h01
    · intro hcb
      rcases h.2.2 with h2 | h2
      · exact h2.1
      · rw [hcb] at h2
        exact absurd h2.2.2.1 (by decide)
    · intro hcb
      rcases h.2.2 with h2 | h2
      · exact Or.inl ⟨h2.1, h2.2 hcb⟩
      · obtain ⟨_, _, _, hne, _, _, hts, hev⟩ := h2
        rcases h01 with hz | hz
        · rw [hz] at hne hts hev
          right; right
          refine ⟨by rw [hev]; simp, ?_, hts⟩
          rcases hinv with hi | hi
          · exact absurd hi.symm hne
          · exact hi
        · rw [hz] at hne hts hev
          right; left
          refine ⟨by rw [hev]; simp, ?_, hts⟩
          rcases hinv with hi | hi
          · exact hi
          · exact absurd hi.symm hne
  | startCalibration m =>
    exact ⟨hinv, rfl, fun _ => rfl, fun _ => Or.inl ⟨rfl, rfl⟩⟩
  | completeCalibration v m =>
    have h := completeCalibration_frame w.1 w.2.1 w.2.2 v m
    show ((w.1.completeCalibration w.2.1 w.2.2 v m).1.touchState = 0
        ∨ (w.1.completeCalibration w.2.1 w.2.2 v m).1.touchState = 1)
      ∧ (w.1.completeCalibration w.2.1 w.2.2 v m).1.callback = w.1.callback
      ∧ (w.1.callback = false → ([] : List TouchEvent) = [])
      ∧ (w.1.callback = true →
        (([] : List TouchEvent) = []
          ∧ (w.1.completeCalibration w.2.1 w.2.2 v m).1.touchState = w.1.touchState)
        ∨ (([] : List TouchEvent) = [TouchEvent.TOUCH_PRESSED]
            ∧ w.1.touchState = 0 ∧ (w.1.completeCalibration w.2.1 w.2.2 v m).1.touchState = 1)
        ∨ (([] : List TouchEvent) = [TouchEvent.TOUCH_RELEASED]
            ∧ w.1.touchState = 1 ∧ (w.1.completeCalibration w.2.1 w.2.2 v m).1.touchState = 0))
    rw [h.1]
    exact ⟨hinv, h.2, fun _ => rfl, fun _ => Or.inl ⟨rfl, rfl⟩⟩

/-- Over any sequence of calls nothing is delivered without a registered
callback, and with one the callbacks alternate, the first one being
TouchPressed exactly when the sensor starts untouched. -/
theorem calls_alternate (cs : List TouchCall) :
    ∀ w : TouchSensor × LedStrip × TouchSettings,
      (w.1.touchState = 0 ∨ w.1.touchState = 1) →
      (w.1.callback = false → (TouchSensor.calls w cs).2 = [])
      ∧ (w.1.callback = true →
          TouchEvent.alternates (decide (w.1.touchState = 0)) (TouchSensor.calls w cs).2
            = true) := by
  induction cs with
  | nil => intro w _; exact ⟨fun _ => rfl, fun _ => rfl⟩
  | cons c rest ih =>
    intro w hinv
    have h := call_effect w c hinv
    have ihr := ih (TouchSensor.call w c).1 h.1
    show (w.1.callback = false →
        (TouchSensor.call w c).2 ++ (TouchSensor.calls (TouchSensor.call w c).1 rest).2 = [])
      ∧ (w.1.callback = true →
        TouchEvent.alternates (decide (w.1.touchState = 0))
          ((TouchSensor.call w c).2 ++ (TouchSensor.calls (TouchSensor.call w c).1 rest).2)
            = true)
    constructor
    · intro hcb
      rw [h.2.2.1 hcb, ihr.1 (h.2.1.trans hcb)]
      rfl
    · intro hcb
      have ih2 := ihr.2 (h.2.1.trans hcb)
      rcases h.2.2.2 hcb with h1 | h1 | h1
      · rw [h1.1, List.nil_append, ← h1.2]
        exact ih2
      · rw [h1.2.2] at ih2
        rw [h1.1, h1.2.1]
        simpa [TouchEvent.alternates] using ih2
      · rw [h1.2.2] at ih2
        rw [h1.1, h1.2.1]
        simpa [TouchEvent.alternates] using ih2

/-- C28: touch events are edge-triggered. Each update invokes the callback at
most once; over every sequence of update, startCalibration and
completeCalibration calls from the initial state (with or without a registered
callback) the delivered events strictly alternate, beginning with TouchPressed;
and an update delivers an event only outside calibration when the thresholded
reading differs from touchState, equals the previous reading, and the debounce
clock started at the last change of the reading is more than debounceTime
milliseconds back, the event being TouchPressed for reading 1 and
TouchReleased for reading 0. -/
theorem touch_events_edge_triggered :
    (∀ (s : TouchSensor) (led : LedStrip) (prefs : TouchSettings) (currentMillis : Nat)
        (touchRead : Nat → Nat) (millisStage : Nat),
        (s.update led prefs currentMillis touchRead millisStage).2.2.2.length ≤ 1)
    ∧ (∀ (touchPin debounceTime : Nat) (callback : Bool) (led : LedStrip)
        (prefs : TouchSettings) (cs : List TouchCall),
        TouchEvent.alternates true
          (TouchSensor.calls
            ((TouchSensor.new touchPin debounceTime).setCallback callback, led, prefs) cs).2
          = true)
    ∧ (∀ (s : TouchSensor) (led : LedStrip) (prefs : TouchSettings) (currentMillis : Nat)
        (touchRead : Nat → Nat) (millisStage : Nat) (e : TouchEvent),
        e ∈ (s.update led prefs currentMillis touchRead millisStage).2.2.2 →
        s.calibrationInProgress = false ∧ s.calibrationComplete = true
        ∧ (if wrapInt32 (touchRead 0) > s.touchThreshold then (1 : Int) else 0) ≠ s.touchState
        ∧ (if wrapInt32 (touchRead 0) > s.touchThreshold then (1 : Int) else 0) = s.lastReading
        ∧ subU32 currentMillis s.lastDebounceTime > s.debounceTime
        ∧ e = (if (if wrapInt32 (touchRead 0) > s.touchThreshold then (1 : Int) else 0) ≠ 0
                then TouchEvent.TOUCH_PRESSED else TouchEvent.TOUCH_RELEASED)) := by
  refine ⟨?_, ?_, ?_⟩
  · intro s led prefs cm tr ms
    rcases (update_effect s led prefs cm tr ms).2.2 with h | h
    · rw [h.1]; exact Nat.zero_le 1
    · rw [h.2.2.2.2.2.2.2]; exact Nat.le_refl 1
  · intro pin db cb led prefs cs
    have h := calls_alternate cs ((TouchSensor.new pin db).setCallback cb, led, prefs)
      (Or.inl rfl)
    cases cb
    · rw [h.1 rfl]; rfl
    · exact h.2 rfl
  · intro s led prefs cm tr ms e he
    rcases (update_effect s led prefs cm tr ms).2.2 with h | h
    · rw [h.1] at he
      exact absurd he (List.not_mem_nil e)
    · obtain ⟨hp, hc, _, hne, hl, ht, _, hev⟩ := h
      rw [hev] at he
      exact ⟨hp, hc, hne, hl, ht, List.mem_singleton.mp he⟩

/-- C28 at a concrete run: a calibrated sensor (threshold 50) with a callback
sees a touched reading at 100 ms and 200 ms and an untouched one at 300 ms and
400 ms; exactly TouchPressed, then TouchReleased are delivered. -/
theorem touch_events_edge_triggered_witness :
    (TouchSensor.calls
      ((TouchSensor.new 4 50).setCallback true, LedStrip.mk Color.off 255,
        TouchSettings.mk none none none)
      [TouchCall.completeCalibration 20 0, TouchCall.completeCalibration 80 0,
       TouchCall.update 100 (fun _ => 90) 0, TouchCall.update 200 (fun _ => 90) 0,
       TouchCall.update 300 (fun _ => 10) 0, TouchCall.update 400 (fun _ => 10) 0]).2
      = [TouchEvent.TOUCH_PRESSED, TouchEvent.TOUCH_RELEASED]
    ∧ TouchEvent.alternates true
        (TouchSensor.calls
          ((TouchSensor.new 4 50).setCallback true, LedStrip.mk Color.off 255,
            TouchSettings.mk none none none)
          [TouchCall.completeCalibration 20 0, TouchCall.completeCalibration 80 0,
           TouchCall.update 100 (fun _ => 90) 0, TouchCall.update 200 (fun _ => 90) 0,
           TouchCall.update 300 (fun _ => 10) 0, TouchCall.update 400 (fun _ => 10) 0]).2
        = true :=
  ⟨by decide, touch_events_edge_triggered.2.1 4 50 true _ _ _⟩

/-- C29: what the steady-state classifier of TouchSensor::update does after a
completed calibration with untouched baseline u and touched baseline t (both
below 2^31). The thresholded reading of an update is what it stores in
lastReading. When t > u a raw reading t is classified touched (1) and a raw
reading u untouched (0); when t < u, the inverted orientation that
completeCalibration provides for, the comparison `touchValue > touchThreshold`
classifies a raw reading t as untouched (0) and a raw reading u as touched
(1). -/
theorem touch_classifier_orientation (s : TouchSensor) (led : LedStrip)
    (prefs : TouchSettings) (u t : Nat) (m0 m1 currentMillis millisStage : Nat)
    (hs : s.calibrationStage = 0) (hu : u < 2147483648) (ht : t < 2147483648) :
    (u < t →
      (((s.calibrateBoth led prefs u t m0 m1).1.update
          (s.calibrateBoth led prefs u t m0 m1).2.1 (s.calibrateBoth led prefs u t m0 m1).2.2
          currentMillis (fun _ => t) millisStage).1.lastReading = 1
      ∧ ((s.calibrateBoth led prefs u t m0 m1).1.update
          (s.calibrateBoth led prefs u t m0 m1).2.1 (s.calibrateBoth led prefs u t m0 m1).2.2
          currentMillis (fun _ => u) millisStage).1.lastReading = 0))
    ∧ (t < u →
      (((s.calibrateBoth led prefs u t m0 m1).1.update
          (s.calibrateBoth led prefs u t m0 m1).2.1 (s.calibrateBoth led prefs u t m0 m1).2.2
          currentMillis (fun _ => t) millisStage).1.lastReading = 0
      ∧ ((s.calibrateBoth led prefs u t m0 m1).1.update
          (s.calibrateBoth led prefs u t m0 m1).2.1 (s.calibrateBoth led prefs u t m0 m1).2.2
          currentMillis (fun _ => u) millisStage).1.lastReading = 1)) := by
  have hf := calibrateBoth_fields s led prefs u t m0 m1 hs
  have hb := touch_threshold_bounds s led prefs u t m0 m1 hs (by omega) (by omega)
    (by omega) (by omega)
  have hwu : wrapInt32 (u : Int) = u := wrapInt32_of_range u (by omega) (by omega)
  have hwt : wrapInt32 (t : Int) = t := wrapInt32_of_range t (by omega) (by omega)
  have key : ∀ v : Nat,
      ((s.calibrateBoth led prefs u t m0 m1).1.update
          (s.calibrateBoth led prefs u t m0 m1).2.1 (s.calibrateBoth led prefs u t m0 m1).2.2
          currentMillis (fun _ => v) millisStage).1.lastReading
        = if wrapInt32 (v : Int) > (s.calibrateBoth led prefs u t m0 m1).1.touchThreshold
            then 1 else 0 := fun v =>
    (update_steady _ _ _ currentMillis (fun _ => v) millisStage hf.2.2.2.1 hf.2.2.1 _ rfl).2.1
  rw [key t, key u, hwu, hwt]
  constructor
  · intro h
    have h3 := hb.2.2.1 (by omega)
    have hmin : min (u : Int) t = u := min_eq_left (by omega)
    have h1 := hb.1
    rw [hmin] at h1
    exact ⟨if_pos (by omega), if_neg (by omega)⟩
  · intro h
    have h3 := hb.2.2.2 (by omega)
    have hmin : min (u : Int) t = t := min_eq_right (by omega)
    have h1 := hb.1
    rw [hmin] at h1
    exact ⟨if_neg (by omega), if_pos (by omega)⟩

/-- C29 at the inverted calibration u = 200, t = 100: the raw reading 100 of
the touched sensor is classified untouched and the raw reading 200 of the
untouched sensor is classified touched. -/
theorem touch_classifier_orientation_witness :
    (((TouchSensor.new 4 50).calibrateBoth (LedStrip.mk Color.off 255)
          (TouchSettings.mk none none none) (200 : Nat) (100 : Nat) 0 0).1.update
        ((TouchSensor.new 4 50).calibrateBoth (LedStrip.mk Color.off 255)
          (TouchSettings.mk none none none) (200 : Nat) (100 : Nat) 0 0).2.1
        ((TouchSensor.new 4 50).calibrateBoth (LedStrip.mk Color.off 255)
          (TouchSettings.mk none none none) (200 : Nat) (100 : Nat) 0 0).2.2
        1000 (fun _ => 100) 0).1.lastReading = 0
    ∧ (((TouchSensor.new 4 50).calibrateBoth (LedStrip.mk Color.off 255)
          (TouchSettings.mk none none none) (200 : Nat) (100 : Nat) 0 0).1.update
        ((TouchSensor.new 4 50).calibrateBoth (LedStrip.mk Color.off 255)
          (TouchSettings.mk none none none) (200 : Nat) (100 : Nat) 0 0).2.1
        ((TouchSensor.new 4 50).calibrateBoth (LedStrip.mk Color.off 255)
          (TouchSettings.mk none none none) (200 : Nat) (100 : Nat) 0 0).2.2
        1000 (fun _ => 200) 0).1.lastReading = 1 :=
  (touch_classifier_orientation (TouchSensor.new 4 50) (LedStrip.mk Color.off 255)
    (TouchSettings.mk none none none) 200 100 0 0 1000 0 rfl (by decide) (by decide)).2
    (by decide)

/-! ## Indicator consistency of the controller handlers -/

theorem updateLedCallStatus_shows (w : Device) :
    (DeviceController.updateLedCallStatus w).showsCallStatus = true := by
  unfold DeviceController.updateLedCallStatus Device.showsCallStatus DeviceState.statusColor
  cases hc : w.state.callActive <;> cases hm : w.state.muteState <;>
    simp [hc, hm, LedStrip.setColor, LedStrip.clear]

theorem updateCallState_shows (w : Device) (m d : Bool) :
    (DeviceController.updateCallState w m d).showsCallStatus = w.showsCallStatus := rfl

theorem touchPressed_shows (w : Device) (b : Bool) :
    Device.showsCallStatus { w with state := { w.state with touchPressed := b } }
      = w.showsCallStatus := rfl

theorem onTouchEvent_shows (w : Device) (e : TouchEvent) (h : w.showsCallStatus = true) :
    (DeviceController.onTouchEvent w e).showsCallStatus = true := by
  unfold DeviceController.onTouchEvent
  simp only []
  split_ifs <;>
    first
    | exact h
    | exact updateLedCallStatus_shows _

theorem onLeftButtonEvent_shows (w : Device) (e : ButtonEvent) :
    (DeviceController.onLeftButtonEvent w e).showsCallStatus = w.showsCallStatus := by
  unfold DeviceController.onLeftButtonEvent
  simp only []
  split_ifs <;> rfl

theorem onRightButtonEvent_shows (w : Device) (e : ButtonEvent) :
    (DeviceController.onRightButtonEvent w e).showsCallStatus = w.showsCallStatus := by
  unfold DeviceController.onRightButtonEvent
  split_ifs <;> rfl

theorem onEncoderEvent_shows (w : Device) (e : EncoderEvent) :
    (DeviceController.onEncoderEvent w e).showsCallStatus = w.showsCallStatus := by
  unfold DeviceController.onEncoderEvent
  cases e <;> split_ifs <;> rfl

theorem onEncoderButtonEvent_shows (w : Device) (e : ButtonEvent)
    (he : e ≠ ButtonEvent.BUTTON_LONG_PRESSED) (h : w.showsCallStatus = true) :
    (DeviceController.onEncoderButtonEvent w e).showsCallStatus = true := by
  unfold DeviceController.onEncoderButtonEvent
  by_cases h1 : e = ButtonEvent.BUTTON_CLICKED
  · rw [if_pos h1]
    cases hc : w.state.callActive
    · simp only [hc, Bool.not_false, if_true]
      split_ifs <;>
        simp [Device.showsCallStatus, DeviceState.statusColor, DeviceState.toggleEncoderMode,
          LedStrip.clear, hc]
    · simp only [hc, Bool.not_true]
      exact h
  · rw [if_neg h1]
    by_cases h2 : e = ButtonEvent.BUTTON_DOUBLE_CLICKED
    · rw [if_pos h2]
      exact updateLedCallStatus_shows _
    · rw [if_neg h2, if_neg he]
      exact h

theorem onEncoderButtonEvent_long (w : Device) :
    (DeviceController.onEncoderButtonEvent w ButtonEvent.BUTTON_LONG_PRESSED).led.shown
        = Color.off
    ∧ (DeviceController.onEncoderButtonEvent w ButtonEvent.BUTTON_LONG_PRESSED).state
        = w.state := by
  unfold DeviceController.onEncoderButtonEvent
  rw [if_neg (by decide), if_neg (by decide), if_pos rfl]
  exact ⟨rfl, rfl⟩

/-- C30: indicator consistency of the DeviceController handlers. From a state
whose LED shows the call-status colour (off without a call, red for a muted
call, green for an unmuted call), the left-button, right-button, touch and
encoder-rotation handlers, the encoder-button handler for every event other
than a long press, and the host state update (from any state) return with the
LED showing the call-status colour of the resulting state. The encoder-button
long press (pairing) leaves the device state unchanged and the LED off, so
after it the LED does not show the call-status colour whenever a call is
active. -/
theorem indicator_consistency :
    (∀ (w : Device) (e : ButtonEvent), w.showsCallStatus = true →
        (DeviceController.onLeftButtonEvent w e).showsCallStatus = true)
    ∧ (∀ (w : Device) (e : ButtonEvent), w.showsCallStatus = true →
        (DeviceController.onRightButtonEvent w e).showsCallStatus = true)
    ∧ (∀ (w : Device) (e : TouchEvent), w.showsCallStatus = true →
        (DeviceController.onTouchEvent w e).showsCallStatus = true)
    ∧ (∀ (w : Device) (e : EncoderEvent), w.showsCallStatus = true →
        (DeviceController.onEncoderEvent w e).showsCallStatus = true)
    ∧ (∀ (w : Device) (hostCallActive hostMuteState : Bool),
        (DeviceController.onHostStateUpdate w hostCallActive hostMuteState).showsCallStatus
          = true)
    ∧ (∀ (w : Device) (e : ButtonEvent), e ≠ ButtonEvent.BUTTON_LONG_PRESSED →
        w.showsCallStatus = true →
        (DeviceController.onEncoderButtonEvent w e).showsCallStatus = true)
    ∧ (∀ w : Device,
        (DeviceController.onEncoderButtonEvent w ButtonEvent.BUTTON_LONG_PRESSED).led.shown
            = Color.off
        ∧ (DeviceController.onEncoderButtonEvent w ButtonEvent.BUTTON_LONG_PRESSED).state
            = w.state
        ∧ (w.state.callActive = true →
            (DeviceController.onEncoderButtonEvent w
              ButtonEvent.BUTTON_LONG_PRESSED).showsCallStatus = false)) := by
  refine ⟨?_, ?_, ?_, ?_, ?_, ?_, ?_⟩
  · intro w e h
    rw [onLeftButtonEvent_shows]; exact h
  · intro w e h
    rw [onRightButtonEvent_shows]; exact h
  · exact onTouchEvent_shows
  · intro w e h
    rw [onEncoderEvent_shows]; exact h
  · intro w c m
    exact updateLedCallStatus_shows _
  · exact onEncoderButtonEvent_shows
  · intro w
    have h := onEncoderButtonEvent_long w
    refine ⟨h.1, h.2, ?_⟩
    intro hc
    unfold Device.showsCallStatus
    rw [h.1, h.2]
    unfold DeviceState.statusColor
    rw [hc]
    cases w.state.muteState <;> decide

/-- C30 at a concrete device: a muted call is active and the LED shows red
(the transport is the constructed one; the long press changes neither the
device state nor, through the transport, the LED); after the encoder-button
long press the LED is off while the call-status colour of the unchanged state
is still red. -/
theorem indicator_consistency_witness :
    Device.showsCallStatus
        ⟨{ DeviceState.new with callActive := true, muteState := true },
          ⟨LedStrip.colorRed, 255⟩, BluetoothHandler.new⟩ = true
    ∧ (DeviceController.onEncoderButtonEvent
        ⟨{ DeviceState.new with callActive := true, muteState := true },
          ⟨LedStrip.colorRed, 255⟩, BluetoothHandler.new⟩
        ButtonEvent.BUTTON_LONG_PRESSED).showsCallStatus = false :=
  ⟨by decide, (indicator_consistency.2.2.2.2.2.2 _).2.2 rfl⟩

/-! ## Button event forwarding -/

theorem update_counts (b : Button) (flags : PinButtonFlags) (hcb : b.callback = true) :
    (b.update flags).count ButtonEvent.BUTTON_CLICKED = (if flags.isSingleClick then 1 else 0)
    ∧ (b.update flags).count ButtonEvent.BUTTON_DOUBLE_CLICKED
        = (if flags.isDoubleClick then 1 else 0) := by
  unfold Button.update
  rw [if_pos hcb]
  rcases flags with ⟨a, c, d, e⟩
  cases a <;> cases c <;> cases d <;> cases e <;> exact ⟨by decide, by decide⟩

theorem updates_counts (b : Button) (hcb : b.callback = true) (polls : List PinButtonFlags) :
    (Button.updates b polls).count ButtonEvent.BUTTON_CLICKED
        = (polls.filter (fun f => f.isSingleClick)).length
    ∧ (Button.updates b polls).count ButtonEvent.BUTTON_DOUBLE_CLICKED
        = (polls.filter (fun f => f.isDoubleClick)).length := by
  induction polls with
  | nil => exact ⟨rfl, rfl⟩
  | cons f rest ih =>
    have h := update_counts b f hcb
    have hu : Button.updates b (f :: rest) = b.update f ++ Button.updates b rest := by
      simp [Button.updates]
    rw [hu, List.count_append, List.count_append, ih.1, ih.2, h.1, h.2]
    constructor
    · cases hf : f.isSingleClick
      · simp [List.filter, hf]
      · simp [List.filter, hf]
        omega
    · cases hf : f.isDoubleClick
      · simp [List.filter, hf]
      · simp [List.filter, hf]
        omega

/-- C24: double-click exclusivity. Button::update, with a callback registered,
forwards one BUTTON_CLICKED for each poll in which the PinButton object answers
isSingleClick and one BUTTON_DOUBLE_CLICKED for each poll in which it answers
isDoubleClick, and nothing more of either kind, over every sequence of polls.
For two short press-releases p, q with q starting inside the double-click
window (p.gap less than singleClickDelay), classified as section 4.1 of the
specification words it, the button therefore delivers exactly one
BUTTON_DOUBLE_CLICKED and no BUTTON_CLICKED. -/
theorem double_click_exclusive (b : Button) (p q : Press)
    (hcb : b.callback = true)
    (hp : Press.isShort b.buttonConfig p = true) (hq : Press.isShort b.buttonConfig q = true)
    (hg : p.gap < b.buttonConfig.singleClickDelay) :
    (∀ polls : List PinButtonFlags,
        (Button.updates b polls).count ButtonEvent.BUTTON_CLICKED
            = (polls.filter (fun f => f.isSingleClick)).length
        ∧ (Button.updates b polls).count ButtonEvent.BUTTON_DOUBLE_CLICKED
            = (polls.filter (fun f => f.isDoubleClick)).length)
    ∧ (Button.updates b (PinButton.classify b.buttonConfig [p, q])).count
        ButtonEvent.BUTTON_DOUBLE_CLICKED = 1
    ∧ (Button.updates b (PinButton.classify b.buttonConfig [p, q])).count
        ButtonEvent.BUTTON_CLICKED = 0 := by
  have hc : PinButton.classify b.buttonConfig [p, q] =
      [{ PinButtonFlags.none with isReleased := true },
       { PinButtonFlags.none with isDoubleClick := true },
       { PinButtonFlags.none with isReleased := true }] := by
    have hp2 := hp
    unfold Press.isShort at hp2
    simp only [Bool.and_eq_true, decide_eq_true_eq] at hp2
    unfold PinButton.classify
    rw [if_neg (by omega), if_neg (by omega), if_pos ⟨hg, hq⟩]
    rfl
  refine ⟨updates_counts b hcb, ?_, ?_⟩
  · rw [(updates_counts b hcb _).2, hc]
    rfl
  · rw [(updates_counts b hcb _).1, hc]
    rfl

/-- C24 at the left button of the firmware (debounce 50 ms, long press
700 ms, double-click window 300 ms) with a callback: two 100 ms presses
100 ms apart. -/
theorem double_click_exclusive_witness :
    (Button.updates ((Button.new 13 50 700 300).setCallback true)
        (PinButton.classify ((Button.new 13 50 700 300).setCallback true).buttonConfig
          [⟨100, 100⟩, ⟨100, 1000⟩])).count ButtonEvent.BUTTON_DOUBLE_CLICKED = 1
    ∧ (Button.updates ((Button.new 13 50 700 300).setCallback true)
        (PinButton.classify ((Button.new 13 50 700 300).setCallback true).buttonConfig
          [⟨100, 100⟩, ⟨100, 1000⟩])).count ButtonEvent.BUTTON_CLICKED = 0 :=
  (double_click_exclusive ((Button.new 13 50 700 300).setCallback true) ⟨100, 100⟩ ⟨100, 1000⟩
    rfl (by decide) (by decide) (by decide)).2

/-! ## Rotary encoder: accumulator rules -/

/-- A delta that does not pass the direction-consistency filter. -/
theorem handle_reject (s : RotaryEncoder) (e : EncoderEvent) (t : Nat)
    (h : (if e = s.lastDirection then wrapInt32 (s.consistentDirectionCount + 1) else 1)
          < ENCODER_DIRECTION_CONSISTENCY) :
    (s.handleEncoderEvent e t).2 = []
    ∧ (s.handleEncoderEvent e t).1.notchAccumulator = s.notchAccumulator
    ∧ (s.handleEncoderEvent e t).1.lastDirection = e
    ∧ (s.handleEncoderEvent e t).1.callback = s.callback
    ∧ (s.handleEncoderEvent e t).1.accumulatedDirection = s.accumulatedDirection := by
  unfold RotaryEncoder.handleEncoderEvent
  by_cases he : e = s.lastDirection
  · rw [if_pos he] at h
    simp only []
    rw [if_pos he, if_pos h]
    exact ⟨rfl, rfl, he.symm, rfl, rfl⟩
  · have h1 : (1 : Int) < ENCODER_DIRECTION_CONSISTENCY := by decide
    simp only []
    rw [if_neg he, if_pos h1]
    exact ⟨rfl, rfl, rfl, rfl, rfl⟩

/-- A delta that passes the direction-consistency filter. -/
theorem handle_accept (s : RotaryEncoder) (e : EncoderEvent) (t : Nat)
    (h : ¬ (if e = s.lastDirection then wrapInt32 (s.consistentDirectionCount + 1) else 1)
          < ENCODER_DIRECTION_CONSISTENCY) :
    e = s.lastDirection
    ∧ (s.handleEncoderEvent e t).1.notchAccumulator =
        (if wrapInt32 ((if e ≠ s.accumulatedDirection
              ∨ subU32 t s.lastNotchTime ≥ ENCODER_PRECISION_RESET_TIMEOUT
            then 0 else s.notchAccumulator) + 1) ≥ ENCODER_PRECISION_NOTCH_THRESHOLD
         then 0
         else wrapInt32 ((if e ≠ s.accumulatedDirection
              ∨ subU32 t s.lastNotchTime ≥ ENCODER_PRECISION_RESET_TIMEOUT
            then 0 else s.notchAccumulator) + 1))
    ∧ (s.handleEncoderEvent e t).2 =
        (if wrapInt32 ((if e ≠ s.accumulatedDirection
              ∨ subU32 t s.lastNotchTime ≥ ENCODER_PRECISION_RESET_TIMEOUT
            then 0 else s.notchAccumulator) + 1) ≥ ENCODER_PRECISION_NOTCH_THRESHOLD
         then (if s.callback then [e] else [])
         else [])
    ∧ (s.handleEncoderEvent e t).1.lastDirection = e
    ∧ (s.handleEncoderEvent e t).1.accumulatedDirection = e
    ∧ (s.handleEncoderEvent e t).1.callback = s.callback
    ∧ (s.handleEncoderEvent e t).1.lastNotchTime = t := by
  have he : e = s.lastDirection := by
    by_contra hne
    rw [if_neg hne] at h
    exact h (by decide)
  rw [if_pos he] at h
  refine ⟨he, ?_⟩
  subst he
  by_cases hr : s.lastDirection ≠ s.accumulatedDirection
      ∨ subU32 t s.lastNotchTime ≥ ENCODER_PRECISION_RESET_TIMEOUT
  · have h1 : ¬ ENCODER_PRECISION_NOTCH_THRESHOLD ≤ wrapInt32 1 := by decide
    have hr2 : ¬ s.lastDirection = s.accumulatedDirection
        ∨ ENCODER_PRECISION_RESET_TIMEOUT ≤ subU32 t s.lastNotchTime := hr
    have key : s.handleEncoderEvent s.lastDirection t =
        ({ s with
            consistentDirectionCount := wrapInt32 (s.consistentDirectionCount + 1)
            notchAccumulator := wrapInt32 1
            accumulatedDirection := s.lastDirection
            lastNotchTime := t }, []) := by
      simp [RotaryEncoder.handleEncoderEvent, h, hr2, h1]
    rw [key, if_pos hr]
    simp [h1]
  · have hacc : s.lastDirection = s.accumulatedDirection := by
      by_contra hne
      exact hr (Or.inl hne)
    have hto : ¬ ENCODER_PRECISION_RESET_TIMEOUT ≤ subU32 t s.lastNotchTime :=
      fun hh => hr (Or.inr hh)
    by_cases hth : ENCODER_PRECISION_NOTCH_THRESHOLD ≤ wrapInt32 (s.notchAccumulator + 1)
    · have key : s.handleEncoderEvent s.lastDirection t =
          ({ s with
              consistentDirectionCount := wrapInt32 (s.consistentDirectionCount + 1)
              notchAccumulator := 0
              lastNotchTime := t }, if s.callback then [s.lastDirection] else []) := by
        simp [RotaryEncoder.handleEncoderEvent, h, hacc, hto, hth]
      rw [key, if_neg hr]
      simp [hth, hacc]
    · have key : s.handleEncoderEvent s.lastDirection t =
          ({ s with
              consistentDirectionCount := wrapInt32 (s.consistentDirectionCount + 1)
              notchAccumulator := wrapInt32 (s.notchAccumulator + 1)
              lastNotchTime := t }, []) := by
        simp [RotaryEncoder.handleEncoderEvent, h, hacc, hto, hth]
      rw [key, if_neg hr]
      simp [hth, hacc]

/-- After any delta, accepted or not, `lastDirection` is its direction and
the callback registration is unchanged. -/
theorem handle_lastDirection (s : RotaryEncoder) (e : EncoderEvent) (t : Nat) :
    (s.handleEncoderEvent e t).1.lastDirection = e
    ∧ (s.handleEncoderEvent e t).1.callback = s.callback := by
  by_cases h : (if e = s.lastDirection then wrapInt32 (s.consistentDirectionCount + 1) else 1)
      < ENCODER_DIRECTION_CONSISTENCY
  · exact ⟨(handle_reject s e t h).2.2.1, (handle_reject s e t h).2.2.2.1⟩
  · exact ⟨(handle_accept s e t h).2.2.2.1, (handle_accept s e t h).2.2.2.2.2.1⟩

/-- What must hold when `handleEncoderEvent` invokes the callback. -/
theorem handle_fire (s : RotaryEncoder) (e : EncoderEvent) (t : Nat) (d : EncoderEvent)
    (hd : d ∈ (s.handleEncoderEvent e t).2) :
    e = d ∧ e = s.lastDirection
    ∧ (s.handleEncoderEvent e t).2 = [e]
    ∧ (s.handleEncoderEvent e t).1.accumulatedDirection = d
    ∧ (s.handleEncoderEvent e t).1.notchAccumulator = 0 := by
  by_cases h : (if e = s.lastDirection then wrapInt32 (s.consistentDirectionCount + 1) else 1)
      < ENCODER_DIRECTION_CONSISTENCY
  · rw [(handle_reject s e t h).1] at hd
    exact absurd hd (List.not_mem_nil d)
  · obtain ⟨he, hacc, hev, _, hdir, _, _⟩ := handle_accept s e t h
    obtain ⟨n, hn⟩ : ∃ n : Int, n = wrapInt32 ((if e ≠ s.accumulatedDirection
        ∨ subU32 t s.lastNotchTime ≥ ENCODER_PRECISION_RESET_TIMEOUT
        then 0 else s.notchAccumulator) + 1) := ⟨_, rfl⟩
    rw [← hn] at hacc hev
    rw [hev] at hd
    rw [hacc, hev, hdir]
    by_cases hth : n ≥ ENCODER_PRECISION_NOTCH_THRESHOLD
    · rw [if_pos hth] at hd
      rw [if_pos hth, if_pos hth]
      by_cases hcb : s.callback = true
      · rw [if_pos hcb] at hd
        rw [if_pos hcb]
        have hed : e = d := (List.mem_singleton.mp hd).symm
        exact ⟨hed, he, rfl, hed, rfl⟩
      · rw [if_neg hcb] at hd
        exact absurd hd (List.not_mem_nil d)
    · rw [if_neg hth] at hd
      exact absurd hd (List.not_mem_nil d)

/-- `handleEncoderEvent` keeps the accumulator inside [0, threshold). -/
theorem handle_inv (s : RotaryEncoder) (e : EncoderEvent) (t : Nat)
    (h0 : 0 ≤ s.notchAccumulator)
    (h1 : s.notchAccumulator < ENCODER_PRECISION_NOTCH_THRESHOLD) :
    0 ≤ (s.handleEncoderEvent e t).1.notchAccumulator
    ∧ (s.handleEncoderEvent e t).1.notchAccumulator < ENCODER_PRECISION_NOTCH_THRESHOLD := by
  have hT : ENCODER_PRECISION_NOTCH_THRESHOLD = 2 := rfl
  by_cases h : (if e = s.lastDirection then wrapInt32 (s.consistentDirectionCount + 1) else 1)
      < ENCODER_DIRECTION_CONSISTENCY
  · rw [(handle_reject s e t h).2.1]
    exact ⟨h0, h1⟩
  · rw [(handle_accept s e t h).2.1]
    rw [hT] at h1 ⊢
    have hb : ∀ base : Int, 0 ≤ base → base < 2 → wrapInt32 (base + 1) = base + 1 :=
      fun base hb0 hb1 => wrapInt32_of_range (base + 1) (by omega) (by omega)
    by_cases hr : e ≠ s.accumulatedDirection
        ∨ subU32 t s.lastNotchTime ≥ ENCODER_PRECISION_RESET_TIMEOUT
    · rw [if_pos hr, hb 0 (le_refl 0) (by decide)]
      split_ifs <;> omega
    · rw [if_neg hr, hb _ h0 h1]
      split_ifs <;> omega

/-- `update` keeps the accumulator inside [0, threshold). -/
theorem update_inv (s : RotaryEncoder) (c : Int) (m1 m2 : Nat)
    (h0 : 0 ≤ s.notchAccumulator)
    (h1 : s.notchAccumulator < ENCODER_PRECISION_NOTCH_THRESHOLD) :
    0 ≤ (s.update c m1 m2).1.notchAccumulator
    ∧ (s.update c m1 m2).1.notchAccumulator < ENCODER_PRECISION_NOTCH_THRESHOLD := by
  have hz : (0 : Int) ≤ 0 ∧ (0 : Int) < ENCODER_PRECISION_NOTCH_THRESHOLD :=
    ⟨le_refl 0, by decide⟩
  unfold RotaryEncoder.update
  simp only []
  by_cases hc : c ≠ s.lastUpdateCount
  · rw [if_pos hc]
    obtain ⟨ev, hev⟩ : ∃ ev : EncoderEvent, ev =
        (if c > s.lastUpdateCount then EncoderEvent.ENCODER_CLOCKWISE
          else EncoderEvent.ENCODER_COUNTER_CLOCKWISE) := ⟨_, rfl⟩
    rw [← hev]
    have hi := handle_inv s ev m1 h0 h1
    split_ifs
    · exact hz
    · exact hi
    · exact hi
  · rw [if_neg hc]
    split_ifs
    · exact hz
    · exact ⟨h0, h1⟩
    · exact ⟨h0, h1⟩

/-- The accumulator stays inside [0, threshold) over any sequence of calls. -/
theorem calls_inv (cs : List EncoderCall) :
    ∀ s : RotaryEncoder, 0 ≤ s.notchAccumulator →
      s.notchAccumulator < ENCODER_PRECISION_NOTCH_THRESHOLD →
      0 ≤ (s.calls cs).notchAccumulator
      ∧ (s.calls cs).notchAccumulator < ENCODER_PRECISION_NOTCH_THRESHOLD := by
  induction cs with
  | nil => intro s h0 h1; exact ⟨h0, h1⟩
  | cons c rest ih =>
    intro s h0 h1
    have hstep : 0 ≤ (s.call c).1.notchAccumulator
        ∧ (s.call c).1.notchAccumulator < ENCODER_PRECISION_NOTCH_THRESHOLD := by
      cases c with
      | handleEncoderEvent e t => exact handle_inv s e t h0 h1
      | update c m1 m2 => exact update_inv s c m1 m2 h0 h1
    exact ih (s.call c).1 hstep.1 hstep.2

/-- Feeding one more delta is one more `handleEncoderEvent` on the state
reached so far. -/
theorem feed_snoc (xs : List (EncoderEvent × Nat)) (e : EncoderEvent) (t : Nat) :
    ∀ s : RotaryEncoder,
      (s.feed (xs ++ [(e, t)])).1 = ((s.feed xs).1.handleEncoderEvent e t).1 := by
  induction xs with
  | nil => intro s; rfl
  | cons x rest ih =>
    intro s
    obtain ⟨e0, t0⟩ := x
    exact ih (s.handleEncoderEvent e0 t0).1

/-- C25 counterexample: a clockwise notch is counted at 1000 ms and the next
clockwise delta passes the filter at 1500 ms, so exactly 500 ms, not more
than the idle timeout, has elapsed and the direction is unchanged. The
accumulator is nevertheless reset before counting: no callback is invoked and
the accumulator holds 1, whereas one millisecond earlier the accumulated notch
is kept and the callback fires. -/
theorem encoder_reset_at_exact_timeout :
    ((RotaryEncoder.new.setCallback true).feed
        [(EncoderEvent.ENCODER_CLOCKWISE, 1000),
         (EncoderEvent.ENCODER_CLOCKWISE, 1000)]).1.notchAccumulator = 1
    ∧ ((RotaryEncoder.new.setCallback true).feed
        [(EncoderEvent.ENCODER_CLOCKWISE, 1000),
         (EncoderEvent.ENCODER_CLOCKWISE, 1000)]).1.accumulatedDirection
        = EncoderEvent.ENCODER_CLOCKWISE
    ∧ ((RotaryEncoder.new.setCallback true).feed
        [(EncoderEvent.ENCODER_CLOCKWISE, 1000),
         (EncoderEvent.ENCODER_CLOCKWISE, 1000)]).1.lastNotchTime = 1000
    ∧ ¬ (subU32 1500 1000 > ENCODER_PRECISION_RESET_TIMEOUT)
    ∧ ((RotaryEncoder.new.setCallback true).feed
        [(EncoderEvent.ENCODER_CLOCKWISE, 1000), (EncoderEvent.ENCODER_CLOCKWISE, 1000),
         (EncoderEvent.ENCODER_CLOCKWISE, 1500)]).2 = []
    ∧ ((RotaryEncoder.new.setCallback true).feed
        [(EncoderEvent.ENCODER_CLOCKWISE, 1000), (EncoderEvent.ENCODER_CLOCKWISE, 1000),
         (EncoderEvent.ENCODER_CLOCKWISE, 1500)]).1.notchAccumulator = 1
    ∧ ((RotaryEncoder.new.setCallback true).feed
        [(EncoderEvent.ENCODER_CLOCKWISE, 1000), (EncoderEvent.ENCODER_CLOCKWISE, 1000),
         (EncoderEvent.ENCODER_CLOCKWISE, 1499)]).2 = [EncoderEvent.ENCODER_CLOCKWISE] := by
  decide

/-- C25 (amended): when a delta passes the direction-consistency filter,
handleEncoderEvent counts it from zero, so that the accumulator ends at 1 and
no callback is invoked, if its direction differs from accumulatedDirection or
at least the idle timeout (500 ms) has elapsed since the last notch;
otherwise it adds the notch to the previously accumulated ones, firing and
clearing the accumulator when they reach the threshold. -/
theorem accumulator_reset_rule (s : RotaryEncoder) (e : EncoderEvent) (millis : Nat)
    (hlast : e = s.lastDirection)
    (haccept : ENCODER_DIRECTION_CONSISTENCY ≤ wrapInt32 (s.consistentDirectionCount + 1)) :
    ((e ≠ s.accumulatedDirection
        ∨ subU32 millis s.lastNotchTime ≥ ENCODER_PRECISION_RESET_TIMEOUT) →
      (s.handleEncoderEvent e millis).1.notchAccumulator = 1
      ∧ (s.handleEncoderEvent e millis).2 = []
      ∧ (s.handleEncoderEvent e millis).1.accumulatedDirection = e)
    ∧ (¬ (e ≠ s.accumulatedDirection
        ∨ subU32 millis s.lastNotchTime ≥ ENCODER_PRECISION_RESET_TIMEOUT) →
      (s.handleEncoderEvent e millis).1.notchAccumulator =
        (if wrapInt32 (s.notchAccumulator + 1) ≥ ENCODER_PRECISION_NOTCH_THRESHOLD then 0
          else wrapInt32 (s.notchAccumulator + 1))
      ∧ (s.handleEncoderEvent e millis).2 =
        (if wrapInt32 (s.notchAccumulator + 1) ≥ ENCODER_PRECISION_NOTCH_THRESHOLD
          then (if s.callback then [e] else []) else [])
      ∧ (s.handleEncoderEvent e millis).1.accumulatedDirection = s.accumulatedDirection) := by
  have h : ¬ (if e = s.lastDirection then wrapInt32 (s.consistentDirectionCount + 1) else 1)
      < ENCODER_DIRECTION_CONSISTENCY := by
    rw [if_pos hlast]
    exact not_lt.mpr haccept
  obtain ⟨_, hacc, hev, _, hdir, _, _⟩ := handle_accept s e millis h
  have h1 : ¬ wrapInt32 (0 + 1) ≥ ENCODER_PRECISION_NOTCH_THRESHOLD := by decide
  constructor
  · intro hr
    rw [if_pos hr] at hacc hev
    rw [if_neg h1] at hacc hev
    exact ⟨hacc, hev, hdir⟩
  · intro hr
    rw [if_neg hr] at hacc hev
    refine ⟨hacc, hev, ?_⟩
    rw [hdir]
    by_contra hne
    exact hr (Or.inl hne)

/-- C25 (amended) at a concrete state: one clockwise notch counted at 1000 ms.
A further accepted clockwise delta at 1499 ms is added to it and fires; the
same delta at 1500 ms is counted from zero. -/
theorem accumulator_reset_rule_witness :
    ((RotaryEncoder.handleEncoderEvent
        { lastCount := 0, lastUpdateCount := 2, callback := true, notchAccumulator := 1,
          accumulatedDirection := EncoderEvent.ENCODER_CLOCKWISE, lastNotchTime := 1000,
          lastDirection := EncoderEvent.ENCODER_CLOCKWISE, consistentDirectionCount := 2 }
        EncoderEvent.ENCODER_CLOCKWISE 1500).1.notchAccumulator = 1
      ∧ (RotaryEncoder.handleEncoderEvent
        { lastCount := 0, lastUpdateCount := 2, callback := true, notchAccumulator := 1,
          accumulatedDirection := EncoderEvent.ENCODER_CLOCKWISE, lastNotchTime := 1000,
          lastDirection := EncoderEvent.ENCODER_CLOCKWISE, consistentDirectionCount := 2 }
        EncoderEvent.ENCODER_CLOCKWISE 1500).2 = [])
    ∧ (RotaryEncoder.handleEncoderEvent
        { lastCount := 0, lastUpdateCount := 2, callback := true, notchAccumulator := 1,
          accumulatedDirection := EncoderEvent.ENCODER_CLOCKWISE, lastNotchTime := 1000,
          lastDirection := EncoderEvent.ENCODER_CLOCKWISE, consistentDirectionCount := 2 }
        EncoderEvent.ENCODER_CLOCKWISE 1499).2 = [EncoderEvent.ENCODER_CLOCKWISE] :=
  have h := fun millis => accumulator_reset_rule
    { lastCount := 0, lastUpdateCount := 2, callback := true, notchAccumulator := 1,
      accumulatedDirection := EncoderEvent.ENCODER_CLOCKWISE, lastNotchTime := 1000,
      lastDirection := EncoderEvent.ENCODER_CLOCKWISE, consistentDirectionCount := 2 }
    EncoderEvent.ENCODER_CLOCKWISE millis rfl (by decide)
  ⟨⟨((h 1500).1 (by decide)).1, ((h 1500).1 (by decide)).2.1⟩,
    ((h 1499).2 (by decide)).2.1.trans (by decide)⟩

/-- C26: fire-and-reset. Each call of handleEncoderEvent invokes the callback
at most once, and only with the direction of the current delta. With a
callback registered it does so exactly when the delta passes the consistency
filter and the incremented accumulator (counted from zero after a reset) is
at least ENCODER_PRECISION_NOTCH_THRESHOLD; whenever that level is reached,
callback or not, the accumulator is 0 afterwards. Hence after every sequence
of handleEncoderEvent and update calls from the initial state
0 <= notchAccumulator < ENCODER_PRECISION_NOTCH_THRESHOLD. -/
theorem encoder_fire_and_reset :
    (∀ (s : RotaryEncoder) (e : EncoderEvent) (millis : Nat),
        (s.handleEncoderEvent e millis).2 = [] ∨ (s.handleEncoderEvent e millis).2 = [e])
    ∧ (∀ (s : RotaryEncoder) (e : EncoderEvent) (millis : Nat), s.callback = true →
        ((s.handleEncoderEvent e millis).2 = [e] ↔
          (¬ (if e = s.lastDirection then wrapInt32 (s.consistentDirectionCount + 1) else 1)
              < ENCODER_DIRECTION_CONSISTENCY
           ∧ wrapInt32 ((if e ≠ s.accumulatedDirection
                  ∨ subU32 millis s.lastNotchTime ≥ ENCODER_PRECISION_RESET_TIMEOUT
                then 0 else s.notchAccumulator) + 1) ≥ ENCODER_PRECISION_NOTCH_THRESHOLD)))
    ∧ (∀ (s : RotaryEncoder) (e : EncoderEvent) (millis : Nat),
        (¬ (if e = s.lastDirection then wrapInt32 (s.consistentDirectionCount + 1) else 1)
              < ENCODER_DIRECTION_CONSISTENCY
           ∧ wrapInt32 ((if e ≠ s.accumulatedDirection
                  ∨ subU32 millis s.lastNotchTime ≥ ENCODER_PRECISION_RESET_TIMEOUT
                then 0 else s.notchAccumulator) + 1) ≥ ENCODER_PRECISION_NOTCH_THRESHOLD) →
        (s.handleEncoderEvent e millis).1.notchAccumulator = 0)
    ∧ (∀ (callback : Bool) (cs : List EncoderCall),
        0 ≤ ((RotaryEncoder.new.setCallback callback).calls cs).notchAccumulator
        ∧ ((RotaryEncoder.new.setCallback callback).calls cs).notchAccumulator
            < ENCODER_PRECISION_NOTCH_THRESHOLD) := by
  refine ⟨?_, ?_, ?_, ?_⟩
  · intro s e t
    by_cases hne : (s.handleEncoderEvent e t).2 = []
    · exact Or.inl hne
    · obtain ⟨d, hd⟩ := List.exists_mem_of_ne_nil _ hne
      exact Or.inr (handle_fire s e t d hd).2.2.1
  · intro s e t hcb
    constructor
    · intro hfire
      by_cases h : (if e = s.lastDirection then wrapInt32 (s.consistentDirectionCount + 1)
          else 1) < ENCODER_DIRECTION_CONSISTENCY
      · rw [(handle_reject s e t h).1] at hfire
        exact absurd hfire (by simp)
      · refine ⟨h, ?_⟩
        by_contra hth
        rw [(handle_accept s e t h).2.2.1, if_neg hth] at hfire
        exact absurd hfire (by simp)
    · intro h
      rw [(handle_accept s e t h.1).2.2.1, if_pos h.2, if_pos hcb]
  · intro s e t h
    rw [(handle_accept s e t h.1).2.1, if_pos h.2]
  · intro cb cs
    exact calls_inv cs (RotaryEncoder.new.setCallback cb) (le_refl 0) (by cases cb <;> decide)

/-- C26 at a concrete run: with a callback, the deltas CW, CW, CW arrive at
1000, 1100 and 1200 ms through handleEncoderEvent and an update poll follows;
the third delta fires and the accumulator is 0 after it, and the bounds hold
at the end. -/
theorem encoder_fire_and_reset_witness :
    ((RotaryEncoder.new.setCallback true).feed
        [(EncoderEvent.ENCODER_CLOCKWISE, 1000), (EncoderEvent.ENCODER_CLOCKWISE, 1100),
         (EncoderEvent.ENCODER_CLOCKWISE, 1200)]).2 = [EncoderEvent.ENCODER_CLOCKWISE]
    ∧ 0 ≤ ((RotaryEncoder.new.setCallback true).calls
        [EncoderCall.handleEncoderEvent EncoderEvent.ENCODER_CLOCKWISE 1000,
         EncoderCall.handleEncoderEvent EncoderEvent.ENCODER_CLOCKWISE 1100,
         EncoderCall.handleEncoderEvent EncoderEvent.ENCODER_CLOCKWISE 1200,
         EncoderCall.update 1 1300 1300]).notchAccumulator
    ∧ ((RotaryEncoder.new.setCallback true).calls
        [EncoderCall.handleEncoderEvent EncoderEvent.ENCODER_CLOCKWISE 1000,
         EncoderCall.handleEncoderEvent EncoderEvent.ENCODER_CLOCKWISE 1100,
         EncoderCall.handleEncoderEvent EncoderEvent.ENCODER_CLOCKWISE 1200,
         EncoderCall.update 1 1300 1300]).notchAccumulator
        < ENCODER_PRECISION_NOTCH_THRESHOLD :=
  ⟨by decide, (encoder_fire_and_reset.2.2.2 true _).1, (encoder_fire_and_reset.2.2.2 true _).2⟩

/-- C27: for every sequence of raw deltas fed from the initial state (with or
without a callback), whenever handleEncoderEvent invokes the callback with
direction d on the next delta, that delta has direction d, the sequence fed
before is not empty and its last delta has direction d as well, and
accumulatedDirection is d afterwards; a delta whose direction differs from
its predecessor invokes no callback. -/
theorem rotation_needs_two_agreeing_deltas :
    (∀ (callback : Bool) (before : List (EncoderEvent × Nat)) (e : EncoderEvent) (millis : Nat)
        (d : EncoderEvent),
        d ∈ (((RotaryEncoder.new.setCallback callback).feed before).1.handleEncoderEvent
              e millis).2 →
        e = d
        ∧ (∃ (earlier : List (EncoderEvent × Nat)) (t0 : Nat), before = earlier ++ [(d, t0)])
        ∧ (((RotaryEncoder.new.setCallback callback).feed before).1.handleEncoderEvent
              e millis).1.accumulatedDirection = d)
    ∧ (∀ (callback : Bool) (earlier : List (EncoderEvent × Nat)) (p : EncoderEvent) (t0 : Nat)
        (e : EncoderEvent) (millis : Nat), p ≠ e →
        (((RotaryEncoder.new.setCallback callback).feed (earlier ++ [(p, t0)])).1.handleEncoderEvent
              e millis).2 = []) := by
  have hlast : ∀ (cb : Bool) (earlier : List (EncoderEvent × Nat)) (p : EncoderEvent)
      (t0 : Nat),
      ((RotaryEncoder.new.setCallback cb).feed (earlier ++ [(p, t0)])).1.lastDirection = p := by
    intro cb earlier p t0
    rw [feed_snoc]
    exact (handle_lastDirection _ p t0).1
  constructor
  · intro cb before e t d hd
    have hf := handle_fire _ e t d hd
    refine ⟨hf.1, ?_, hf.2.2.2.1⟩
    rcases List.eq_nil_or_concat before with hnil | ⟨earlier, x, hx⟩
    · subst hnil
      have hrej : (if e = (RotaryEncoder.new.setCallback cb).lastDirection
          then wrapInt32 ((RotaryEncoder.new.setCallback cb).consistentDirectionCount + 1)
          else 1) < ENCODER_DIRECTION_CONSISTENCY := by
        cases e <;> cases cb <;> decide
      have hnone := (handle_reject (RotaryEncoder.new.setCallback cb) e t hrej).1
      have hd2 : d ∈ ((RotaryEncoder.new.setCallback cb).handleEncoderEvent e t).2 := hd
      rw [hnone] at hd2
      exact absurd hd2 (List.not_mem_nil d)
    · obtain ⟨p, t0⟩ := x
      rw [List.concat_eq_append] at hx
      subst hx
      have hp : e = p := hf.2.1.trans (hlast cb earlier p t0)
      exact ⟨earlier, t0, by rw [← hf.1, hp]⟩
  · intro cb earlier p t0 e t hpe
    by_contra hne
    obtain ⟨d, hd⟩ := List.exists_mem_of_ne_nil _ hne
    have hf := handle_fire _ e t d hd
    exact hpe (hf.2.1.trans (hlast cb earlier p t0)).symm

/-- C27 at a concrete run: after CW, CW, CW the third delta fires clockwise;
after CW, CW, CCW the third delta fires nothing. -/
theorem rotation_needs_two_agreeing_deltas_witness :
    EncoderEvent.ENCODER_CLOCKWISE ∈
        (((RotaryEncoder.new.setCallback true).feed
            [(EncoderEvent.ENCODER_CLOCKWISE, 1000),
             (EncoderEvent.ENCODER_CLOCKWISE, 1100)]).1.handleEncoderEvent
          EncoderEvent.ENCODER_CLOCKWISE 1200).2
    ∧ (((RotaryEncoder.new.setCallback true).feed
            ([(EncoderEvent.ENCODER_CLOCKWISE, 1000)]
              ++ [(EncoderEvent.ENCODER_CLOCKWISE, 1100)])).1.handleEncoderEvent
          EncoderEvent.ENCODER_COUNTER_CLOCKWISE 1200).2 = [] :=
  ⟨by decide,
    rotation_needs_two_agreeing_deltas.2 true [(EncoderEvent.ENCODER_CLOCKWISE, 1000)]
      EncoderEvent.ENCODER_CLOCKWISE 1100 EncoderEvent.ENCODER_COUNTER_CLOCKWISE 1200
      (by decide)⟩

end Yapper
